import Mathlib

/-!
MERG CAN WiFi bridge: bus identity engine, session manager, message fabric.

A shallow embedding of the parts of `cbus.cpp`, `cmdproxy.cpp`, `withrottle.cpp`,
`dccppser.cpp` and `defs.h` that the specification's properties are about, followed
by the theorems that settle them.

Conventions of the embedding:

* a C `byte` / `unsigned int` / `unsigned long` is a `Nat`; where the source relies on
  wrap-around the reduction `% 2 ^ w` is written out;
* a global variable that a block of code reads and writes is a field of an explicit
  state record which the block's model takes and returns;
* a frame handed to `send_message_to_queues` / `send_CAN_message` and a command handed to
  `send_dccpp_command` are collected, in program order, in output lists;
* an array access whose index the source does not keep inside the array is reported as
  an explicit `out_of_bounds` outcome instead of being given a meaning; in the throttle
  server's message processing the result is `none` there;
* `millis()` is read as one value `now` for each block modelled (a handler, a sweep, one
  pass of a loop);
* a local array that the source reads without having written it (`tokens` in
  `process_wt_message`) is a parameter of the model; so are a frame byte that a handler
  sends without assigning it (`of_data1`) and the previous contents of the variables
  handed to `sscanf` (`prev`), which stay when a conversion is not reached.
-/

namespace Bridge

/-! ## Constants (`defs.h`, `cmdproxy.cpp`) -/

def MAX_NET_PEERS : Nat := 8
def PROXY_BUF_LEN : Nat := 32
def NUM_PROXY_CMDS : Nat := 8
def NUM_CBUS_NVS : Nat := 16
def MAX_PROXY_SESSIONS : Nat := 8
def DCC_DIR_REV : Bool := false
def DCC_DIR_FWD : Bool := true

/-- The session opcodes, as the comments of `cmdproxy.cpp` give them. -/
def OPC_RLOC : Nat := 0x40
def OPC_DSPD : Nat := 0x47
def OPC_DFUN : Nat := 0x60

/-- Modelled from the spec: `cbusdefs.h` is not among the sources; this is the opcode of the
bus error response ("loco taken", "no free sessions"). -/
def OPC_ERR : Nat := 0x63

/-- Modelled from the spec: `cbusdefs.h` is not among the sources; this is the opcode of the
acknowledgement carrying the node number that closes an arbitration round. -/
def OPC_NNACK : Nat := 0x52

/-! ## Arduino helpers -/

/-- Arduino `bitRead(value, bit)` is `((value) >> (bit)) & 0x01`. -/
def bitRead (value bit : Nat) : Nat := (value / 2 ^ bit) % 2

/-- Arduino `bitSet(value, bit)` is `value |= (1UL << bit)`. -/
def bitSet (value bit : Nat) : Nat :=
  if bitRead value bit = 1 then value else value + 2 ^ bit

/-- Arduino `bitClear(value, bit)` is `value &= ~(1UL << bit)`. -/
def bitClear (value bit : Nat) : Nat :=
  if bitRead value bit = 1 then value - 2 ^ bit else value

/-- Arduino `bitWrite(value, bit, bitvalue)` sets the bit when `bitvalue` is non-zero and clears
it otherwise. -/
def bitWrite (value bit : Nat) (bitvalue : Bool) : Nat :=
  if bitvalue then bitSet value bit else bitClear value bit

/-- The difference `now - since` on `unsigned long` (32 bits) millisecond counters, as in
`millis() - enum_start_time`. -/
def elapsed (now since : Nat) : Nat := (now + 4294967296 - since) % 4294967296

/-- Arduino `highByte(w)` of a 16-bit word. -/
def highByte (w : Nat) : Nat := (w / 256) % 256

/-- Arduino `lowByte(w)`. -/
def lowByte (w : Nat) : Nat := w % 256

/-! ## Bus frames -/

/-- The fields of `twai_message_t` the code uses. `data` holds the payload bytes the code
has assigned, `flags` is `none` for a frame whose `flags` the code never assigns. -/
structure twai_message_t where
  identifier : Nat
  data_length_code : Nat
  flags : Option Nat
  data : List Nat
deriving DecidableEq, Repr

/-- The byte `cf.data[k]` of a received frame. -/
def twai_message_t.byte (cf : twai_message_t) (k : Nat) : Nat := cf.data.getD k 0

/-- The function `make_can_header` (cbus.cpp): the CANID with bits 7, 8 and 10 set and
bit 9 clear. -/
def make_can_header (CANID : Nat) : Nat :=
  bitSet (bitClear (bitSet (bitSet CANID 7) 8) 9) 10

/-! ## Bus identity engine: end of the enumeration cycle (`cbus_task`) -/

/-- The local variables of the scan at the end of an enumeration cycle, with the array
`proxy_canids` it writes; `enum_done` records that `goto enum_done` has been taken. -/
structure enum_scan where
  selected_id : Nat
  proxy_idx : Int
  proxy_canids : List Nat
  enum_done : Bool
deriving DecidableEq, Repr

/-- The body of the inner loop for byte `i` and bit `b`. -/
def scan_bit (enum_responses : List Nat) (i b : Nat) (s : enum_scan) : enum_scan :=
  if s.enum_done then s
  else if i = 0 ∧ b = 0 then s
  else if enum_responses.getD i 0 = 0xff then s
  else if bitRead (enum_responses.getD i 0) b = 0 then
    let free_id := ((i * 8) + b) % 256
    if s.proxy_idx = -1 then
      { s with selected_id := free_id, proxy_idx := s.proxy_idx + 1 }
    else if s.proxy_idx < MAX_NET_PEERS then
      { s with proxy_canids := s.proxy_canids.set s.proxy_idx.toNat s.selected_id,
               proxy_idx := s.proxy_idx + 1 }
    else if s.proxy_idx = MAX_NET_PEERS then
      { s with enum_done := true }
    else s
  else s

/-- The inner loop `for (byte b = 0; b < 8; b++)`. -/
def scan_byte (enum_responses : List Nat) (i : Nat) (s : enum_scan) : enum_scan :=
  (List.range 8).foldl (fun s b => scan_bit enum_responses i b s) s

/-- The outer loop `for (byte i = 0; i < 16; i++)`, started with `selected_id = 0` and
`proxy_idx = -1` on the current contents of `proxy_canids`. -/
def scan_responses (enum_responses proxy_canids : List Nat) : enum_scan :=
  (List.range 16).foldl (fun s i => scan_byte enum_responses i s)
    { selected_id := 0, proxy_idx := -1, proxy_canids := proxy_canids, enum_done := false }

/-- The globals of `cbus.cpp` and the fields of `config_data` the bus identity engine uses. -/
structure cbus_state where
  CANID : Nat
  node_number : Nat
  cbus_mode : Bool
  node_variables : List Nat
  enum_required : Bool
  enum_in_progress : Bool
  respond_to_enum : Bool
  enum_responses : List Nat
  proxy_canids : List Nat
  learn_mode : Bool
  in_transition : Bool
  enum_start_time : Nat
  ttimer : Nat
deriving DecidableEq, Repr

/-- The block "check for end of enumeration cycle and process data" of `cbus_task`, run at
time `now` (`millis()`, 32-bit). Returns the new state and the frames sent. -/
def end_of_enumeration (st : cbus_state) (now : Nat) : cbus_state × List twai_message_t :=
  if st.enum_in_progress ∧ elapsed now st.enum_start_time ≥ 100 then
    let sc := scan_responses st.enum_responses st.proxy_canids
    let st1 := { st with enum_in_progress := false,
                         proxy_canids := sc.proxy_canids,
                         CANID := sc.selected_id }
    let ack : twai_message_t :=
      { identifier := make_can_header st1.CANID,
        data_length_code := 3,
        flags := none,
        data := [OPC_NNACK, highByte st1.node_number, lowByte st1.node_number] }
    (st1, [ack])
  else (st, [])

/-- Bit `k` of the 128-bit enumeration bitmap is clear (address `k` was not seen). -/
def bit_clear (enum_responses : List Nat) (k : Nat) : Prop :=
  bitRead (enum_responses.getD (k / 8) 0) (k % 8) = 0

instance (enum_responses : List Nat) (k : Nat) : Decidable (bit_clear enum_responses k) := by
  unfold bit_clear; infer_instance

/-- A node in the middle of a round that started at time 0, having seen the addresses in
`enum_responses`. -/
def round_state (enum_responses : List Nat) : cbus_state :=
  { CANID := 5, node_number := 300, cbus_mode := true,
    node_variables := List.replicate 16 0,
    enum_required := false, enum_in_progress := true, respond_to_enum := false,
    enum_responses := enum_responses, proxy_canids := List.replicate 8 0,
    learn_mode := false, in_transition := false, enum_start_time := 0, ttimer := 0 }

/-- What the scan has established once every position below `n` has been visited. -/
def scan_inv (resp : List Nat) (n : Nat) (s : enum_scan) : Prop :=
  (s.proxy_idx = -1 ∧ s.enum_done = false ∧ s.selected_id = 0 ∧
      ∀ j, 1 ≤ j → j < n → ¬ bit_clear resp j) ∨
  (0 ≤ s.proxy_idx ∧ 1 ≤ s.selected_id ∧ s.selected_id < n ∧ bit_clear resp s.selected_id ∧
      ∀ j, 1 ≤ j → j < s.selected_id → ¬ bit_clear resp j)

/-! ## Session manager (`cmdproxy.cpp`) -/

/-- An entry of `session_tab` (`struct _session`). -/
structure session where
  active : Bool
  cbus_session_num : Nat
  loco_addr : Nat
  speed : Nat
  direction : Bool
  session_ack : Bool
  CANID : Nat
  last_activity : Nat
deriving DecidableEq, Repr, Inhabited

/-- The session table after "init session table": zeroed, slot `i` numbered `i + 1`. -/
def session_tab_init : List session :=
  (List.range MAX_PROXY_SESSIONS).map fun i =>
    { active := false, cbus_session_num := i + 1, loco_addr := 0, speed := 0,
      direction := false, session_ack := false, CANID := 0, last_activity := 0 }

/-- The element `session_tab[i]`, for an index inside the table. -/
def slot (t : List session) (i : Nat) : session := t.getD i default

/-- The call `snprintf(buffer, size, ...)` keeps at most `size - 1` characters of the formatted text. -/
def snprintf (size : Nat) (text : String) : String := String.mk (text.data.take (size - 1))

/-- The number printed by `%d` for a `bool` argument. -/
def bool_d (b : Bool) : Nat := if b then 1 else 0

/-- The text `snprintf(buffer, sizeof(buffer), "<t %d %d %d %d>", reg, addr, speed, dir)`. -/
def fmt_t (reg addr speed : Nat) (dir : Bool) : String :=
  snprintf PROXY_BUF_LEN ("<t " ++ toString reg ++ " " ++ toString addr ++ " " ++
    toString speed ++ " " ++ toString (bool_d dir) ++ ">")

/-- The text `snprintf(buffer, sizeof(buffer), "<f %d %d %d>", addr, b1, b2)`. -/
def fmt_f (addr b1 b2 : Nat) : String :=
  snprintf PROXY_BUF_LEN ("<f " ++ toString addr ++ " " ++ toString b1 ++ " " ++
    toString b2 ++ ">")

/-- The function `send_cbus_session_error(errnum, cf)`: the frame it hands to `send_CAN_message`, built
with the node's current `CANID`. The source stores the constant 1 in `data[3]`. -/
def send_cbus_session_error (_errnum : Nat) (cf : twai_message_t) (CANID : Nat) :
    twai_message_t :=
  { identifier := make_can_header CANID,
    data_length_code := 4,
    flags := some 0,
    data := [OPC_ERR, cf.byte 1, cf.byte 2, 1] }

/-- What one pass of an opcode handler leaves behind: the session table, the frames given
to `send_CAN_message` and the commands given to `send_dccpp_command`, in program order. -/
structure proxy_out where
  tab : List session
  frames : List twai_message_t
  cmds : List String
deriving DecidableEq, Repr

/-- A search loop `for (i = 0; i < MAX_PROXY_SESSIONS; i++) { if (p(session_tab[i])) { ...; break; } }`
run from index `i` for `fuel` more iterations: the value of `i` after the loop. -/
def first_slot (p : session → Bool) (t : List session) : Nat → Nat → Nat
  | 0, i => i
  | fuel + 1, i => if p (slot t i) then i else first_slot p t fuel (i + 1)

/-- The variables the third search loop of the RLOC handler works on. -/
structure dispatched_search where
  i : Nat
  reusing_dispatched_session : Bool
  cmds : List String
deriving DecidableEq, Repr

/-- The loop "finally, find a free slot with a dispatched loco" of the RLOC handler, run
from index `st.i` for `fuel` more iterations. Its body sends a stop command for every
inactive slot with a non-zero address and does not leave the loop. -/
def dispatched_loop (t : List session) : Nat → dispatched_search → dispatched_search
  | 0, st => st
  | fuel + 1, st =>
    if (!(slot t st.i).active && decide ((slot t st.i).loco_addr > 0)) then
      dispatched_loop t fuel
        { i := st.i + 1,
          reusing_dispatched_session := true,
          cmds := st.cmds ++ [fmt_t (st.i + 1) (slot t st.i).loco_addr 0 (slot t st.i).direction] }
    else
      dispatched_loop t fuel { st with i := st.i + 1 }

/-- The loco address an RLOC frame asks for, `(cf.data[1] << 8) + cf.data[2]`. -/
def rloc_addr (cf : twai_message_t) : Nat := cf.byte 1 * 256 + cf.byte 2

/-- The value of `i` after the loop "attempt to find existing session for this loco address". -/
def find_session (t : List session) (taddr : Nat) : Nat :=
  first_slot (fun s => decide (s.loco_addr = taddr)) t MAX_PROXY_SESSIONS 0

/-- The value of `i` after the loop "otherwise, find a free, unused slot". -/
def find_unused (t : List session) : Nat :=
  first_slot (fun s => !s.active && decide (s.loco_addr = 0)) t MAX_PROXY_SESSIONS 0

/-- The loop "finally, find a free slot with a dispatched loco", from `i = 0`. -/
def stop_dispatched (t : List session) : dispatched_search :=
  dispatched_loop t MAX_PROXY_SESSIONS
    { i := 0, reusing_dispatched_session := false, cmds := [] }

/-- The block "update/refresh session slot data" applied to the slot contents `s`. -/
def refresh_slot (s : session) (taddr ident now : Nat) (reusing_dispatched_session : Bool) :
    session :=
  let s1 : session :=
    { s with active := true, loco_addr := taddr, session_ack := false,
             CANID := ident % 128, last_activity := now }
  if !reusing_dispatched_session then
    { s1 with speed := 0, direction := DCC_DIR_FWD }
  else s1

/-- The `case OPC_RLOC` of `cmdproxy_task` for the received frame `cf`, at time `now`
(`millis()`), the node having bus address `CANID`. -/
def rloc (t : List session) (cf : twai_message_t) (now CANID : Nat) : proxy_out :=
  let taddr := rloc_addr cf
  -- attempt to find existing session for this loco address
  let i1 := find_session t taddr
  if i1 < MAX_PROXY_SESSIONS ∧ (slot t i1).active = true then
    -- loco taken error, bail out
    { tab := t, frames := [send_cbus_session_error 2 cf CANID], cmds := [] }
  else
    -- otherwise, find a free, unused slot
    let i2 := if i1 = MAX_PROXY_SESSIONS then find_unused t else i1
    -- finally, find a free slot with a dispatched loco
    let st3 : dispatched_search :=
      if i2 = MAX_PROXY_SESSIONS then stop_dispatched t
      else { i := i2, reusing_dispatched_session := false, cmds := [] }
    if st3.i = MAX_PROXY_SESSIONS then
      -- no free sessions error, bail out
      { tab := t, frames := [send_cbus_session_error 1 cf CANID], cmds := st3.cmds }
    else if st3.i < MAX_PROXY_SESSIONS then
      -- we have a valid session for this command
      let s := refresh_slot (slot t st3.i) taddr cf.identifier now st3.reusing_dispatched_session
      { tab := t.set st3.i s, frames := [],
        cmds := st3.cmds ++ [fmt_t s.cbus_session_num s.loco_addr s.speed s.direction] }
    else { tab := t, frames := [], cmds := st3.cmds }

/-- The result of a handler that indexes `session_tab` with a value taken from the frame:
either it ran inside the table, or it touched `session_tab[idx]` with `idx` outside
`0 .. MAX_PROXY_SESSIONS - 1`, which the embedding does not give a meaning to. -/
inductive outcome where
  | done (o : proxy_out)
  | out_of_bounds (idx : Int)
deriving DecidableEq, Repr

/-- The `case OPC_DSPD` of `cmdproxy_task`. `i` is a `byte`, so `cf.data[1] - 1` wraps. -/
def dspd (t : List session) (cf : twai_message_t) (now CANID : Nat) : outcome :=
  let i := (cf.byte 1 + 255) % 256
  if i > MAX_PROXY_SESSIONS then
    .done { tab := t, frames := [send_cbus_session_error 1 cf CANID], cmds := [] }
  else if i < MAX_PROXY_SESSIONS then
    let s := slot t i
    let s1 : session :=
      { s with active := true, speed := cf.byte 2 % 128,
               direction := decide (bitRead (cf.byte 2) 7 = 1),
               last_activity := now, CANID := cf.identifier % 128 }
    .done { tab := t.set i s1, frames := [],
            cmds := [fmt_t s1.cbus_session_num s1.loco_addr s1.speed s1.direction] }
  else .out_of_bounds i

/-- The `case OPC_DFUN` of `cmdproxy_task`. -/
def dfun (t : List session) (cf : twai_message_t) (now : Nat) (CANID : Nat) : outcome :=
  let i := (cf.byte 1 + 255) % 256
  if i > MAX_PROXY_SESSIONS then
    .done { tab := t, frames := [send_cbus_session_error 1 cf CANID], cmds := [] }
  else if i < MAX_PROXY_SESSIONS then
    let s := slot t i
    let s1 : session :=
      { s with active := true, last_activity := now, CANID := cf.identifier % 128 }
    .done { tab := t.set i s1, frames := [],
            cmds := [fmt_f s1.loco_addr (cf.byte 2) (cf.byte 3)] }
  else .out_of_bounds i

/-! ## Message fabric: the command ring buffers (`defs.h`, `cmdproxy.cpp`, `dccppser.cpp`) -/

/-- The ring buffer `message_buffer_t`: `NUM_PROXY_CMDS` rows of `PROXY_BUF_LEN` characters
with the indices `head` and `tail`. A row is kept as the text it holds. -/
structure message_buffer_t where
  buffer : List String
  head : Nat
  tail : Nat
deriving DecidableEq, Repr

/-- The call `strncpy(row, cmd, PROXY_BUF_LEN)`: the row receives at most `PROXY_BUF_LEN` characters. -/
def strncpy (cmd : String) (n : Nat) : String := String.mk (cmd.data.take n)

/-- The function `send_dccpp_command(cmd)` (cmdproxy.cpp, and likewise withrottle.cpp and the two writes in
dccppser.cpp) once the mutex is held: copy into the row at `head`, advance `head`. -/
def send_dccpp_command (mb : message_buffer_t) (cmd : String) : message_buffer_t :=
  { mb with buffer := mb.buffer.set mb.head (strncpy cmd PROXY_BUF_LEN),
            head := (mb.head + 1) % NUM_PROXY_CMDS }

/-- The reader's block in `dccppser_task` ("from proxy task") once the mutex is held: when
`head != tail` the row at `tail` is written to the serial port and `tail` advances. -/
def read_command (mb : message_buffer_t) : Option String × message_buffer_t :=
  if mb.head ≠ mb.tail then
    (some (mb.buffer.getD mb.tail ""), { mb with tail := (mb.tail + 1) % NUM_PROXY_CMDS })
  else (none, mb)

/-- An access to a ring buffer by one of its two tasks. -/
inductive rb_op where
  | push (cmd : String)
  | pop
deriving DecidableEq, Repr

/-- A ring buffer with the bookkeeping the properties speak about: `unread` lists, oldest
first, the rows that have been written and not yet read, and `overwritten` records that
some write went to a row that was still in `unread`. -/
structure rb_trace where
  mb : message_buffer_t
  unread : List Nat
  overwritten : Bool
deriving DecidableEq, Repr

/-- A buffer in which nothing has been written yet. -/
def rb_start (mb : message_buffer_t) : rb_trace :=
  { mb := mb, unread := [], overwritten := false }

/-- One access: the code's effect on the buffer, with the bookkeeping kept alongside. -/
def rb_step (g : rb_trace) : rb_op → rb_trace
  | .push cmd =>
    { mb := send_dccpp_command g.mb cmd,
      unread := g.unread ++ [g.mb.head],
      overwritten := g.overwritten || decide (g.mb.head ∈ g.unread) }
  | .pop =>
    match (read_command g.mb).1 with
    | some _ => { g with mb := (read_command g.mb).2, unread := g.unread.tail }
    | none => g

/-- A sequence of accesses. -/
def rb_run (g : rb_trace) (ops : List rb_op) : rb_trace := ops.foldl rb_step g

/-- No write of the sequence is made while `NUM_PROXY_CMDS - 1` rows are unread. -/
def within_capacity (g : rb_trace) : List rb_op → Bool
  | [] => true
  | .push cmd :: ops =>
    decide (g.unread.length < NUM_PROXY_CMDS - 1) && within_capacity (rb_step g (.push cmd)) ops
  | .pop :: ops => within_capacity (rb_step g .pop) ops

/-- What holds of a buffer that has been used within its capacity: the unread rows are the
rows from `tail` up to `head`, fewer than `NUM_PROXY_CMDS` of them, none overwritten. -/
def rb_inv (g : rb_trace) : Prop :=
  g.mb.head < NUM_PROXY_CMDS ∧ g.mb.tail < NUM_PROXY_CMDS ∧
  g.unread.length < NUM_PROXY_CMDS ∧ g.overwritten = false ∧
  g.mb.head = (g.mb.tail + g.unread.length) % NUM_PROXY_CMDS ∧
  g.unread = (List.range g.unread.length).map (fun k => (g.mb.tail + k) % NUM_PROXY_CMDS)

/-! ## Throttle protocol server: function bytes (`withrottle.cpp`, `do_wt_action`) -/

/-- The digits read by `atoi`, accumulated into `acc`. -/
def atoi_digits : List Char → Nat → Nat
  | [], acc => acc
  | c :: cs, acc => if c.isDigit then atoi_digits cs (acc * 10 + (c.toNat - 48)) else acc

/-- The C library `isspace` in the C locale. -/
def isspace (c : Char) : Bool :=
  c = ' ' || (9 ≤ c.toNat && c.toNat ≤ 13)

/-- The C library `atoi` on a C string: leading white space, an optional sign, then
decimal digits. -/
def atoi (s : List Char) : Int :=
  match s.dropWhile isspace with
  | '-' :: cs => - (atoi_digits cs 0 : Int)
  | '+' :: cs => (atoi_digits cs 0 : Int)
  | cs => (atoi_digits cs 0 : Int)

/-- The `switch (func_num)` of `case 'F'` in `do_wt_action`: the pair `(fb1, fb2)`. -/
def func_bytes (func_num func_state : Nat) : Nat × Nat :=
  match func_num with
  | 0 => ((128 + (func_state * 16)) % 256, 0)
  | 1 => ((128 + (func_state * 1)) % 256, 0)
  | 2 => ((128 + (func_state * 2)) % 256, 0)
  | 3 => ((128 + (func_state * 4)) % 256, 0)
  | 4 => ((128 + (func_state * 8)) % 256, 0)
  | 5 => ((176 + (func_state * 1)) % 256, 0)
  | 6 => ((128 + (func_state * 2)) % 256, 0)
  | 7 => ((128 + (func_state * 4)) % 256, 0)
  | 8 => ((128 + (func_state * 8)) % 256, 0)
  | 9 => ((160 + (func_state * 1)) % 256, 0)
  | 10 => ((160 + (func_state * 2)) % 256, 0)
  | 11 => ((160 + (func_state * 4)) % 256, 0)
  | 12 => ((160 + (func_state * 8)) % 256, 0)
  | _ => (0, 0)

/-- The function bytes `do_wt_action` computes in `case 'F'` from the token `tok1`:
`func_state = (tok1[1] == '1')`, `func_num = atoi(&tok1[2])` stored in a `byte`. -/
def do_wt_action_func_bytes (tok1 : String) : Nat × Nat :=
  let func_state : Nat := if tok1.data.getD 1 (Char.ofNat 0) = '1' then 1 else 0
  let func_num : Nat := (atoi (tok1.data.drop 2) % 256).toNat
  func_bytes func_num func_state

/-- The function-group encoding as the specification states it, for function `n` in 0..12
and state `b`: F0-F4 give `128 + b * w` with `w = 16, 1, 2, 4, 8`, F5-F8 give
`176 + b * 2 ^ (n - 5)`, F9-F12 give `160 + b * 2 ^ (n - 9)`. -/
def function_group_byte (n b : Nat) : Nat :=
  if n = 0 then 128 + b * 16
  else if n ≤ 4 then 128 + b * 2 ^ (n - 1)
  else if n ≤ 8 then 176 + b * 2 ^ (n - 5)
  else 160 + b * 2 ^ (n - 9)

/-! ## Session manager: the time-out sweep (`cmdproxy_task`) -/

/-- The loop "check CAB activity - timed out sessions are dispatched" from index `i` for
`fuel` more iterations, at time `now` (`millis()`). -/
def sweep_loop (now : Nat) : Nat → Nat → List session → List session
  | 0, _, t => t
  | fuel + 1, i, t =>
    if (slot t i).active = true ∧ elapsed now (slot t i).last_activity > 60000 then
      sweep_loop now fuel (i + 1) (t.set i { slot t i with active := false })
    else sweep_loop now fuel (i + 1) t

/-- The time-out sweep at the top of the main loop of `cmdproxy_task`. -/
def timeout_sweep (t : List session) (now : Nat) : List session :=
  sweep_loop now MAX_PROXY_SESSIONS 0 t

/-- The effect of the sweep on a single entry. -/
def sweep_slot (s : session) (now : Nat) : session :=
  if s.active = true ∧ elapsed now s.last_activity > 60000 then { s with active := false }
  else s

/-! ## Throttle protocol server: client records and bus frames (`withrottle.cpp`) -/

def MAX_WITHROTTLE_CLIENTS : Nat := 4
def W_FREE : Nat := 0
def W_CONNECTED : Nat := 1
def W_AWAITING_SESSION_ID : Nat := 2
def W_ACTIVE : Nat := 3
def W_CLOSING : Nat := 99
def DCC_UNK : Nat := 0
def DCC_MERG : Nat := 1
def DCC_DCCPP : Nat := 2

/-- An entry of `w_clients` (`withrottle_client_t`). `client` is `true` for a non-NULL
connection object; `buffer` is the 64-character input array; the fields `ip` and `port`,
which are only logged, are left out. -/
structure withrottle_client_t where
  client : Bool
  buffer : List Char
  idx : Nat
  state : Nat
  device_name : String
  device_id : String
  loco_addr : Int
  loco_addr_type : Char
  speed : Nat
  direction : Bool
  session_id : Nat
  throttle_sends_heartbeat : Bool
  last_heartbeat_received : Nat
deriving DecidableEq, Repr

/-- The function `send_merg_dspd(i)` for the client record `c`: the frame it hands to
`send_to_queues`, or `none` when it returns without sending. -/
def send_merg_dspd (c : withrottle_client_t) (CANID : Nat) : Option twai_message_t :=
  if c.state ≠ W_ACTIVE ∨ c.session_id = 0 then none
  else
    some { identifier := make_can_header CANID, data_length_code := 3, flags := none,
           data := [OPC_DSPD, c.session_id, bitWrite (c.speed % 256) 7 c.direction] }

/-! ## Bus identity engine: switch, main loop and opcode dispatch (`switch.cpp`, `cbus.cpp`) -/

/-- Modelled from the spec: `cbusdefs.h` is not among the sources; opcode "set node number". -/
def OPC_SNN : Nat := 0x42

/-- Modelled from the spec: `cbusdefs.h` is not among the sources; opcode "query node number". -/
def OPC_QNN : Nat := 0x0D

/-- Modelled from the spec: `cbusdefs.h` is not among the sources; opcode "set address". -/
def OPC_CANID : Nat := 0x75

/-- Modelled from the spec: `cbusdefs.h` is not among the sources; opcode "force enumerate". -/
def OPC_ENUM : Nat := 0x5D

/-- Modelled from the spec: `cbusdefs.h` is not among the sources; opcode "enter learn mode". -/
def OPC_NNLRN : Nat := 0x53

/-- Modelled from the spec: `cbusdefs.h` is not among the sources; opcode "exit learn mode". -/
def OPC_NNULN : Nat := 0x54

/-- Modelled from the spec: `cbusdefs.h` is not among the sources; opcode "request
parameters" (full block). -/
def OPC_RQNP : Nat := 0x10

/-- Modelled from the spec: `cbusdefs.h` is not among the sources; opcode "request
parameter by index". -/
def OPC_RQNPN : Nat := 0x73

/-- The opcode "request name", `<0x11>` in the comment of `cbus.cpp`. -/
def OPC_RQMN : Nat := 0x11

/-- Modelled from the spec: `cbusdefs.h` is not among the sources; opcode "read node
variable". -/
def OPC_NVRD : Nat := 0x71

/-- Modelled from the spec: `cbusdefs.h` is not among the sources; opcode "write node
variable". -/
def OPC_NVSET : Nat := 0x96

/-- Modelled from the spec: `cbusdefs.h` is not among the sources; opcode "request event
count". -/
def OPC_RQEVN : Nat := 0x58

/-- Modelled from the spec: `cbusdefs.h` is not among the sources; opcode "request event
enumeration". -/
def OPC_NERD : Nat := 0x57

/-- Modelled from the spec: `cbusdefs.h` is not among the sources; opcode "request free
event space". -/
def OPC_NNEVN : Nat := 0x56

/-- Modelled from the spec: `cbusdefs.h` is not among the sources; opcode "status request". -/
def OPC_RSTAT : Nat := 0x0C

/-- Modelled from the spec: `cbusdefs.h` is not among the sources; opcode "reset request". -/
def OPC_ARST : Nat := 0x07

/-- Modelled from the spec: `cbusdefs.h` is not among the sources; opcode "request node
number" sent when a mode transition starts. -/
def OPC_RQNN : Nat := 0x50

/-- Modelled from the spec: `cbusdefs.h` is not among the sources; opcode of the reply to
"query node number". -/
def OPC_PNN : Nat := 0xB6

/-- Modelled from the spec: `cbusdefs.h` is not among the sources; opcode of the parameter
block reply. -/
def OPC_PARAMS : Nat := 0xEF

/-- Modelled from the spec: `cbusdefs.h` is not among the sources; opcode of the indexed
parameter reply. -/
def OPC_PARAN : Nat := 0x9B

/-- The opcode of the name reply, `<0xE2>` in the comment of `cbus.cpp`. -/
def OPC_NAME : Nat := 0xE2

/-- Modelled from the spec: `cbusdefs.h` is not among the sources; opcode of the node
variable reply. -/
def OPC_NVANS : Nat := 0x97

/-- Modelled from the spec: `cbusdefs.h` is not among the sources; opcode of the event
count reply. -/
def OPC_NUMEV : Nat := 0x74

/-- Modelled from the spec: `cbusdefs.h` is not among the sources; opcode of the free event
space reply. -/
def OPC_EVNLF : Nat := 0x70

/-- Modelled from the spec: `cbusdefs.h` is not among the sources; opcode of the write
acknowledgement. -/
def OPC_WRACK : Nat := 0x59

/-- Modelled from the spec: `cbusdefs.h` is not among the sources; opcode of the error
response of the node-management opcodes. -/
def OPC_CMDERR : Nat := 0x6F

/-- Modelled from the spec: `cbusdefs.h` is not among the sources; error code "invalid
parameter index". -/
def CMDERR_INV_PARAM_IDX : Nat := 9

/-- Modelled from the spec: `cbusdefs.h` is not among the sources; error code "invalid
node variable index". -/
def CMDERR_INV_NV_IDX : Nat := 10

/-- The flag bit "extended frame" of `twai_message_t.flags` (ESP-IDF `driver/twai.h`). -/
def TWAI_MSG_FLAG_EXTD : Nat := 0x01

/-- The flag bit "remote request" of `twai_message_t.flags` (ESP-IDF `driver/twai.h`). -/
def TWAI_MSG_FLAG_RTR : Nat := 0x02

def CBUS_MODE_SLIM : Bool := false
def CBUS_MODE_FLIM : Bool := true

def VER_MAJ : Nat := 1
def VER_MIN : Nat := 0
def VER_PATCH : Nat := 3

/-- Modelled from the spec: `cbusdefs.h` is not among the sources; module type of a CANCMD. -/
def MTYP_CANCMD : Nat := 10

/-- Modelled from the spec: `cbusdefs.h` is not among the sources; interface protocol CAN. -/
def PB_CAN : Nat := 1

/-- The array `node_params` as `cbus_task` sets it before its main loop. -/
def node_params_init : List Nat :=
  [20, 0xa5, VER_MIN, MTYP_CANCMD, 0, 0, NUM_CBUS_NVS, VER_MAJ, 0x07, 0x00, PB_CAN,
   0x01, 0x02, 0x03, 0x04, 0x04, 0x01, 0x02, 0x03, 0x04, VER_PATCH]

/-- The test `cf.flags & flag` on a received frame; a frame record without flags is read
as having none set. -/
def has_flag (cf : twai_message_t) (flag : Nat) : Bool :=
  decide ((cf.flags.getD 0) &&& flag ≠ 0)

/-- The member variables of `class Switch` (written without the leading underscore). -/
structure Switch where
  pressedState : Nat
  currentState : Nat
  lastState : Nat
  stateChanged : Bool
  lastStateChangeTime : Nat
  lastStateDuration : Nat
  prevStateDuration : Nat
  prevReleaseTime : Nat
deriving DecidableEq, Repr

/-- The method `Switch::run()`, the pin reading `pin` at time `now`. -/
def Switch.run (sw : Switch) (pin now : Nat) : Switch :=
  let sw1 := { sw with currentState := pin }
  if sw1.currentState ≠ sw1.lastState then
    let sw2 := { sw1 with lastState := sw1.currentState,
                          prevStateDuration := sw1.lastStateDuration,
                          lastStateDuration := elapsed now sw1.lastStateChangeTime,
                          lastStateChangeTime := now,
                          stateChanged := true }
    if sw2.currentState = sw2.pressedState then sw2
    else { sw2 with prevReleaseTime := sw2.lastStateChangeTime }
  else { sw1 with stateChanged := false }

/-- The method `Switch::isPressed()`. -/
def Switch.isPressed (sw : Switch) : Bool := decide (sw.currentState = sw.pressedState)

/-- The method `Switch::getCurrentStateDuration()` at time `now`. -/
def Switch.getCurrentStateDuration (sw : Switch) (now : Nat) : Nat :=
  elapsed now sw.lastStateChangeTime

/-- The method `Switch::getLastStateDuration()`. -/
def Switch.getLastStateDuration (sw : Switch) : Nat := sw.lastStateDuration

/-- The method `Switch::resetCurrentDuration()` at time `now`. -/
def Switch.resetCurrentDuration (sw : Switch) (now : Nat) : Switch :=
  { sw with lastStateChangeTime := now }

/-- The state of `cbus_task`: the globals and configuration fields of `cbus_state`, the
array `node_params` and the switch object `sw`. -/
structure cbus_task_state where
  g : cbus_state
  node_params : List Nat
  sw : Switch
deriving DecidableEq, Repr

/-- A frame of `cbus_task` built in the task-level variable `of` or in a fresh local: the
identifier comes from `make_can_header()`, `flags` is never assigned. -/
def cbus_frame (st : cbus_state) (data : List Nat) : twai_message_t :=
  { identifier := make_can_header st.CANID, data_length_code := data.length, flags := none,
    data := data }

/-- The function `send_WRACK()`: the frame it sends. -/
def send_WRACK (st : cbus_state) : twai_message_t :=
  cbus_frame st [OPC_WRACK, highByte st.node_number, lowByte st.node_number]

/-- The function `send_CMDERR(num)`: the frame it sends. -/
def send_CMDERR (st : cbus_state) (num : Nat) : twai_message_t :=
  cbus_frame st [OPC_CMDERR, highByte st.node_number, lowByte st.node_number, num]

/-- The function `transition_to_flim()` at time `now`; the LED indication is left out. -/
def transition_to_flim (st : cbus_state) (now : Nat) : cbus_state × List twai_message_t :=
  if st.in_transition then (st, [])
  else
    ({ st with in_transition := true, ttimer := now },
     [cbus_frame st [OPC_RQNN, highByte st.node_number, lowByte st.node_number]])

/-- The function `enumerate_can_bus()` at time `now`: clear the bitmap, send the
zero-length remote request (its `flags` are an unassigned value with the RTR bit or-ed
in), note the start time. -/
def enumerate_can_bus (st : cbus_state) (now : Nat) : cbus_state × List twai_message_t :=
  ({ st with enum_responses := List.replicate 16 0, enum_start_time := now,
             enum_in_progress := true },
   [cbus_frame st []])

/-- The block "process CBUS switch input" of the main loop, after `sw.run()`. -/
def switch_input (st : cbus_state) (sw : Switch) (now : Nat) :
    cbus_state × Switch × List twai_message_t :=
  -- long press and hold
  let r1 : cbus_state × Switch × List twai_message_t :=
    if sw.isPressed = true ∧ sw.getCurrentStateDuration now > 6000 ∧ st.in_transition = false then
      ((transition_to_flim st now).1, sw.resetCurrentDuration now, (transition_to_flim st now).2)
    else (st, sw, [])
  let st1 := r1.1
  let sw1 := r1.2.1
  if sw1.stateChanged = true ∧ sw1.isPressed = false then
    if sw1.getLastStateDuration < 1000 then
      ({ st1 with enum_required := true }, sw1, r1.2.2)
    else if sw1.getLastStateDuration ≥ 1000 ∧ sw1.getLastStateDuration < 2000 then
      if st1.in_transition then
        ({ st1 with in_transition := false }, sw1, r1.2.2)
      else if st1.cbus_mode = CBUS_MODE_FLIM then
        ((transition_to_flim st1 now).1, sw1, r1.2.2 ++ (transition_to_flim st1 now).2)
      else (st1, sw1, r1.2.2)
    else (st1, sw1, r1.2.2)
  else (st1, sw1, r1.2.2)

/-- The block "mode transition timeout". -/
def transition_timeout (st : cbus_state) (now : Nat) : cbus_state :=
  if st.in_transition = true ∧ elapsed now st.ttimer > 30000 then
    { st with in_transition := false }
  else st

/-- The block "enumerate CAN bus to get a unique CANID". -/
def start_enumeration (st : cbus_state) (now : Nat) : cbus_state × List twai_message_t :=
  if st.enum_required then enumerate_can_bus { st with enum_required := false } now
  else (st, [])

/-- The block "respond to enumeration request from another node": one zero-length frame
with the node's own CANID as identifier, then one for each entry of `proxy_canids`. -/
def enumeration_response (st : cbus_state) : cbus_state × List twai_message_t :=
  if st.respond_to_enum then
    ({ st with respond_to_enum := false },
     (st.CANID :: (List.range MAX_NET_PEERS).map (fun i => st.proxy_canids.getD i 0)).map
       (fun ident =>
         { identifier := ident, data_length_code := 0, flags := none, data := [] }))
  else (st, [])

/-- The part of one pass of the main loop of `cbus_task` that precedes the queue read,
with the pin reading `pin` at time `now`: switch, transition time-out, start of a round,
enumeration response, end of the round. -/
def loop_head (s : cbus_task_state) (pin now : Nat) : cbus_task_state × List twai_message_t :=
  let sw0 := s.sw.run pin now
  let r1 := switch_input s.g sw0 now
  let st2 := transition_timeout r1.1 now
  let r3 := start_enumeration st2 now
  let r4 := enumeration_response r3.1
  let r5 := end_of_enumeration r4.1 now
  ({ s with g := r5.1, sw := r1.2.1 }, r1.2.2 ++ r3.2 ++ r4.2 ++ r5.2)

/-- The queue a frame was taken from: `cbus_in_queue` (external bus) or `cbus_internal`. -/
inductive cbus_queue where
  | external
  | internal
deriving DecidableEq, Repr

/-- The result of processing a received frame: the new state and the frames sent, or an
access to `node_variables[idx]` / `node_params[idx]` with `idx` outside the array. -/
inductive cbus_outcome where
  | done (s : cbus_task_state) (frames : List twai_message_t)
  | out_of_bounds (idx : Int)
deriving DecidableEq, Repr

/-- The block "check for CANID clash from external CAN bus". -/
def clash_check (st : cbus_state) (q : cbus_queue) (cf : twai_message_t) : cbus_state :=
  if st.enum_in_progress = false then
    if cf.identifier % 128 = st.CANID ∧ q = cbus_queue.external then
      { st with enum_required := true }
    else st
  else st

/-- The node number in a frame, `nn = (cf.data[1] << 8) + cf.data[2]` (16 bits). -/
def frame_nn (cf : twai_message_t) : Nat := (cf.byte 1 * 256 + cf.byte 2) % 65536

/-- The `case OPC_SNN`. Saving the configuration and the LED indication are left out. -/
def opc_snn (s : cbus_task_state) (cf : twai_message_t) (now : Nat) : cbus_outcome :=
  if s.g.in_transition then
    let g1 := { s.g with in_transition := false, ttimer := now, node_number := frame_nn cf }
    let ack := cbus_frame g1 [OPC_NNACK, highByte g1.node_number, lowByte g1.node_number]
    .done { s with g := { g1 with cbus_mode := CBUS_MODE_FLIM, enum_required := true } } [ack]
  else .done s []

/-- The `case OPC_QNN`. -/
def opc_qnn (s : cbus_task_state) : cbus_outcome :=
  if s.g.node_number > 0 then
    .done s [cbus_frame s.g [OPC_PNN, highByte s.g.node_number, lowByte s.g.node_number,
      s.node_params.getD 1 0, s.node_params.getD 3 0, s.node_params.getD 8 0]]
  else .done s []

/-- The `case OPC_CANID`. -/
def opc_canid (s : cbus_task_state) (cf : twai_message_t) : cbus_outcome :=
  if frame_nn cf = s.g.node_number then
    if cf.byte 3 < 1 ∨ cf.byte 3 > 99 then .done s [send_CMDERR s.g 7]
    else .done { s with g := { s.g with CANID := cf.byte 3 } } []
  else .done s []

/-- The `case OPC_ENUM`. -/
def opc_enum (s : cbus_task_state) (cf : twai_message_t) : cbus_outcome :=
  if frame_nn cf = s.g.node_number ∧ cf.identifier % 128 ≠ s.g.CANID ∧
      s.g.enum_in_progress = false then
    .done { s with g := { s.g with enum_required := true } } []
  else .done s []

/-- The `case OPC_NNLRN`. -/
def opc_nnlrn (s : cbus_task_state) (cf : twai_message_t) : cbus_outcome :=
  if frame_nn cf = s.g.node_number then
    .done { s with node_params := s.node_params.set 8 (bitSet (s.node_params.getD 8 0) 5),
                   g := { s.g with learn_mode := true } } []
  else .done s []

/-- The `case OPC_NNULN`. -/
def opc_nnuln (s : cbus_task_state) (cf : twai_message_t) : cbus_outcome :=
  if frame_nn cf = s.g.node_number then
    .done { s with node_params := s.node_params.set 8 (bitClear (s.node_params.getD 8 0) 5),
                   g := { s.g with learn_mode := false } } []
  else .done s []

/-- The `case OPC_RQNP`. -/
def opc_rqnp (s : cbus_task_state) : cbus_outcome :=
  if s.g.in_transition then
    .done s [cbus_frame s.g [OPC_PARAMS, s.node_params.getD 1 0, s.node_params.getD 2 0,
      s.node_params.getD 3 0, s.node_params.getD 4 0, s.node_params.getD 5 0,
      s.node_params.getD 6 0, s.node_params.getD 7 0]]
  else .done s []

/-- The `case OPC_RQNPN`; `node_params` has 21 entries. -/
def opc_rqnpn (s : cbus_task_state) (cf : twai_message_t) : cbus_outcome :=
  if frame_nn cf = s.g.node_number then
    if cf.byte 3 ≤ s.node_params.getD 0 0 then
      if cf.byte 3 < 21 then
        .done s [cbus_frame s.g [OPC_PARAN, highByte s.g.node_number, lowByte s.g.node_number,
          cf.byte 3, s.node_params.getD (cf.byte 3) 0]]
      else .out_of_bounds (cf.byte 3)
    else .done s [send_CMDERR s.g CMDERR_INV_PARAM_IDX]
  else .done s []

/-- The `case OPC_RQMN`: the name `node_mname` is 'C', 'M', 'D' and four zero bytes. -/
def opc_rqmn (s : cbus_task_state) : cbus_outcome :=
  if s.g.in_transition then
    .done s [cbus_frame s.g [OPC_NAME, 67, 77, 68, 0, 0, 0, 0]]
  else .done s []

/-- The `case OPC_NVRD`: the index into `node_variables` is `cf.data[3] - 1` in `int`
arithmetic; the array has `NUM_CBUS_NVS` entries. -/
def opc_nvrd (s : cbus_task_state) (cf : twai_message_t) : cbus_outcome :=
  if frame_nn cf = s.g.node_number then
    if cf.byte 3 ≤ 16 then
      if 1 ≤ cf.byte 3 ∧ cf.byte 3 - 1 < NUM_CBUS_NVS then
        .done s [cbus_frame s.g [OPC_NVANS, highByte s.g.node_number, lowByte s.g.node_number,
          cf.byte 3, s.g.node_variables.getD (cf.byte 3 - 1) 0]]
      else .out_of_bounds ((cf.byte 3 : Int) - 1)
    else .done s [send_CMDERR s.g CMDERR_INV_NV_IDX]
  else .done s []

/-- The `case OPC_NVSET`. Saving the configuration is left out. -/
def opc_nvset (s : cbus_task_state) (cf : twai_message_t) : cbus_outcome :=
  if frame_nn cf = s.g.node_number then
    if cf.byte 3 ≤ 16 then
      if 1 ≤ cf.byte 3 ∧ cf.byte 3 - 1 < NUM_CBUS_NVS then
        .done { s with g := { s.g with
                  node_variables := s.g.node_variables.set (cf.byte 3 - 1) (cf.byte 4) } }
          [send_WRACK s.g]
      else .out_of_bounds ((cf.byte 3 : Int) - 1)
    else .done s [send_CMDERR s.g CMDERR_INV_NV_IDX]
  else .done s []

/-- The `case OPC_RQEVN` (reply `OPC_NUMEV`) and the `case OPC_NNEVN` (reply `OPC_EVNLF`). -/
def opc_no_events (s : cbus_task_state) (cf : twai_message_t) (reply : Nat) : cbus_outcome :=
  if frame_nn cf = s.g.node_number then
    .done s [cbus_frame s.g [reply, highByte s.g.node_number, lowByte s.g.node_number, 0]]
  else .done s []

/-- The `switch (cf.data[0])` of "process CBUS opcodes". -/
def process_opcode (s : cbus_task_state) (cf : twai_message_t) (now : Nat) : cbus_outcome :=
  if cf.byte 0 = OPC_SNN then opc_snn s cf now
  else if cf.byte 0 = OPC_QNN then opc_qnn s
  else if cf.byte 0 = OPC_CANID then opc_canid s cf
  else if cf.byte 0 = OPC_ENUM then opc_enum s cf
  else if cf.byte 0 = OPC_NNLRN then opc_nnlrn s cf
  else if cf.byte 0 = OPC_NNULN then opc_nnuln s cf
  else if cf.byte 0 = OPC_RQNP then opc_rqnp s
  else if cf.byte 0 = OPC_RQNPN then opc_rqnpn s cf
  else if cf.byte 0 = OPC_RQMN then opc_rqmn s
  else if cf.byte 0 = OPC_NVRD then opc_nvrd s cf
  else if cf.byte 0 = OPC_NVSET then opc_nvset s cf
  else if cf.byte 0 = OPC_RQEVN then opc_no_events s cf OPC_NUMEV
  else if cf.byte 0 = OPC_NNEVN then opc_no_events s cf OPC_EVNLF
  else .done s []

/-- The block "process incoming CAN messages from either input queue" for the frame `cf`
taken from queue `q` at time `now`. -/
def process_frame (s : cbus_task_state) (q : cbus_queue) (cf : twai_message_t) (now : Nat) :
    cbus_outcome :=
  let s1 := { s with g := clash_check s.g q cf }
  -- ignore extended frames from FCU bootloader
  if has_flag cf TWAI_MSG_FLAG_EXTD then .done s1 []
  -- set flag due to CAN enumeration request from another CAN node
  else if has_flag cf TWAI_MSG_FLAG_RTR = true ∧ cf.data_length_code = 0 then
    .done { s1 with g := { s1.g with respond_to_enum := true } } []
  -- capture enumeration responses
  else if s1.g.enum_in_progress = true ∧ elapsed now s1.g.enum_start_time < 100 ∧
      cf.data_length_code = 0 then
    let rcanid := cf.identifier % 128
    .done { s1 with g := { s1.g with
              enum_responses := s1.g.enum_responses.set (rcanid / 8)
                (bitSet (s1.g.enum_responses.getD (rcanid / 8) 0) (rcanid % 8)) } } []
  else if cf.data_length_code > 0 then process_opcode s1 cf now
  else .done s1 []

/-! ## Throttle protocol server: message processing (`withrottle.cpp`) -/

/-- The opcode "release session", `<0x21><Session>` in the comment of `cmdproxy.cpp`. -/
def OPC_KLOC : Nat := 0x21

/-- Modelled from the spec: `cbusdefs.h` is not among the sources; opcode "session keep
alive". -/
def OPC_DKEEP : Nat := 0x23

/-- The configuration fields the throttle server reads: `config_data.dcc_type` and
`config_data.CANID`. -/
structure wt_config where
  dcc_type : Nat
  CANID : Nat
deriving DecidableEq, Repr

/-- What throttle-server code sends: the messages given to `send_wt_message_to_throttle`
(with the client index), the frames given to `send_to_queues` and the commands given to
`send_dccpp_command`, each in program order. -/
structure wt_out where
  to_throttle : List (Nat × String)
  frames : List twai_message_t
  cmds : List String
deriving DecidableEq, Repr

/-- Nothing sent. -/
def wt_out.none : wt_out := { to_throttle := [], frames := [], cmds := [] }

/-- One output after another. -/
def wt_out.append (a b : wt_out) : wt_out :=
  { to_throttle := a.to_throttle ++ b.to_throttle, frames := a.frames ++ b.frames,
    cmds := a.cmds ++ b.cmds }

/-- The NUL character that ends a C string. -/
def NUL : Char := Char.ofNat 0

/-- The C string that starts at the beginning of a character array: the characters before
the first NUL. -/
def c_str (a : List Char) : List Char := a.takeWhile (fun c => c ≠ NUL)

/-- Arduino `highByte(w)` of an `int`. -/
def highByte_int (w : Int) : Nat := ((w / 256) % 256).toNat

/-- Arduino `lowByte(w)` of an `int`. -/
def lowByte_int (w : Int) : Nat := (w % 256).toNat

/-- The text `snprintf(buffer, PROXY_BUF_LEN, "<t %d %d %d %d>", ...)` of the throttle
server, whose address argument is an `int`. -/
def wt_fmt_t (reg : Nat) (addr : Int) (speed : Nat) (dir : Bool) : String :=
  snprintf PROXY_BUF_LEN ("<t " ++ toString reg ++ " " ++ toString addr ++ " " ++
    toString speed ++ " " ++ toString (bool_d dir) ++ ">")

/-- The text `snprintf(buffer, sizeof(buffer), "<f %d %d %d>", ...)` of the throttle server. -/
def wt_fmt_f (addr : Int) (b1 b2 : Nat) : String :=
  snprintf PROXY_BUF_LEN ("<f " ++ toString addr ++ " " ++ toString b1 ++ " " ++
    toString b2 ++ ">")

/-- The message `send_wt_message_to_throttle(i, msg)` writes for the character array `msg`:
its C string. -/
def throttle_msg (i : Nat) (msg : List Char) : Nat × String := (i, String.mk (c_str msg))

/-- The function `send_merg_keepalive(i)`: the frame it sends, if any. -/
def send_merg_keepalive (c : withrottle_client_t) (CANID : Nat) : Option twai_message_t :=
  if c.state ≠ W_ACTIVE ∨ c.session_id = 0 then none
  else
    some { identifier := make_can_header CANID, data_length_code := 2, flags := none,
           data := [OPC_DKEEP, c.session_id] }

/-- The function `send_merg_func_dfun(i, fb1, fb2)`: the frame it sends, if any. -/
def send_merg_func_dfun (c : withrottle_client_t) (CANID fb1 fb2 : Nat) :
    Option twai_message_t :=
  if c.state ≠ W_ACTIVE ∨ c.session_id = 0 then none
  else
    some { identifier := make_can_header CANID, data_length_code := 3, flags := none,
           data := [OPC_DFUN, fb1, fb2] }

/-- The function `get_wt_session(i)` on the record `c` of client `i`. -/
def get_wt_session (cfg : wt_config) (i : Nat) (c : withrottle_client_t) :
    withrottle_client_t × wt_out :=
  let c1 := { c with state := W_AWAITING_SESSION_ID }
  if cfg.dcc_type = DCC_MERG then
    (c1, { wt_out.none with frames :=
      [{ identifier := make_can_header cfg.CANID, data_length_code := 3, flags := none,
         data := [OPC_RLOC, highByte_int c1.loco_addr, lowByte_int c1.loco_addr] }] })
  else
    let c2 := { c1 with session_id := (i + 1) % 256 }
    (c2, { wt_out.none with cmds :=
      [wt_fmt_t c2.session_id c2.loco_addr c2.speed c2.direction] })

/-- The function `release_wt_session(i)` on the record `c`. -/
def release_wt_session (cfg : wt_config) (c : withrottle_client_t) :
    withrottle_client_t × wt_out :=
  if c.loco_addr = 0 ∨ c.session_id = 0 then (c, wt_out.none)
  else
    let out : wt_out :=
      if cfg.dcc_type = DCC_MERG then
        { wt_out.none with frames :=
          [{ identifier := make_can_header cfg.CANID, data_length_code := 2, flags := none,
             data := [OPC_KLOC, c.session_id] }] }
      else wt_out.none
    ({ c with session_id := 0, state := W_CONNECTED, loco_addr := 0, loco_addr_type := ' ',
              speed := 0, direction := DCC_DIR_FWD }, out)

/-- The speed/direction message of `do_wt_action` for the record `c`: a DSPD frame with
the MERG back end (when `send_merg_dspd` sends one), a `<t ...>` command otherwise. -/
def wt_send_speed (cfg : wt_config) (c : withrottle_client_t) : wt_out :=
  if cfg.dcc_type = DCC_MERG then
    { wt_out.none with frames := (send_merg_dspd c cfg.CANID).toList }
  else
    { wt_out.none with cmds := [wt_fmt_t c.session_id c.loco_addr c.speed c.direction] }

/-- The function `do_wt_action(i, tok0, tok1)` on the record `c` of client `i`. The result
is `none` where the code reads `tok1` past its terminator. -/
def do_wt_action (cfg : wt_config) (i : Nat) (c : withrottle_client_t) (tok1 : List Char) :
    Option (withrottle_client_t × wt_out) :=
  let t0 := tok1.getD 0 NUL
  if t0 = 'V' then
    let c1 := { c with speed := (atoi (tok1.drop 1) % 256).toNat }
    some (c1, wt_send_speed cfg c1)
  else if t0 = 'R' then
    let c1 := { c with direction := decide (atoi (tok1.drop 1) ≠ 0) }
    some (c1, wt_send_speed cfg c1)
  else if t0 = 'X' then
    let c1 := { c with speed := 1 }
    some (c1, wt_send_speed cfg c1)
  else if t0 = 'I' then
    let c1 := { c with speed := 0 }
    some (c1, wt_send_speed cfg c1)
  else if t0 = 'F' then
    if tok1.length < 2 then none
    else
      let func_state : Nat := if tok1.getD 1 NUL = '1' then 1 else 0
      let func_num : Nat := (atoi (tok1.drop 2) % 256).toNat
      let fb := do_wt_action_func_bytes (String.mk tok1)
      let sent : wt_out :=
        if cfg.dcc_type = DCC_MERG then
          { wt_out.none with frames := (send_merg_func_dfun c cfg.CANID fb.1 fb.2).toList }
        else { wt_out.none with cmds := [wt_fmt_f c.loco_addr fb.1 fb.2] }
      -- ack to throttle e.g. M0AL341<;>F10
      let ack := "M0A".data ++ [c.loco_addr_type] ++ (toString c.loco_addr).data ++
        "<;>F".data ++ (toString func_state).data ++ (toString func_num).data
      some (c, sent.append { wt_out.none with to_throttle := [throttle_msg i ack] })
  else if t0 = 'q' then
    if tok1.getD 1 NUL = 'V' then
      some (c, { wt_out.none with to_throttle := [throttle_msg i
        (snprintf 16 (String.mk ("M0A".data ++ [c.loco_addr_type] ++
          (toString c.loco_addr).data ++ "<;>V".data ++ (toString c.speed).data))).data] })
    else if tok1.getD 1 NUL = 'R' then
      some (c, { wt_out.none with to_throttle := [throttle_msg i
        (snprintf 16 (String.mk ("M0A".data ++ [c.loco_addr_type] ++
          (toString c.loco_addr).data ++ "<;>R".data ++
          (toString (bool_d c.direction)).data))).data] })
    else some (c, wt_out.none)
  else some (c, wt_out.none)

/-- The delimiters of `strtok(cmd, "<;>")`. -/
def is_delim (c : Char) : Bool := c = '<' || c = ';' || c = '>'

/-- The tokens `strtok(cmd, "<;>")` returns one after another: the maximal runs of
characters that are not delimiters; `cur` is the run being read. -/
def strtok_loop : List Char → List Char → List (List Char)
  | [], cur => if cur = [] then [] else [cur]
  | c :: cs, cur =>
    if is_delim c then
      if cur = [] then strtok_loop cs [] else cur :: strtok_loop cs []
    else strtok_loop cs (cur ++ [c])

/-- The string at `cmd` once `strtok` has put a terminator after the first token: the
leading delimiters and the first token. -/
def cmd_after_strtok (cmd : List Char) : List Char :=
  cmd.takeWhile is_delim ++ (cmd.dropWhile is_delim).takeWhile (fun c => !is_delim c)

/-- The loop "find the beginning of the address number": the value of `j` after
`for (...; j < len; j++) if (isdigit(cmd[j])) break;`, with `fuel` iterations left. -/
def find_digit (cmd : List Char) (len : Nat) : Nat → Nat → Nat
  | 0, j => j
  | fuel + 1, j =>
    if j < len then
      if (cmd.getD j NUL).isDigit then j else find_digit cmd len fuel (j + 1)
    else j

/-- The loop "copy out the numbers": the characters stored in `addrbuff`, with `fuel`
iterations left. -/
def copy_digits (tok0 cmd : List Char) (len : Nat) : Nat → Nat → List Char
  | 0, _ => []
  | fuel + 1, j =>
    if j < len ∧ (tok0.getD j NUL).isDigit = true then
      cmd.getD j NUL :: copy_digits tok0 cmd len fuel (j + 1)
    else []

/-- The function `process_wt_message(i, cmd)` on the record `c` of client `i` at time `now`.
`stale0` and `stale1` are the strings found in the uninitialised local `tokens[0]` and
`tokens[1]`, which the code reads when the line has fewer tokens. The returned flag is
the function's result (`false` when the client quits). The result is `none` where the
code writes outside `tokens` or `addrbuff` or reads a string past its terminator. The
terminators `strtok` writes into `cmd` are not recorded in the client's buffer: they lie
where the next line is written or behind its end. -/
def process_wt_message (cfg : wt_config) (i : Nat) (c : withrottle_client_t) (cmd : String)
    (stale0 stale1 : String) (now : Nat) : Option (withrottle_client_t × wt_out × Bool) :=
  -- update heartbeat on every message
  let c0 := { c with last_heartbeat_received := now }
  -- parse into tokens
  let toks := strtok_loop cmd.data []
  if toks.length > 2 ∨ toks.any (fun t => decide (t.length ≥ 16)) then none
  else
    let tok0 := toks.getD 0 stale0.data
    let tok1 := toks.getD 1 stale1.data
    let cmd1 := cmd_after_strtok cmd.data
    let k := tok0.getD 0 NUL
    if k = 'Q' then some (c0, wt_out.none, false)
    else if k = 'N' then
      if cmd1.length = 0 then none
      else some ({ c0 with device_name := String.mk (cmd1.drop 1) }, wt_out.none, true)
    else if k = 'H' then
      if cmd1.length = 0 then none
      else some ({ c0 with device_id := String.mk (cmd1.drop 1) }, wt_out.none, true)
    else if k = '*' then
      if tok0.getD 1 NUL = '+' ∨ tok0.getD 1 NUL = '-' then
        some ({ c0 with throttle_sends_heartbeat := decide (tok0.getD 1 NUL = '+') },
          wt_out.none, true)
      else some (c0, wt_out.none, true)
    else if k = 'R' then some (c0, wt_out.none, true)
    else if k = 'P' then some (c0, wt_out.none, true)
    else if k = 'M' then
      if toks.length = 0 ∨ tok0.length < 3 then none
      else
        -- parse the loco address
        let j := find_digit cmd1 tok0.length tok0.length 2
        let addrbuff := copy_digits tok0 cmd1 tok0.length tok0.length j
        if addrbuff.length ≥ 8 then none
        else
          let c1 := { c0 with loco_addr := atoi (c_str addrbuff),
                              loco_addr_type := tok0.getD 3 NUL }
          -- parse and dispatch the command
          let r : Option (withrottle_client_t × wt_out) :=
            if tok0.getD 2 NUL = '+' then some (get_wt_session cfg i c1)
            else if tok0.getD 2 NUL = '-' then
              some ({ (release_wt_session cfg c1).1 with loco_addr := 0 },
                (release_wt_session cfg c1).2)
            else if tok0.getD 2 NUL = 'A' then do_wt_action cfg i c1 tok1
            else some (c1, wt_out.none)
          match r with
          | none => none
          | some (c2, out) =>
            -- send confirmation back to throttle
            some (c2, out.append { wt_out.none with to_throttle := [throttle_msg i tok0] },
              true)
    else some (c0, wt_out.none, true)

/-- The lines `lines` processed one after another by `process_wt_message`, with the
outputs collected; processing stops at a line on which the function returns `false`. -/
def process_wt_lines (cfg : wt_config) (i : Nat) (stale0 stale1 : String) (now : Nat) :
    List String → withrottle_client_t → Option (withrottle_client_t × wt_out)
  | [], c => some (c, wt_out.none)
  | l :: ls, c =>
    match process_wt_message cfg i c l stale0 stale1 now with
    | none => none
    | some (c1, out, false) => some (c1, out)
    | some (c1, out, true) =>
      match process_wt_lines cfg i stale0 stale1 now ls c1 with
      | none => none
      | some (c2, out2) => some (c2, out.append out2)

/-- The record of client slot `i` as the accept block of `withrottle_task` leaves it at
time `now`, on a zeroed entry. -/
def accepted_client (now : Nat) : withrottle_client_t :=
  { client := true, buffer := List.replicate 64 NUL, idx := 0, state := W_CONNECTED,
    device_name := "", device_id := "", loco_addr := 0, loco_addr_type := NUL, speed := 0,
    direction := DCC_DIR_FWD, session_id := 0, throttle_sends_heartbeat := false,
    last_heartbeat_received := now }

/-! ## Throttle protocol server: the client loop of `withrottle_task` -/

/-- The variables of `withrottle_task` the client loop works on. -/
structure wt_task_state where
  clients : List withrottle_client_t
  num_wi_clients : Nat
  hb_timer : Nat
  ka_timer : Nat
deriving DecidableEq, Repr

/-- What the connection of a client offers during one pass: whether it is connected and
the characters that can be read. -/
structure wt_link where
  connected : Bool
  available : List Char
deriving DecidableEq, Repr

/-- A client record after `bzero`. -/
def zero_client : withrottle_client_t :=
  { client := false, buffer := List.replicate 64 NUL, idx := 0, state := W_FREE,
    device_name := "", device_id := "", loco_addr := 0, loco_addr_type := NUL, speed := 0,
    direction := false, session_id := 0, throttle_sends_heartbeat := false,
    last_heartbeat_received := 0 }

/-- The element `w_clients[i]`, for an index inside the table. -/
def wt_client (st : wt_task_state) (i : Nat) : withrottle_client_t :=
  st.clients.getD i zero_client

/-- The loop "read incoming data" for client `i` over the characters that can be read. -/
def read_chars (cfg : wt_config) (i : Nat) (stale0 stale1 : String) (now : Nat) :
    List Char → withrottle_client_t → wt_out → Option (withrottle_client_t × wt_out)
  | [], c, out => some (c, out)
  | ch :: rest, c, out =>
    if ch = '\r' ∨ ch = '\n' then
      let c1 := { c with buffer := c.buffer.set c.idx NUL, idx := 0 }
      match process_wt_message cfg i c1 (String.mk (c_str c1.buffer)) stale0 stale1 now with
      | none => none
      | some (c2, o, ret) =>
        read_chars cfg i stale0 stale1 now rest
          (if ret then c2 else { c2 with state := W_CLOSING }) (out.append o)
    else
      read_chars cfg i stale0 stale1 now rest
        { c with buffer := c.buffer.set c.idx ch, idx := (c.idx + 1) % 64 } out

/-- The body of the loop "loop through each client record" for client `i` at time `now`. -/
def client_body (cfg : wt_config) (now : Nat) (stale0 stale1 : String) (link : wt_link)
    (i : Nat) (st : wt_task_state) : Option (wt_task_state × wt_out) :=
  let c := wt_client st i
  -- reap terminated connections
  if c.state = W_CLOSING then
    some ({ st with clients := st.clients.set i zero_client,
                    num_wi_clients := (st.num_wi_clients + 255) % 256 },
          (release_wt_session cfg c).2)
  -- for active client connections
  else if c.client = true then
    -- check heartbeats once a second, timeout after 10 seconds
    let check := decide (elapsed now st.hb_timer > 1000)
    let st1 := if check then { st with hb_timer := now } else st
    if check = true ∧ c.throttle_sends_heartbeat = true ∧
        elapsed now c.last_heartbeat_received > 10000 then
      some ({ st1 with clients := st1.clients.set i { c with state := W_CLOSING },
                       num_wi_clients := (st1.num_wi_clients + 255) % 256 }, wt_out.none)
    else
      let r : Option (withrottle_client_t × wt_out) :=
        if link.connected then read_chars cfg i stale0 stale1 now link.available c wt_out.none
        else some ({ c with state := W_CLOSING }, wt_out.none)
      match r with
      | none => none
      | some (c2, out) =>
        -- send keepalive message to MERG command station
        if cfg.dcc_type = DCC_MERG ∧ elapsed now st1.ka_timer ≥ 4000 ∧ c2.session_id > 0 then
          some ({ st1 with clients := st1.clients.set i c2, ka_timer := now },
                out.append { wt_out.none with
                  frames := (send_merg_keepalive c2 cfg.CANID).toList })
        else some ({ st1 with clients := st1.clients.set i c2 }, out)
  else some (st, wt_out.none)

/-- The loop `for (i = 0; i < MAX_WITHROTTLE_CLIENTS && num_wi_clients > 0; i++)` from
index `i`, with `fuel` iterations left; `links i` is the connection of client `i`. -/
def client_loop (cfg : wt_config) (now : Nat) (stale0 stale1 : String) (links : Nat → wt_link) :
    Nat → Nat → wt_task_state → wt_out → Option (wt_task_state × wt_out)
  | 0, _, st, out => some (st, out)
  | fuel + 1, i, st, out =>
    if i < MAX_WITHROTTLE_CLIENTS ∧ st.num_wi_clients > 0 then
      match client_body cfg now stale0 stale1 (links i) i st with
      | none => none
      | some (st1, o) => client_loop cfg now stale0 stale1 links fuel (i + 1) st1 (out.append o)
    else some (st, out)

/-- One pass of the client loop of `withrottle_task` at time `now`. -/
def client_pass (cfg : wt_config) (now : Nat) (stale0 stale1 : String) (links : Nat → wt_link)
    (st : wt_task_state) : Option (wt_task_state × wt_out) :=
  client_loop cfg now stale0 stale1 links MAX_WITHROTTLE_CLIENTS 0 st wt_out.none

/-! ## Session manager: release, keep-alive and the command station's response (`cmdproxy.cpp`) -/

/-- The opcode of the "loco acquired" frame, as the comment of `withrottle.cpp` gives it
(`PLOC <0xE1><Session><AddrH><AddrL><Speed/Dir><Fn1><Fn2><Fn3>`). -/
def OPC_PLOC : Nat := 0xE1

/-- The `case OPC_KLOC` of `cmdproxy_task`. `i` is a `byte`, so `cf.data[1] - 1` wraps. -/
def kloc (t : List session) (cf : twai_message_t) : proxy_out :=
  let i := (cf.byte 1 + 255) % 256
  if i < MAX_PROXY_SESSIONS ∧ (slot t i).active = true then
    { tab := t.set i { slot t i with active := false }, frames := [], cmds := [] }
  else { tab := t, frames := [], cmds := [] }

/-- The `case OPC_DKEEP` of `cmdproxy_task`. The index `cf.data[1] - 1` is an `int`; the
code uses it without a range test. -/
def dkeep (t : List session) (cf : twai_message_t) (now : Nat) : outcome :=
  let idx : Int := (cf.byte 1 : Int) - 1
  if 0 ≤ idx ∧ idx < (MAX_PROXY_SESSIONS : Int) then
    if (slot t idx.toNat).active = true then
      .done { tab := t.set idx.toNat { slot t idx.toNat with last_activity := now },
              frames := [], cmds := [] }
    else .done { tab := t, frames := [], cmds := [] }
  else .out_of_bounds idx

/-- One conversion `%d` of `sscanf`: white space is skipped, then an optional sign and
decimal digits are read. The result is the number and the rest of the input, or `none`
when no digit is found. -/
def scan_d (s : List Char) : Option (Int × List Char) :=
  let body (neg : Bool) (cs : List Char) : Option (Int × List Char) :=
    if (cs.takeWhile Char.isDigit).isEmpty then none
    else
      let v : Int := (atoi_digits cs 0 : Int)
      some (if neg then - v else v, cs.dropWhile Char.isDigit)
  match s.dropWhile isspace with
  | '-' :: cs => body true cs
  | '+' :: cs => body false cs
  | cs => body false cs

/-- The numbers `sscanf(s, "%d %d ...")` stores for `n` conversions, in order; it stops at
the first conversion that fails. -/
def sscanf_d : Nat → List Char → List Int
  | 0, _ => []
  | n + 1, s =>
    match scan_d s with
    | none => []
    | some (v, rest) => v :: sscanf_d n rest

/-- The value of the `k`-th variable handed to `sscanf` afterwards: the number stored, or
what the variable held before (`prev`) when the conversion was not reached. -/
def scanned (parsed prev : List Int) (k : Nat) : Int :=
  (parsed.get? k).getD (prev.getD k 0)

/-- The `case 'T'` of the switch on `buffer[1]` in `cmdproxy_task` for the message `buffer`
read from `msgbuf_proxy_in`. `treg`, `taddr`, `tspeed`, `tdir` are `int` variables of the
task (`prev` is what they held before), `i` is a `byte`. The code assigns `of.data[0]` and
`of.data[2]` to `of.data[7]`; `of_data1` is what `of.data[1]` holds from before. -/
def dccpp_T_response (t : List session) (of_data1 : Nat) (buffer : String) (prev : List Int)
    (now CANID : Nat) : proxy_out :=
  let parsed := sscanf_d 4 (buffer.data.drop 2)
  let treg := scanned parsed prev 0
  let taddr := scanned parsed prev 1
  let tspeed := scanned parsed prev 2
  let tdir := scanned parsed prev 3
  let i := ((treg - 1) % 256).toNat
  if i < MAX_PROXY_SESSIONS then
    -- update the session data
    let s := { slot t i with session_ack := true, last_activity := now }
    -- send a PLOC message to the CAB
    { tab := t.set i s,
      frames := [{ identifier := make_can_header CANID, data_length_code := 8,
                   flags := some 0,
                   data := [OPC_PLOC, of_data1, ((taddr / 256) % 256).toNat,
                            (taddr % 256).toNat,
                            bitWrite (tspeed % 256).toNat 7 (decide (tdir ≠ 0)), 0, 0, 0] }],
      cmds := [] }
  else { tab := t, frames := [], cmds := [] }

/-- A step of `cmdproxy_task` that works on the session table: the time-out sweep, or the
handler of one of the session opcodes for a received frame, at the time `now`. -/
inductive proxy_step where
  | sweep (now : Nat)
  | rloc (cf : twai_message_t) (now : Nat)
  | kloc (cf : twai_message_t)
  | dkeep (cf : twai_message_t) (now : Nat)
  | dspd (cf : twai_message_t) (now : Nat)
  | dfun (cf : twai_message_t) (now : Nat)
deriving DecidableEq, Repr

/-- The table after one step, or `none` when the handler leaves the table. -/
def step_tab (CANID : Nat) (t : List session) : proxy_step → Option (List session)
  | .sweep now => some (timeout_sweep t now)
  | .rloc cf now => some (rloc t cf now CANID).tab
  | .kloc cf => some (kloc t cf).tab
  | .dkeep cf now =>
    match dkeep t cf now with
    | .done o => some o.tab
    | .out_of_bounds _ => none
  | .dspd cf now =>
    match dspd t cf now CANID with
    | .done o => some o.tab
    | .out_of_bounds _ => none
  | .dfun cf now =>
    match dfun t cf now CANID with
    | .done o => some o.tab
    | .out_of_bounds _ => none

/-- The table after a sequence of steps. -/
def proxy_run (CANID : Nat) : List session → List proxy_step → Option (List session)
  | t, [] => some t
  | t, st :: rest =>
    match step_tab CANID t st with
    | none => none
    | some t1 => proxy_run CANID t1 rest

/-- The session byte `cf.data[1]` of a step's frame lies in 1..8 (the sweep and RLOC have
no session byte). -/
def session_byte_ok : proxy_step → Bool
  | .sweep _ => true
  | .rloc _ _ => true
  | .kloc cf => decide (1 ≤ cf.byte 1 ∧ cf.byte 1 ≤ MAX_PROXY_SESSIONS)
  | .dkeep cf _ => decide (1 ≤ cf.byte 1 ∧ cf.byte 1 ≤ MAX_PROXY_SESSIONS)
  | .dspd cf _ => decide (1 ≤ cf.byte 1 ∧ cf.byte 1 ≤ MAX_PROXY_SESSIONS)
  | .dfun cf _ => decide (1 ≤ cf.byte 1 ∧ cf.byte 1 ≤ MAX_PROXY_SESSIONS)

/-- No two slots hold the same non-zero loco address, and slot `i` has session number
`i + 1`, on a table of `MAX_PROXY_SESSIONS` slots. -/
def tab_inv (t : List session) : Prop :=
  t.length = MAX_PROXY_SESSIONS ∧
  (∀ i j, i < MAX_PROXY_SESSIONS → j < MAX_PROXY_SESSIONS → i ≠ j →
    (slot t i).loco_addr ≠ 0 → (slot t i).loco_addr ≠ (slot t j).loco_addr) ∧
  (∀ i, i < MAX_PROXY_SESSIONS → (slot t i).cbus_session_num = i + 1)

/-! ## Message fabric: what the reader receives -/

/-- The messages the reader's block of `dccppser_task` writes to the serial port, in order,
over a sequence of accesses to the buffer `mb`. -/
def rb_pops (mb : message_buffer_t) : List rb_op → List String
  | [] => []
  | .push cmd :: ops => rb_pops (send_dccpp_command mb cmd) ops
  | .pop :: ops =>
    match (read_command mb).1 with
    | some m => m :: rb_pops (read_command mb).2 ops
    | none => rb_pops (read_command mb).2 ops

/-- Specification side: what a first-in first-out queue holding `pending` delivers over a
sequence of accesses; a read of the empty queue delivers nothing. -/
def fifo_spec_pops (pending : List String) : List rb_op → List String
  | [] => []
  | .push cmd :: ops => fifo_spec_pops (pending ++ [cmd]) ops
  | .pop :: ops =>
    match pending with
    | [] => fifo_spec_pops [] ops
    | m :: rest => m :: fifo_spec_pops rest ops

/-- The messages written in a sequence of accesses, in order. -/
def rb_pushed : List rb_op → List String
  | [] => []
  | .push cmd :: ops => cmd :: rb_pushed ops
  | .pop :: ops => rb_pushed ops

/-- The texts of the unread rows of a buffer, oldest first. -/
def rb_contents (g : rb_trace) : List String :=
  g.unread.map (fun r => g.mb.buffer.getD r "")

/-- Every message written in the sequence is shorter than `PROXY_BUF_LEN` characters. -/
def pushes_short : List rb_op → Bool
  | [] => true
  | .push cmd :: ops => decide (cmd.length < PROXY_BUF_LEN) && pushes_short ops
  | .pop :: ops => pushes_short ops

/-! ## Throttle protocol server: messages from the command station (`withrottle_task`) -/

/-- The loop of `get_client_from_loco_addr` from index `i`, with `fuel` iterations left. -/
def client_search (clients : List withrottle_client_t) (loco_addr : Int) : Nat → Nat → Nat
  | 0, i => i
  | fuel + 1, i =>
    if (clients.getD i zero_client).loco_addr = loco_addr then i
    else client_search clients loco_addr fuel (i + 1)

/-- The function `get_client_from_loco_addr(loco_addr)`; the parameter is a `uint16_t`. -/
def get_client_from_loco_addr (clients : List withrottle_client_t) (loco_addr : Nat) : Nat :=
  client_search clients ((loco_addr % 65536 : Nat) : Int) MAX_WITHROTTLE_CLIENTS 0

/-- The block "process CAN frames from local bus" of `withrottle_task` for a frame `cf`
received from `withrottle_queue`. -/
def wt_bus_frame (cfg : wt_config) (st : wt_task_state) (cf : twai_message_t) :
    wt_task_state :=
  if cfg.dcc_type = DCC_MERG then
    if cf.byte 0 = OPC_PLOC then
      let j := get_client_from_loco_addr st.clients (cf.byte 2 * 256 + cf.byte 3)
      if j = MAX_WITHROTTLE_CLIENTS then st
      else
        let c : withrottle_client_t :=
          { wt_client st j with session_id := cf.byte 1, state := W_ACTIVE }
        { st with clients := st.clients.set j c }
    else if cf.byte 0 = OPC_ERR then
      let j := get_client_from_loco_addr st.clients (cf.byte 1 * 256 + cf.byte 2)
      if j = MAX_WITHROTTLE_CLIENTS then st
      else
        let c : withrottle_client_t :=
          { wt_client st j with session_id := cf.byte 1, state := W_ACTIVE }
        { st with clients := st.clients.set j c }
    else st
  else st

/-- The value of an `unsigned int` read as an `int`. -/
def to_int32 (v : Nat) : Int :=
  if v % 4294967296 < 2147483648 then ((v % 4294967296 : Nat) : Int)
  else ((v % 4294967296 : Nat) : Int) - 4294967296

/-- The block "read and process messages from DCC++ serial port" of `withrottle_task` for
a message `buffer` taken from `msgbuf_wi_in`. `treg`, `taddr`, `tspeed`, `tdir` are
`unsigned int` variables local to the block (`prev` is what they hold when not stored).
The result is `none` where `w_clients[treg - 1]` lies outside the table. -/
def wt_T_response (cfg : wt_config) (st : wt_task_state) (buffer : String) (prev : List Int) :
    Option wt_task_state :=
  if cfg.dcc_type = DCC_DCCPP ∧ buffer.data.getD 1 NUL = 'T' then
    let parsed := sscanf_d 4 (buffer.data.drop 2)
    let treg := (scanned parsed prev 0 % 4294967296).toNat
    let taddr := (scanned parsed prev 1 % 4294967296).toNat
    let tspeed := (scanned parsed prev 2 % 4294967296).toNat
    let tdir := (scanned parsed prev 3 % 4294967296).toNat
    if treg ≤ MAX_WITHROTTLE_CLIENTS then
      if treg = 0 then none
      else
        let c : withrottle_client_t :=
          { wt_client st (treg - 1) with
            session_id := treg % 256, loco_addr := to_int32 taddr, speed := tspeed % 256,
            direction := decide (tdir ≠ 0) }
        some { st with clients := st.clients.set (treg - 1) c }
    else some st
  else some st

/-- The number of entries of `w_clients` whose state is not `W_FREE`. -/
def num_not_free (st : wt_task_state) : Nat :=
  (st.clients.filter (fun c => decide (c.state ≠ W_FREE))).length

/-! ## Concrete inputs used by the theorems -/

/-- The RLOC frame `get_wt_session` builds for loco address `addr` on a node with bus
address `CANID`. -/
def rloc_request (CANID addr : Nat) : twai_message_t :=
  { identifier := make_can_header CANID, data_length_code := 3, flags := none,
    data := [OPC_RLOC, highByte addr, lowByte addr] }

/-- A DSPD frame `<0x47><Session><Speed/Dir>`. -/
def dspd_request (CANID sess speed_dir : Nat) : twai_message_t :=
  { identifier := make_can_header CANID, data_length_code := 3, flags := none,
    data := [OPC_DSPD, sess, speed_dir] }

/-- A DFUN frame `<0x60><Session><FR><Fn byte>`. -/
def dfun_request (CANID sess fr fn : Nat) : twai_message_t :=
  { identifier := make_can_header CANID, data_length_code := 4, flags := none,
    data := [OPC_DFUN, sess, fr, fn] }

/-- A table whose 8 slots are inactive and hold the dispatched addresses 11..18, each at
speed 20, the even slots forward and the odd slots in reverse. -/
def dispatched_tab : List session :=
  (List.range MAX_PROXY_SESSIONS).map fun i =>
    { active := false, cbus_session_num := i + 1, loco_addr := 11 + i, speed := 20,
      direction := decide (i % 2 = 0), session_ack := true, CANID := 4,
      last_activity := 1000 }

/-- The initial table in which slot 0 holds the dispatched loco 3, last driven at speed 50
in reverse. -/
def released_tab : List session :=
  session_tab_init.set 0
    { active := false, cbus_session_num := 1, loco_addr := 3, speed := 50,
      direction := DCC_DIR_REV, session_ack := true, CANID := 4, last_activity := 1000 }

/-- An empty ring buffer: all rows blank, `head = tail = 0`. -/
def msgbuf_zero : message_buffer_t :=
  { buffer := List.replicate NUM_PROXY_CMDS "", head := 0, tail := 0 }

/-- The table after a request for loco 100 has been granted on the initial table at time
5000 (slot 0 is active with address 100). -/
def granted_tab : List session := (rloc session_tab_init (rloc_request 3 100) 5000 1).tab

/-- An active throttle client holding session 1 for loco 100 at speed 64, forward, with
heartbeats enabled and its last message at time 5000. -/
def driving_client : withrottle_client_t :=
  { client := true, buffer := List.replicate 64 (Char.ofNat 0), idx := 0, state := W_ACTIVE,
    device_name := " ThrottleA", device_id := "", loco_addr := 100, loco_addr_type := 'L',
    speed := 64, direction := DCC_DIR_FWD, session_id := 1,
    throttle_sends_heartbeat := true, last_heartbeat_received := 5000 }

/-- A table with slot 0 active since time 1000, slot 1 active since time 50000 and slot 2
released, the other slots unused. -/
def aging_tab : List session :=
  ((session_tab_init.set 0
      { active := true, cbus_session_num := 1, loco_addr := 3, speed := 50,
        direction := DCC_DIR_REV, session_ack := true, CANID := 4, last_activity := 1000 }).set 1
      { active := true, cbus_session_num := 2, loco_addr := 4, speed := 10,
        direction := DCC_DIR_FWD, session_ack := true, CANID := 5, last_activity := 50000 }).set 2
      { active := false, cbus_session_num := 3, loco_addr := 5, speed := 0,
        direction := DCC_DIR_FWD, session_ack := true, CANID := 5, last_activity := 100 }

/-- A switch that has been released since time 0 (pressed is LOW). -/
def switch_idle : Switch :=
  { pressedState := 0, currentState := 1, lastState := 1, stateChanged := false,
    lastStateChangeTime := 0, lastStateDuration := 0, prevStateDuration := 0,
    prevReleaseTime := 0 }

/-- A configured node: bus address 5, node number 300, FLiM, no round in progress. -/
def flim_node : cbus_task_state :=
  { g := { CANID := 5, node_number := 300, cbus_mode := CBUS_MODE_FLIM,
           node_variables := [11, 12, 13, 14, 15, 16, 17, 18, 19, 20, 21, 22, 23, 24, 25, 26],
           enum_required := false, enum_in_progress := false, respond_to_enum := false,
           enum_responses := List.replicate 16 0, proxy_canids := List.replicate 8 0,
           learn_mode := false, in_transition := false, enum_start_time := 0, ttimer := 0 },
    node_params := node_params_init,
    sw := switch_idle }

/-- The node `flim_node` 50 ms into a round that started at time 5000 and has seen address
5 answer, its switch held down since time 4900. -/
def round_node : cbus_task_state :=
  { flim_node with
    g := { flim_node.g with enum_in_progress := true, enum_start_time := 5000,
                            enum_responses := 0x20 :: List.replicate 15 0 },
    sw := { switch_idle with currentState := 0, lastState := 0, stateChanged := false,
                             lastStateChangeTime := 4900 } }

/-- The node `round_node` with the switch released and a mode transition under way. -/
def round_node_in_transition : cbus_task_state :=
  { round_node with g := { round_node.g with in_transition := true, ttimer := 4000 },
                    sw := switch_idle }

/-- A received frame with identifier `ident`, no flag set and the payload `data`. -/
def received_frame (ident : Nat) (data : List Nat) : twai_message_t :=
  { identifier := ident, data_length_code := data.length, flags := some 0, data := data }

/-- The throttle server with the MERG back end, on a node with bus address 3. -/
def cfg_merg : wt_config := { dcc_type := DCC_MERG, CANID := 3 }

/-- The throttle server with the DCC++ back end, on a node with bus address 3. -/
def cfg_dccpp : wt_config := { dcc_type := DCC_DCCPP, CANID := 3 }

/-- Every client connected, nothing to read. -/
def quiet_links : Nat → wt_link := fun _ => { connected := true, available := [] }

/-- Two connected clients that have enabled heartbeats: slot 0 last heard at time 20500,
slot 1 (`driving_client`) last heard at time 5000; the heartbeat timer was last reset at
time 20000. -/
def two_clients : wt_task_state :=
  { clients := [{ driving_client with loco_addr := 101, session_id := 2,
                                      last_heartbeat_received := 20500 },
                driving_client, zero_client, zero_client],
    num_wi_clients := 2, hb_timer := 20000, ka_timer := 20000 }

/-- The clients of `two_clients` in the opposite slots. -/
def two_clients_swapped : wt_task_state :=
  { two_clients with
    clients := [driving_client,
                { driving_client with loco_addr := 101, session_id := 2,
                                      last_heartbeat_received := 20500 },
                zero_client, zero_client] }

/-- The line sequence of the scenario as the specification writes it. -/
def scenario_lines : List String := ["N ThrottleA", "*+", "M0+L1234", "M0AV64", "M0AF109"]

/-- The line sequence of the scenario with the action lines in the form the tokenizer
splits: address token, `<;>`, action token. -/
def scenario_lines_tokenized : List String :=
  ["N ThrottleA", "*+", "M0+L1234", "M0AL1234<;>V64", "M0AL1234<;>F109"]

/-- The client record of the scenario after the lines `N ThrottleA` and `*+`, processed at
time `now`. -/
def scenario_named (now : Nat) : withrottle_client_t :=
  { accepted_client now with device_name := " ThrottleA", throttle_sends_heartbeat := true }

/-- The client record of the scenario after the line `M0+L1234`: awaiting a session for
loco 1234 of type 'L', with session number `sid`. -/
def scenario_acquiring (now sid : Nat) : withrottle_client_t :=
  { scenario_named now with loco_addr := 1234, loco_addr_type := 'L',
                            state := W_AWAITING_SESSION_ID, session_id := sid }

/-- A frame `<opcode><Session>` from bus address 3, as a throttle sends it. -/
def session_frame (opcode sess : Nat) : twai_message_t :=
  received_frame (make_can_header 3) [opcode, sess]

/-- The throttle server with one client: the record of the scenario after `M0+L1234`,
awaiting its session (session number `sid`). -/
def awaiting_state (sid : Nat) : wt_task_state :=
  { clients := [scenario_acquiring 1000 sid, zero_client, zero_client, zero_client],
    num_wi_clients := 1, hb_timer := 1000, ka_timer := 1000 }

/-- The PLOC frame `<0xE1><Session><AddrH><AddrL><Speed/Dir><Fn1><Fn2><Fn3>` for session
`sess`, loco `addr`, at speed 0 forward. -/
def ploc_frame (sess addr : Nat) : twai_message_t :=
  received_frame (make_can_header 1) [OPC_PLOC, sess, highByte addr, lowByte addr, 128, 0, 0, 0]

/-- Every connection lost. -/
def lost_links : Nat → wt_link := fun _ => { connected := false, available := [] }

/-- The throttle server with a single client, `driving_client`, in slot 0. -/
def one_client : wt_task_state :=
  { clients := [driving_client, zero_client, zero_client, zero_client],
    num_wi_clients := 1, hb_timer := 20000, ka_timer := 20000 }

/-- A sequence of accesses to a ring buffer: seven writes, two reads, two writes, then
reads until nothing is left and one more read. -/
def rb_session : List rb_op :=
  [.push "<s>", .push "<t 1 3 0 1>", .push "<t 1 3 10 1>", .push "<f 3 144 0>",
   .push "<t 2 4 0 1>", .push "<t 1 3 20 1>", .push "<t 2 4 5 0>", .pop, .pop,
   .push "<1>", .push "<0>", .pop, .pop, .pop, .pop, .pop, .pop, .pop, .pop]

/-- A sequence of steps of the session manager: loco 100 is acquired, asked for again,
loco 3 is acquired, session 1 is released and acquired again, session 2 is driven, kept
alive and given a function command, and the sweep runs at 200 000 ms. -/
def proxy_session : List proxy_step :=
  [.rloc (rloc_request 3 100) 5000, .rloc (rloc_request 4 100) 5100,
   .rloc (rloc_request 4 3) 5200, .kloc (session_frame OPC_KLOC 1),
   .rloc (rloc_request 4 100) 5300, .dspd (dspd_request 4 2 0xC0) 5400,
   .dkeep (session_frame OPC_DKEEP 2) 5500,
   .dfun (received_frame (make_can_header 4) [OPC_DFUN, 2, 144, 0]) 5600,
   .sweep 200000]

/-! # Lemmas -/

/-! ## Lemmas: loops as folds -/

theorem foldl_range_invariant {σ : Type} (f : σ → Nat → σ) (P : Nat → σ → Prop) (N : Nat)
    (s0 : σ) (h0 : P 0 s0) (hstep : ∀ n s, n < N → P n s → P (n + 1) (f s n)) :
    P N ((List.range N).foldl f s0) := by
  induction N with
  | zero => simpa using h0
  | succ m ih =>
    rw [List.range_succ, List.foldl_append]
    simp only [List.foldl_cons, List.foldl_nil]
    exact hstep m _ (Nat.lt_succ_self m)
      (ih (fun n s hn hp => hstep n s (Nat.lt_succ_of_lt hn) hp))

/-! ## Lemmas: the enumeration scan -/

theorem bitRead_ff (b : Nat) (hb : b < 8) : bitRead 0xff b = 1 := by
  interval_cases b <;> decide

theorem scan_bit_inv (resp : List Nat) (i b : Nat) (hi : i < 16) (hb : b < 8) (s : enum_scan)
    (h : scan_inv resp (i * 8 + b) s) : scan_inv resp (i * 8 + b + 1) (scan_bit resp i b s) := by
  have hdiv : (i * 8 + b) / 8 = i := by omega
  have hmod : (i * 8 + b) % 8 = b := by omega
  have hext : ∀ s : enum_scan, scan_inv resp (i * 8 + b) s →
      (i * 8 + b = 0 ∨ ¬ bit_clear resp (i * 8 + b) ∨ 0 ≤ s.proxy_idx) →
      scan_inv resp (i * 8 + b + 1) s := by
    intro s hs hc
    rcases hs with ⟨h1, h2, h3, h4⟩ | ⟨h1, h2, h3, h4, h5⟩
    · rcases hc with hc | hc | hc
      · left
        refine ⟨h1, h2, h3, fun j hj1 hj2 => ?_⟩
        omega
      · left
        refine ⟨h1, h2, h3, fun j hj1 hj2 => ?_⟩
        rcases Nat.lt_succ_iff_lt_or_eq.mp hj2 with hlt | heq
        · exact h4 j hj1 hlt
        · rw [heq]; exact hc
      · omega
    · right
      exact ⟨h1, h2, by omega, h4, h5⟩
  unfold scan_bit
  split_ifs with hdone h00 hff hclr hm1 hlt heq
  · rcases h with ⟨_, h2, _⟩ | h
    · simp [hdone] at h2
    · exact hext s (Or.inr h) (Or.inr (Or.inr h.1))
  · exact hext s h (Or.inl (by omega))
  · refine hext s h (Or.inr (Or.inl ?_))
    unfold bit_clear
    rw [hdiv, hmod, hff, bitRead_ff b hb]
    decide
  · rcases h with ⟨h1, h2, h3, h4⟩ | ⟨h1, h2, h3, h4, h5⟩
    · right
      have hk : (i * 8 + b) % 256 = i * 8 + b := Nat.mod_eq_of_lt (by omega)
      have hclr2 : bit_clear resp (i * 8 + b) := by
        unfold bit_clear; rw [hdiv, hmod]; exact hclr
      have hpos : 1 ≤ i * 8 + b := by
        by_contra hcon
        apply h00
        constructor <;> omega
      simp only [hk]
      exact ⟨by omega, hpos, Nat.lt_succ_self _, hclr2, h4⟩
    · omega
  · rcases h with ⟨h1, _⟩ | ⟨h1, h2, h3, h4, h5⟩
    · exact absurd h1 hm1
    · right
      exact ⟨by simp only; omega, h2, by simp only; omega, h4, h5⟩
  · rcases h with ⟨h1, _⟩ | ⟨h1, h2, h3, h4, h5⟩
    · exact absurd h1 hm1
    · right
      exact ⟨h1, h2, by simp only; omega, h4, h5⟩
  · rcases h with ⟨h1, _⟩ | h
    · exact absurd h1 hm1
    · exact hext s (Or.inr h) (Or.inr (Or.inr h.1))
  · refine hext s h (Or.inr (Or.inl ?_))
    unfold bit_clear
    rw [hdiv, hmod]
    exact hclr

theorem scan_byte_inv (resp : List Nat) (i : Nat) (hi : i < 16) (s : enum_scan)
    (h : scan_inv resp (i * 8) s) : scan_inv resp ((i + 1) * 8) (scan_byte resp i s) := by
  have key := foldl_range_invariant (fun s b => scan_bit resp i b s)
    (fun b s => scan_inv resp (i * 8 + b) s) 8 s h
    (fun n s hn hp => scan_bit_inv resp i n hi hn s hp)
  have e : (i + 1) * 8 = i * 8 + 8 := by ring
  rw [e]
  exact key

theorem scan_responses_inv (resp pc : List Nat) :
    scan_inv resp 128 (scan_responses resp pc) := by
  have key := foldl_range_invariant (fun s i => scan_byte resp i s)
    (fun i s => scan_inv resp (i * 8) s) 16
    { selected_id := 0, proxy_idx := -1, proxy_canids := pc, enum_done := false }
    (Or.inl ⟨rfl, rfl, rfl, fun j h1 h2 => by omega⟩)
    (fun n s hn hp => scan_byte_inv resp n hn s hp)
  exact key

/-- The scan selects the lowest clear bit among bits 1..127. -/
theorem scan_selects_lowest (resp pc : List Nat) (k : Nat) (hk1 : 1 ≤ k) (hk2 : k < 128)
    (hclr : bit_clear resp k) (hmin : ∀ j, 1 ≤ j → j < k → ¬ bit_clear resp j) :
    (scan_responses resp pc).selected_id = k := by
  rcases scan_responses_inv resp pc with ⟨_, _, _, h4⟩ | ⟨_, h2, h3, h4, h5⟩
  · exact absurd hclr (h4 k hk1 hk2)
  · rcases Nat.lt_trichotomy (scan_responses resp pc).selected_id k with hlt | heq | hgt
    · exact absurd h4 (hmin _ h2 hlt)
    · exact heq
    · exact absurd hclr (h5 k hk1 hgt)

/-- With no clear bit among bits 1..127 the scan leaves `selected_id` at its initial 0. -/
theorem scan_selects_zero (resp pc : List Nat)
    (hfull : ∀ j, 1 ≤ j → j < 128 → ¬ bit_clear resp j) :
    (scan_responses resp pc).selected_id = 0 := by
  rcases scan_responses_inv resp pc with ⟨_, _, h3, _⟩ | ⟨_, h2, h3, h4, _⟩
  · exact h3
  · exact absurd h4 (hfull _ h2 h3)

/-! ## Lemmas: the session table searches -/

theorem first_slot_le (p : session → Bool) (t : List session) (fuel i : Nat) :
    i ≤ first_slot p t fuel i ∧ first_slot p t fuel i ≤ i + fuel := by
  induction fuel generalizing i with
  | zero => simp [first_slot]
  | succ n ih =>
    unfold first_slot
    split_ifs
    · omega
    · have := ih (i + 1)
      omega

theorem first_slot_before (p : session → Bool) (t : List session) (fuel i j : Nat)
    (h1 : i ≤ j) (h2 : j < first_slot p t fuel i) : p (slot t j) = false := by
  induction fuel generalizing i with
  | zero => simp [first_slot] at h2; omega
  | succ n ih =>
    unfold first_slot at h2
    split_ifs at h2 with hp
    · omega
    · rcases Nat.eq_or_lt_of_le h1 with heq | hlt
      · subst heq; simpa using hp
      · exact ih (i + 1) hlt h2

theorem first_slot_found (p : session → Bool) (t : List session) (fuel i : Nat)
    (h : first_slot p t fuel i < i + fuel) : p (slot t (first_slot p t fuel i)) = true := by
  induction fuel generalizing i with
  | zero => simp [first_slot] at h
  | succ n ih =>
    unfold first_slot at h ⊢
    split_ifs at h ⊢ with hp
    · exact hp
    · exact ih (i + 1) (by omega)

theorem first_slot_eq (p : session → Bool) (t : List session) (fuel i g : Nat)
    (h1 : i ≤ g) (h2 : g < i + fuel) (hg : p (slot t g) = true)
    (hb : ∀ j, i ≤ j → j < g → p (slot t j) = false) : first_slot p t fuel i = g := by
  induction fuel generalizing i with
  | zero => omega
  | succ n ih =>
    unfold first_slot
    split_ifs with hp
    · by_contra hne
      have := hb i (le_refl i) (by omega)
      rw [this] at hp
      exact Bool.false_ne_true hp
    · have hig : i ≠ g := by
        intro h; subst h; exact hp hg
      exact ih (i + 1) (by omega) (by omega) (fun j hj1 hj2 => hb j (by omega) hj2)

theorem dispatched_loop_i (t : List session) (fuel : Nat) (st : dispatched_search) :
    (dispatched_loop t fuel st).i = st.i + fuel := by
  induction fuel generalizing st with
  | zero => simp [dispatched_loop]
  | succ n ih =>
    unfold dispatched_loop
    split_ifs
    · rw [ih]; simp only; omega
    · rw [ih]; simp only; omega

theorem slot_set_self (t : List session) (i : Nat) (s : session) (h : i < t.length) :
    slot (t.set i s) i = s := by
  simp [slot, List.getD_eq_getElem?_getD, h]

theorem slot_set_other (t : List session) (i j : Nat) (s : session) (h : i ≠ j) :
    slot (t.set i s) j = slot t j := by
  simp [slot, List.getD_eq_getElem?_getD, List.getElem?_set_ne h]


theorem find_session_le (t : List session) (a : Nat) : find_session t a ≤ MAX_PROXY_SESSIONS := by
  have := (first_slot_le (fun s => decide (s.loco_addr = a)) t MAX_PROXY_SESSIONS 0).2
  simpa [find_session] using this

theorem find_unused_le (t : List session) : find_unused t ≤ MAX_PROXY_SESSIONS := by
  have := (first_slot_le (fun s => !s.active && decide (s.loco_addr = 0)) t MAX_PROXY_SESSIONS 0).2
  simpa [find_unused] using this

theorem stop_dispatched_i (t : List session) : (stop_dispatched t).i = MAX_PROXY_SESSIONS := by
  simp [stop_dispatched, dispatched_loop_i]

/-- RLOC, case "loco taken". -/
theorem rloc_taken (t : List session) (cf : twai_message_t) (now CANID : Nat)
    (h1 : find_session t (rloc_addr cf) < MAX_PROXY_SESSIONS)
    (h2 : (slot t (find_session t (rloc_addr cf))).active = true) :
    rloc t cf now CANID =
      { tab := t, frames := [send_cbus_session_error 2 cf CANID], cmds := [] } := by
  unfold rloc
  simp only []
  rw [if_pos ⟨h1, h2⟩]

/-- RLOC, case "reusing previous session". -/
theorem rloc_reuse (t : List session) (cf : twai_message_t) (now CANID : Nat)
    (h1 : find_session t (rloc_addr cf) < MAX_PROXY_SESSIONS)
    (h2 : (slot t (find_session t (rloc_addr cf))).active = false) :
    rloc t cf now CANID =
      { tab := t.set (find_session t (rloc_addr cf))
          (refresh_slot (slot t (find_session t (rloc_addr cf))) (rloc_addr cf) cf.identifier now false),
        frames := [],
        cmds := [fmt_t
          (refresh_slot (slot t (find_session t (rloc_addr cf))) (rloc_addr cf) cf.identifier now false).cbus_session_num
          (rloc_addr cf) 0 DCC_DIR_FWD] } := by
  unfold rloc
  simp only []
  rw [if_neg (by simp [h2]), if_neg (Nat.ne_of_lt h1), if_neg (Nat.ne_of_lt h1)]
  simp only []
  rw [if_neg (Nat.ne_of_lt h1), if_pos h1]
  simp [refresh_slot]

/-- RLOC, case "found free, unused session slot". -/
theorem rloc_unused (t : List session) (cf : twai_message_t) (now CANID : Nat)
    (h1 : find_session t (rloc_addr cf) = MAX_PROXY_SESSIONS)
    (h2 : find_unused t < MAX_PROXY_SESSIONS) :
    rloc t cf now CANID =
      { tab := t.set (find_unused t)
          (refresh_slot (slot t (find_unused t)) (rloc_addr cf) cf.identifier now false),
        frames := [],
        cmds := [fmt_t
          (refresh_slot (slot t (find_unused t)) (rloc_addr cf) cf.identifier now false).cbus_session_num
          (rloc_addr cf) 0 DCC_DIR_FWD] } := by
  unfold rloc
  simp only []
  rw [if_neg (by simp [h1]), if_pos h1, if_neg (Nat.ne_of_lt h2)]
  simp only []
  rw [if_neg (Nat.ne_of_lt h2), if_pos h2]
  simp [refresh_slot]

/-- RLOC, case "no free session slots": every dispatched loco has been sent a stop command
and the request is answered with an error. -/
theorem rloc_full (t : List session) (cf : twai_message_t) (now CANID : Nat)
    (h1 : find_session t (rloc_addr cf) = MAX_PROXY_SESSIONS)
    (h2 : find_unused t = MAX_PROXY_SESSIONS) :
    rloc t cf now CANID =
      { tab := t, frames := [send_cbus_session_error 1 cf CANID],
        cmds := (stop_dispatched t).cmds } := by
  unfold rloc
  simp only []
  rw [if_neg (by simp [h1]), if_pos h1, if_pos h2, if_pos (stop_dispatched_i t)]


theorem find_session_before (t : List session) (a j : Nat) (h : j < find_session t a) :
    (slot t j).loco_addr ≠ a := by
  have := first_slot_before (fun s => decide (s.loco_addr = a)) t MAX_PROXY_SESSIONS 0 j
    (Nat.zero_le j) h
  simpa using this

theorem find_session_found (t : List session) (a : Nat) (h : find_session t a < MAX_PROXY_SESSIONS) :
    (slot t (find_session t a)).loco_addr = a := by
  have := first_slot_found (fun s => decide (s.loco_addr = a)) t MAX_PROXY_SESSIONS 0
    (by simpa [find_session] using h)
  simpa [find_session] using this

theorem find_session_eq (t : List session) (a g : Nat) (hg : g < MAX_PROXY_SESSIONS)
    (h1 : (slot t g).loco_addr = a) (h2 : ∀ j, j < g → (slot t j).loco_addr ≠ a) :
    find_session t a = g := by
  unfold find_session
  apply first_slot_eq
  · exact Nat.zero_le g
  · simpa using hg
  · simpa using h1
  · intro j _ hj
    simpa using h2 j hj

/-- A request for the address held by an active slot `g`, no earlier slot holding that
address, is answered with an error and changes nothing. -/
theorem rloc_rejected_of_active (t : List session) (cf : twai_message_t) (now CANID g : Nat)
    (hg : g < MAX_PROXY_SESSIONS) (h1 : (slot t g).loco_addr = rloc_addr cf)
    (h2 : ∀ j, j < g → (slot t j).loco_addr ≠ rloc_addr cf) (h3 : (slot t g).active = true) :
    rloc t cf now CANID =
      { tab := t, frames := [send_cbus_session_error 2 cf CANID], cmds := [] } := by
  have e := find_session_eq t (rloc_addr cf) g hg h1 h2
  exact rloc_taken t cf now CANID (by rw [e]; exact hg) (by rw [e]; exact h3)

theorem refresh_slot_active (s : session) (a ident now : Nat) (r : Bool) :
    (refresh_slot s a ident now r).active = true := by
  unfold refresh_slot; cases r <;> simp

theorem refresh_slot_loco_addr (s : session) (a ident now : Nat) (r : Bool) :
    (refresh_slot s a ident now r).loco_addr = a := by
  unfold refresh_slot; cases r <;> simp

/-- A granted RLOC has written an active entry for the requested address into a slot of
the table before which no slot holds that address. -/
theorem rloc_granted (t : List session) (cf : twai_message_t) (now CANID : Nat)
    (hgrant : (rloc t cf now CANID).frames = []) :
    ∃ g s, g < MAX_PROXY_SESSIONS ∧ (∀ j, j < g → (slot t j).loco_addr ≠ rloc_addr cf) ∧
      s.active = true ∧ s.loco_addr = rloc_addr cf ∧ (rloc t cf now CANID).tab = t.set g s := by
  rcases Nat.lt_or_ge (find_session t (rloc_addr cf)) MAX_PROXY_SESSIONS with h1 | h1
  · cases h2 : (slot t (find_session t (rloc_addr cf))).active
    · refine ⟨find_session t (rloc_addr cf),
        refresh_slot (slot t (find_session t (rloc_addr cf))) (rloc_addr cf) cf.identifier now false,
        h1, fun j hj => find_session_before t _ j hj,
        refresh_slot_active _ _ _ _ _, refresh_slot_loco_addr _ _ _ _ _, ?_⟩
      rw [rloc_reuse t cf now CANID h1 h2]
    · rw [rloc_taken t cf now CANID h1 h2] at hgrant
      simp at hgrant
  · have h1 : find_session t (rloc_addr cf) = MAX_PROXY_SESSIONS :=
      Nat.le_antisymm (find_session_le t _) h1
    rcases Nat.lt_or_ge (find_unused t) MAX_PROXY_SESSIONS with h2 | h2
    · refine ⟨find_unused t,
        refresh_slot (slot t (find_unused t)) (rloc_addr cf) cf.identifier now false, h2,
        fun j hj => find_session_before t _ j (by rw [h1]; exact lt_trans hj h2),
        refresh_slot_active _ _ _ _ _, refresh_slot_loco_addr _ _ _ _ _, ?_⟩
      rw [rloc_unused t cf now CANID h1 h2]
    · have h2 : find_unused t = MAX_PROXY_SESSIONS := Nat.le_antisymm (find_unused_le t) h2
      rw [rloc_full t cf now CANID h1 h2] at hgrant
      simp at hgrant

theorem first_slot_none (p : session → Bool) (t : List session) (fuel i : Nat)
    (h : ∀ j, i ≤ j → j < i + fuel → p (slot t j) = false) :
    first_slot p t fuel i = i + fuel := by
  induction fuel generalizing i with
  | zero => simp [first_slot]
  | succ n ih =>
    unfold first_slot
    rw [h i (le_refl i) (by omega)]
    simp only [Bool.false_eq_true, if_false]
    rw [ih (i + 1) (fun j hj1 hj2 => h j (by omega) (by omega))]
    omega

/-- Whenever no slot holds the requested address and no slot is unused (in particular when
all slots hold dispatched locos), the request is refused and the table is left as it is. -/
theorem rloc_refused_without_unused_slot (t : List session) (cf : twai_message_t)
    (now CANID : Nat)
    (h1 : ∀ j, j < MAX_PROXY_SESSIONS → (slot t j).loco_addr ≠ rloc_addr cf)
    (h2 : ∀ j, j < MAX_PROXY_SESSIONS → (slot t j).loco_addr ≠ 0) :
    rloc t cf now CANID =
      { tab := t, frames := [send_cbus_session_error 1 cf CANID],
        cmds := (stop_dispatched t).cmds } := by
  apply rloc_full
  · unfold find_session
    rw [first_slot_none]
    · simp
    · intro j _ hj
      simpa using h1 j (by simpa using hj)
  · unfold find_unused
    rw [first_slot_none]
    · simp
    · intro j _ hj
      have := h2 j (by simpa using hj)
      simp [this]

/-! ## Lemmas: the ring buffer -/

theorem rb_inv_push (g : rb_trace) (cmd : String) (h : rb_inv g)
    (hcap : g.unread.length < NUM_PROXY_CMDS - 1) : rb_inv (rb_step g (.push cmd)) := by
  simp only [rb_inv, NUM_PROXY_CMDS, rb_step, send_dccpp_command, List.length_append,
    List.length_singleton] at h hcap ⊢
  obtain ⟨h1, h2, h3, h4, h5, h6⟩ := h
  refine ⟨?_, h2, ?_, ?_, ?_, ?_⟩
  · omega
  · omega
  · simp only [h4, Bool.false_or, decide_eq_false_iff_not]
    intro hmem
    rw [h6, List.mem_map] at hmem
    obtain ⟨k, hk, hk2⟩ := hmem
    rw [List.mem_range] at hk
    omega
  · omega
  · rw [List.range_succ, List.map_append, List.map_cons, List.map_nil, ← h6, h5]

theorem rb_inv_pop (g : rb_trace) (h : rb_inv g) : rb_inv (rb_step g .pop) := by
  by_cases hne : g.mb.head = g.mb.tail
  · have : rb_step g .pop = g := by
      simp [rb_step, read_command, hne]
    rw [this]
    exact h
  · have hstep : rb_step g .pop =
        { mb := { buffer := g.mb.buffer, head := g.mb.head, tail := (g.mb.tail + 1) % 8 },
          unread := g.unread.tail, overwritten := g.overwritten } := by
      simp [rb_step, read_command, hne, NUM_PROXY_CMDS]
    rw [hstep]
    simp only [rb_inv, NUM_PROXY_CMDS, List.length_tail] at h ⊢
    obtain ⟨h1, h2, h3, h4, h5, h6⟩ := h
    have hpos : 0 < g.unread.length := by
      by_contra hc
      have : g.unread.length = 0 := by omega
      rw [this] at h5
      omega
    obtain ⟨n, hn⟩ : ∃ n, g.unread.length = n + 1 := ⟨g.unread.length - 1, by omega⟩
    rw [hn] at h3 h5 h6 ⊢
    refine ⟨h1, ?_, ?_, h4, ?_, ?_⟩
    · omega
    · omega
    · omega
    · rw [List.range_succ_eq_map, List.map_cons, List.map_map] at h6
      rw [h6]
      simp only [List.tail_cons, Nat.add_sub_cancel]
      apply List.map_congr_left
      intro k _
      simp only [Function.comp, Nat.succ_eq_add_one]
      omega

theorem rb_inv_run (ops : List rb_op) (g : rb_trace) (h : rb_inv g)
    (hcap : within_capacity g ops = true) : rb_inv (rb_run g ops) := by
  induction ops generalizing g with
  | nil => simpa [rb_run] using h
  | cons op ops ih =>
    cases op with
    | push cmd =>
      simp only [within_capacity, Bool.and_eq_true, decide_eq_true_eq] at hcap
      simp only [rb_run, List.foldl_cons]
      exact ih _ (rb_inv_push g cmd h hcap.1) hcap.2
    | pop =>
      simp only [within_capacity] at hcap
      simp only [rb_run, List.foldl_cons]
      exact ih _ (rb_inv_pop g h) hcap

theorem rb_inv_empty_iff (g : rb_trace) (h : rb_inv g) :
    g.mb.head = g.mb.tail ↔ g.unread = [] := by
  simp only [rb_inv, NUM_PROXY_CMDS] at h
  obtain ⟨h1, h2, h3, h4, h5, h6⟩ := h
  rw [← List.length_eq_zero]
  constructor
  · intro he
    omega
  · intro he
    rw [he] at h5
    omega

theorem rb_inv_start (mb : message_buffer_t) (h0 : mb.head = mb.tail)
    (h1 : mb.head < NUM_PROXY_CMDS) : rb_inv (rb_start mb) := by
  simp only [NUM_PROXY_CMDS] at h1
  unfold rb_inv rb_start
  simp only [NUM_PROXY_CMDS, List.length_nil]
  refine ⟨h1, ?_, ?_, ?_, ?_, ?_⟩
  · omega
  · omega
  · trivial
  · omega
  · simp

/-! ## Lemmas: the time-out sweep -/

theorem sweep_loop_length (now fuel i : Nat) (t : List session) :
    (sweep_loop now fuel i t).length = t.length := by
  induction fuel generalizing i t with
  | zero => rfl
  | succ n ih =>
    unfold sweep_loop
    split_ifs
    · rw [ih, List.length_set]
    · rw [ih]

theorem sweep_loop_slot (now fuel i : Nat) (t : List session) (j : Nat)
    (hlen : i + fuel ≤ t.length) :
    slot (sweep_loop now fuel i t) j =
      if i ≤ j ∧ j < i + fuel then sweep_slot (slot t j) now else slot t j := by
  induction fuel generalizing i t with
  | zero =>
    have : ¬ (i ≤ j ∧ j < i + 0) := by omega
    rw [if_neg this]
    rfl
  | succ n ih =>
    unfold sweep_loop
    by_cases hij : i = j
    · subst hij
      have hin : i < t.length := by omega
      split_ifs with h1 h2 h3
      · rw [ih _ _ (by rw [List.length_set]; omega), if_neg (by omega),
          slot_set_self t i _ hin]
        simp [sweep_slot, h1]
      · omega
      · rw [ih _ _ (by omega), if_neg (by omega)]
        simp [sweep_slot, h1]
      · omega
    · split_ifs with h1 h2 h3
      · rw [ih _ _ (by rw [List.length_set]; omega), if_pos (by omega),
          slot_set_other t i j _ hij]
      · rw [ih _ _ (by rw [List.length_set]; omega), if_neg (by omega),
          slot_set_other t i j _ hij]
      · rw [ih _ _ (by omega), if_pos (by omega)]
      · rw [ih _ _ (by omega), if_neg (by omega)]

theorem find_unused_eq (t : List session) (g : Nat) (hg : g < MAX_PROXY_SESSIONS)
    (h1 : (slot t g).active = false) (h2 : (slot t g).loco_addr = 0)
    (h3 : ∀ j, j < g → ¬ ((slot t j).active = false ∧ (slot t j).loco_addr = 0)) :
    find_unused t = g := by
  unfold find_unused
  apply first_slot_eq
  · exact Nat.zero_le g
  · simpa using hg
  · simp [h1, h2]
  · intro j _ hj
    have := h3 j hj
    cases hact : (slot t j).active
    · simp only [hact, true_and] at this
      simp [this]
    · simp

theorem find_session_none (t : List session) (a : Nat)
    (h : ∀ j, j < MAX_PROXY_SESSIONS → (slot t j).loco_addr ≠ a) :
    find_session t a = MAX_PROXY_SESSIONS := by
  unfold find_session
  rw [first_slot_none]
  · simp
  · intro j _ hj
    simpa using h j (by simpa using hj)

theorem bitRead_seven (x : Nat) : bitRead x 7 = x / 128 % 2 := by
  unfold bitRead
  norm_num

theorem bitWrite_low7 (s : Nat) (d : Bool) (hs : s < 128) :
    bitWrite s 7 d % 128 = s ∧ (bitRead (bitWrite s 7 d) 7 = 1 ↔ d = true) := by
  have h0 : bitRead s 7 = 0 := by
    rw [bitRead_seven]
    omega
  have h128 : (2 : Nat) ^ 7 = 128 := by norm_num
  cases d
  · have e : bitWrite s 7 false = s := by
      simp [bitWrite, bitClear, h0]
    rw [e, h0]
    exact ⟨Nat.mod_eq_of_lt hs, by decide⟩
  · have e : bitWrite s 7 true = s + 128 := by
      simp [bitWrite, bitSet, h0]
    rw [e, bitRead_seven]
    constructor
    · omega
    · constructor
      · intro _; rfl
      · intro _; omega

/-! ## Lemmas: the opcode dispatch of the bus identity engine -/

theorem opc_snn_keeps_flag (s s2 : cbus_task_state) (cf : twai_message_t) (now : Nat)
    (frames : List twai_message_t) (h : opc_snn s cf now = .done s2 frames)
    (hf : s.g.enum_required = true) : s2.g.enum_required = true := by
  unfold opc_snn at h
  split_ifs at h <;> cases h <;> first | exact hf | rfl

theorem opc_qnn_keeps_flag (s s2 : cbus_task_state)
    (frames : List twai_message_t) (h : opc_qnn s = .done s2 frames)
    (hf : s.g.enum_required = true) : s2.g.enum_required = true := by
  unfold opc_qnn at h
  split_ifs at h <;> cases h <;> exact hf

theorem opc_canid_keeps_flag (s s2 : cbus_task_state) (cf : twai_message_t)
    (frames : List twai_message_t) (h : opc_canid s cf = .done s2 frames)
    (hf : s.g.enum_required = true) : s2.g.enum_required = true := by
  unfold opc_canid at h
  split_ifs at h <;> cases h <;> exact hf

theorem opc_enum_keeps_flag (s s2 : cbus_task_state) (cf : twai_message_t)
    (frames : List twai_message_t) (h : opc_enum s cf = .done s2 frames)
    (hf : s.g.enum_required = true) : s2.g.enum_required = true := by
  unfold opc_enum at h
  split_ifs at h <;> cases h <;> first | exact hf | rfl

theorem opc_nnlrn_keeps_flag (s s2 : cbus_task_state) (cf : twai_message_t)
    (frames : List twai_message_t) (h : opc_nnlrn s cf = .done s2 frames)
    (hf : s.g.enum_required = true) : s2.g.enum_required = true := by
  unfold opc_nnlrn at h
  split_ifs at h <;> cases h <;> exact hf

theorem opc_nnuln_keeps_flag (s s2 : cbus_task_state) (cf : twai_message_t)
    (frames : List twai_message_t) (h : opc_nnuln s cf = .done s2 frames)
    (hf : s.g.enum_required = true) : s2.g.enum_required = true := by
  unfold opc_nnuln at h
  split_ifs at h <;> cases h <;> exact hf

theorem opc_rqnp_keeps_flag (s s2 : cbus_task_state)
    (frames : List twai_message_t) (h : opc_rqnp s = .done s2 frames)
    (hf : s.g.enum_required = true) : s2.g.enum_required = true := by
  unfold opc_rqnp at h
  split_ifs at h <;> cases h <;> exact hf

theorem opc_rqnpn_keeps_flag (s s2 : cbus_task_state) (cf : twai_message_t)
    (frames : List twai_message_t) (h : opc_rqnpn s cf = .done s2 frames)
    (hf : s.g.enum_required = true) : s2.g.enum_required = true := by
  unfold opc_rqnpn at h
  split_ifs at h <;> cases h <;> exact hf

theorem opc_rqmn_keeps_flag (s s2 : cbus_task_state)
    (frames : List twai_message_t) (h : opc_rqmn s = .done s2 frames)
    (hf : s.g.enum_required = true) : s2.g.enum_required = true := by
  unfold opc_rqmn at h
  split_ifs at h <;> cases h <;> exact hf

theorem opc_nvrd_keeps_flag (s s2 : cbus_task_state) (cf : twai_message_t)
    (frames : List twai_message_t) (h : opc_nvrd s cf = .done s2 frames)
    (hf : s.g.enum_required = true) : s2.g.enum_required = true := by
  unfold opc_nvrd at h
  split_ifs at h <;> cases h <;> exact hf

theorem opc_nvset_keeps_flag (s s2 : cbus_task_state) (cf : twai_message_t)
    (frames : List twai_message_t) (h : opc_nvset s cf = .done s2 frames)
    (hf : s.g.enum_required = true) : s2.g.enum_required = true := by
  unfold opc_nvset at h
  split_ifs at h <;> cases h <;> exact hf

theorem opc_no_events_keeps_flag (s s2 : cbus_task_state) (cf : twai_message_t) (r : Nat)
    (frames : List twai_message_t) (h : opc_no_events s cf r = .done s2 frames)
    (hf : s.g.enum_required = true) : s2.g.enum_required = true := by
  unfold opc_no_events at h
  split_ifs at h <;> cases h <;> exact hf

/-- Case analysis on the opcode dispatch: a property of the result of every handler is a
property of the dispatch. -/
theorem process_opcode_cases (s : cbus_task_state) (cf : twai_message_t) (now : Nat)
    (P : cbus_outcome → Prop)
    (h1 : cf.byte 0 = OPC_SNN → P (opc_snn s cf now))
    (h2 : cf.byte 0 = OPC_QNN → P (opc_qnn s))
    (h3 : cf.byte 0 = OPC_CANID → P (opc_canid s cf))
    (h4 : cf.byte 0 = OPC_ENUM → P (opc_enum s cf))
    (h5 : cf.byte 0 = OPC_NNLRN → P (opc_nnlrn s cf))
    (h6 : cf.byte 0 = OPC_NNULN → P (opc_nnuln s cf))
    (h7 : cf.byte 0 = OPC_RQNP → P (opc_rqnp s))
    (h8 : cf.byte 0 = OPC_RQNPN → P (opc_rqnpn s cf))
    (h9 : cf.byte 0 = OPC_RQMN → P (opc_rqmn s))
    (h10 : cf.byte 0 = OPC_NVRD → P (opc_nvrd s cf))
    (h11 : cf.byte 0 = OPC_NVSET → P (opc_nvset s cf))
    (h12 : cf.byte 0 = OPC_RQEVN → P (opc_no_events s cf OPC_NUMEV))
    (h13 : cf.byte 0 = OPC_NNEVN → P (opc_no_events s cf OPC_EVNLF))
    (h14 : P (.done s [])) :
    P (process_opcode s cf now) := by
  unfold process_opcode
  by_cases c1 : cf.byte 0 = OPC_SNN
  · rw [if_pos c1]; exact h1 c1
  rw [if_neg c1]
  by_cases c2 : cf.byte 0 = OPC_QNN
  · rw [if_pos c2]; exact h2 c2
  rw [if_neg c2]
  by_cases c3 : cf.byte 0 = OPC_CANID
  · rw [if_pos c3]; exact h3 c3
  rw [if_neg c3]
  by_cases c4 : cf.byte 0 = OPC_ENUM
  · rw [if_pos c4]; exact h4 c4
  rw [if_neg c4]
  by_cases c5 : cf.byte 0 = OPC_NNLRN
  · rw [if_pos c5]; exact h5 c5
  rw [if_neg c5]
  by_cases c6 : cf.byte 0 = OPC_NNULN
  · rw [if_pos c6]; exact h6 c6
  rw [if_neg c6]
  by_cases c7 : cf.byte 0 = OPC_RQNP
  · rw [if_pos c7]; exact h7 c7
  rw [if_neg c7]
  by_cases c8 : cf.byte 0 = OPC_RQNPN
  · rw [if_pos c8]; exact h8 c8
  rw [if_neg c8]
  by_cases c9 : cf.byte 0 = OPC_RQMN
  · rw [if_pos c9]; exact h9 c9
  rw [if_neg c9]
  by_cases c10 : cf.byte 0 = OPC_NVRD
  · rw [if_pos c10]; exact h10 c10
  rw [if_neg c10]
  by_cases c11 : cf.byte 0 = OPC_NVSET
  · rw [if_pos c11]; exact h11 c11
  rw [if_neg c11]
  by_cases c12 : cf.byte 0 = OPC_RQEVN
  · rw [if_pos c12]; exact h12 c12
  rw [if_neg c12]
  by_cases c13 : cf.byte 0 = OPC_NNEVN
  · rw [if_pos c13]; exact h13 c13
  rw [if_neg c13]
  exact h14

/-- No opcode handler clears the re-arbitrate flag. -/
theorem process_opcode_keeps_flag (s s2 : cbus_task_state) (cf : twai_message_t) (now : Nat)
    (frames : List twai_message_t) (h : process_opcode s cf now = .done s2 frames)
    (hf : s.g.enum_required = true) : s2.g.enum_required = true := by
  revert h
  apply process_opcode_cases s cf now
    (fun o => o = .done s2 frames → s2.g.enum_required = true)
  · exact fun _ h => opc_snn_keeps_flag s s2 cf now frames h hf
  · exact fun _ h => opc_qnn_keeps_flag s s2 frames h hf
  · exact fun _ h => opc_canid_keeps_flag s s2 cf frames h hf
  · exact fun _ h => opc_enum_keeps_flag s s2 cf frames h hf
  · exact fun _ h => opc_nnlrn_keeps_flag s s2 cf frames h hf
  · exact fun _ h => opc_nnuln_keeps_flag s s2 cf frames h hf
  · exact fun _ h => opc_rqnp_keeps_flag s s2 frames h hf
  · exact fun _ h => opc_rqnpn_keeps_flag s s2 cf frames h hf
  · exact fun _ h => opc_rqmn_keeps_flag s s2 frames h hf
  · exact fun _ h => opc_nvrd_keeps_flag s s2 cf frames h hf
  · exact fun _ h => opc_nvset_keeps_flag s s2 cf frames h hf
  · exact fun _ h => opc_no_events_keeps_flag s s2 cf _ frames h hf
  · exact fun _ h => opc_no_events_keeps_flag s s2 cf _ frames h hf
  · intro h; cases h; exact hf

theorem opc_nv_out_of_bounds (s : cbus_task_state) (cf : twai_message_t) (idx : Int)
    (h : opc_nvrd s cf = .out_of_bounds idx ∨ opc_nvset s cf = .out_of_bounds idx) :
    cf.byte 3 = 0 ∧ idx = -1 ∧ frame_nn cf = s.g.node_number := by
  rcases h with h | h
  · unfold opc_nvrd at h
    split_ifs at h with h1 h2 h3
    cases h
    simp only [NUM_CBUS_NVS] at h3
    have : cf.byte 3 = 0 := by omega
    exact ⟨this, by rw [this]; rfl, h1⟩
  · unfold opc_nvset at h
    split_ifs at h with h1 h2 h3
    cases h
    simp only [NUM_CBUS_NVS] at h3
    have : cf.byte 3 = 0 := by omega
    exact ⟨this, by rw [this]; rfl, h1⟩

/-- An out-of-bounds access of the dispatch is one of: NVRD or NVSET addressed to this
node with index 0, or RQNPN with an index of 21 or more. -/
theorem process_opcode_out_of_bounds (s : cbus_task_state) (cf : twai_message_t) (now : Nat)
    (idx : Int) (h : process_opcode s cf now = .out_of_bounds idx) :
    ((cf.byte 0 = OPC_NVRD ∨ cf.byte 0 = OPC_NVSET) ∧ cf.byte 3 = 0 ∧ idx = -1 ∧
        frame_nn cf = s.g.node_number) ∨
      (cf.byte 0 = OPC_RQNPN ∧ 21 ≤ cf.byte 3) := by
  revert h
  apply process_opcode_cases s cf now
    (fun o => o = .out_of_bounds idx →
      ((cf.byte 0 = OPC_NVRD ∨ cf.byte 0 = OPC_NVSET) ∧ cf.byte 3 = 0 ∧ idx = -1 ∧
        frame_nn cf = s.g.node_number) ∨
      (cf.byte 0 = OPC_RQNPN ∧ 21 ≤ cf.byte 3))
  · intro _ h; unfold opc_snn at h; split_ifs at h
  · intro _ h; unfold opc_qnn at h; split_ifs at h
  · intro _ h; unfold opc_canid at h; split_ifs at h
  · intro _ h; unfold opc_enum at h; split_ifs at h
  · intro _ h; unfold opc_nnlrn at h; split_ifs at h
  · intro _ h; unfold opc_nnuln at h; split_ifs at h
  · intro _ h; unfold opc_rqnp at h; split_ifs at h
  · intro hop h
    right
    unfold opc_rqnpn at h
    split_ifs at h with a1 a2 a3
    exact ⟨hop, by omega⟩
  · intro _ h; unfold opc_rqmn at h; split_ifs at h
  · intro hop h
    left
    exact ⟨Or.inl hop, opc_nv_out_of_bounds s cf idx (Or.inl h)⟩
  · intro hop h
    left
    exact ⟨Or.inr hop, opc_nv_out_of_bounds s cf idx (Or.inr h)⟩
  · intro _ h; unfold opc_no_events at h; split_ifs at h
  · intro _ h; unfold opc_no_events at h; split_ifs at h
  · intro h; cases h

/-! ## Lemmas: the throttle server's message processing -/

theorem do_wt_action_keeps_address (cfg : wt_config) (i : Nat) (c c2 : withrottle_client_t)
    (tok1 : List Char) (out : wt_out) (h : do_wt_action cfg i c tok1 = some (c2, out)) :
    c2.loco_addr = c.loco_addr ∧ c2.loco_addr_type = c.loco_addr_type := by
  unfold do_wt_action at h
  simp only [] at h
  split_ifs at h <;> (cases h; exact ⟨rfl, rfl⟩)

set_option maxRecDepth 100000 in
/-- An action line without `<;>` is a single token: the digits after `M0A.` are taken as
the loco address, the fourth character as the address type, and the action is read from
the uninitialised `tokens[1]`. -/
theorem action_line_without_separator (cfg : wt_config) (i : Nat) (c : withrottle_client_t)
    (s0 s1 : String) (now : Nat) :
    process_wt_message cfg i c "M0AF109" s0 s1 now =
      (match do_wt_action cfg i
          { c with last_heartbeat_received := now, loco_addr := 109, loco_addr_type := 'F' }
          s1.data with
        | none => none
        | some (c2, out) =>
          some (c2, out.append { wt_out.none with to_throttle := [throttle_msg i "M0AF109".data] },
            true)) ∧
    process_wt_message cfg i c "M0AV64" s0 s1 now =
      (match do_wt_action cfg i
          { c with last_heartbeat_received := now, loco_addr := 64, loco_addr_type := 'V' }
          s1.data with
        | none => none
        | some (c2, out) =>
          some (c2, out.append { wt_out.none with to_throttle := [throttle_msg i "M0AV64".data] },
            true)) := ⟨rfl, rfl⟩

set_option maxRecDepth 100000 in
theorem scenario_first_lines_any_stale (s0 s1 : String) :
    process_wt_message cfg_dccpp 0 (accepted_client 900) "N ThrottleA" s0 s1 1000 =
      process_wt_message cfg_dccpp 0 (accepted_client 900) "N ThrottleA" "" "" 1000 ∧
    process_wt_message cfg_dccpp 0 { accepted_client 1000 with device_name := " ThrottleA" }
        "*+" s0 s1 1000 =
      process_wt_message cfg_dccpp 0 { accepted_client 1000 with device_name := " ThrottleA" }
        "*+" "" "" 1000 ∧
    process_wt_message cfg_dccpp 0 (scenario_named 1000) "M0+L1234" s0 s1 1000 =
      process_wt_message cfg_dccpp 0 (scenario_named 1000) "M0+L1234" "" "" 1000 ∧
    process_wt_lines cfg_dccpp 0 s0 s1 1000 scenario_lines_tokenized (accepted_client 900) =
      process_wt_lines cfg_dccpp 0 "" "" 1000 scenario_lines_tokenized (accepted_client 900) ∧
    process_wt_lines cfg_merg 0 s0 s1 1000 scenario_lines_tokenized (accepted_client 900) =
      process_wt_lines cfg_merg 0 "" "" 1000 scenario_lines_tokenized (accepted_client 900) :=
  ⟨rfl, rfl, rfl, rfl, rfl⟩

theorem scenario_first_lines (s0 s1 : String) :
    process_wt_message cfg_dccpp 0 (accepted_client 900) "N ThrottleA" s0 s1 1000 =
      some ({ accepted_client 1000 with device_name := " ThrottleA" }, wt_out.none, true) ∧
    process_wt_message cfg_dccpp 0 { accepted_client 1000 with device_name := " ThrottleA" }
        "*+" s0 s1 1000 =
      some (scenario_named 1000, wt_out.none, true) ∧
    process_wt_message cfg_dccpp 0 (scenario_named 1000) "M0+L1234" s0 s1 1000 =
      some (scenario_acquiring 1000 1,
        { to_throttle := [(0, "M0+L1234")], frames := [], cmds := ["<t 1 1234 0 1>"] },
        true) := by
  obtain ⟨e1, e2, e3, _, _⟩ := scenario_first_lines_any_stale s0 s1
  rw [e1, e2, e3]
  decide

/-- Whatever the uninitialised `tokens` hold, the lines of the scenario as the
specification writes them leave the record, if the run is defined at all, with address 109
and address type 'F'. -/
theorem scenario_literal_address (s0 s1 : String) (c : withrottle_client_t) (out : wt_out)
    (h : process_wt_lines cfg_dccpp 0 s0 s1 1000 scenario_lines (accepted_client 900) =
      some (c, out)) :
    c.loco_addr = 109 ∧ c.loco_addr_type = 'F' := by
  obtain ⟨e1, e2, e3⟩ := scenario_first_lines s0 s1
  unfold scenario_lines at h
  simp only [process_wt_lines, e1, e2, e3] at h
  rw [(action_line_without_separator cfg_dccpp 0 _ s0 s1 1000).2] at h
  cases h4 : do_wt_action cfg_dccpp 0
      { scenario_acquiring 1000 1 with
        last_heartbeat_received := 1000, loco_addr := 64, loco_addr_type := 'V' } s1.data with
  | none =>
    rw [h4] at h
    simp at h
  | some r4 =>
    obtain ⟨c4, o4⟩ := r4
    rw [h4] at h
    simp only [] at h
    rw [(action_line_without_separator cfg_dccpp 0 c4 s0 s1 1000).1] at h
    cases h5 : do_wt_action cfg_dccpp 0
        { c4 with last_heartbeat_received := 1000, loco_addr := 109, loco_addr_type := 'F' }
        s1.data with
    | none =>
      rw [h5] at h
      simp at h
    | some r5 =>
      obtain ⟨c5, o5⟩ := r5
      rw [h5] at h
      simp only [Option.some.injEq, Prod.mk.injEq] at h
      have := do_wt_action_keeps_address _ _ _ _ _ _ h5
      rw [← h.1]
      exact this

set_option maxRecDepth 100000 in
/-- The action lines in the form `address token <;> action token` write both tokens, so
their processing does not depend on what the uninitialised `tokens` held. -/
theorem scenario_action_lines_any_stale (cfg : wt_config) (c : withrottle_client_t)
    (s0 s1 : String) :
    process_wt_message cfg 0 c "M0AL1234<;>V64" s0 s1 1000 =
      process_wt_message cfg 0 c "M0AL1234<;>V64" "" "" 1000 ∧
    process_wt_message cfg 0 c "M0AL1234<;>F109" s0 s1 1000 =
      process_wt_message cfg 0 c "M0AL1234<;>F109" "" "" 1000 :=
  ⟨rfl, rfl⟩

/-! ## Lemmas: the session table under the session opcodes -/

theorem tab_inv_of_same_keys (t t2 : List session) (hlen : t2.length = MAX_PROXY_SESSIONS)
    (hsame : ∀ i, i < MAX_PROXY_SESSIONS →
      (slot t2 i).loco_addr = (slot t i).loco_addr ∧
      (slot t2 i).cbus_session_num = (slot t i).cbus_session_num)
    (h : tab_inv t) : tab_inv t2 := by
  obtain ⟨_, h2, h3⟩ := h
  refine ⟨hlen, ?_, ?_⟩
  · intro i j hi hj hij hnz
    rw [(hsame i hi).1] at hnz ⊢
    rw [(hsame j hj).1]
    exact h2 i j hi hj hij hnz
  · intro i hi
    rw [(hsame i hi).2]
    exact h3 i hi

theorem tab_inv_set_same_keys (t : List session) (k : Nat) (s : session)
    (h1 : s.loco_addr = (slot t k).loco_addr)
    (h2 : s.cbus_session_num = (slot t k).cbus_session_num)
    (h : tab_inv t) : tab_inv (t.set k s) := by
  refine tab_inv_of_same_keys t _ (by rw [List.length_set]; exact h.1) ?_ h
  intro i hi
  by_cases hk : k = i
  · subst hk
    rw [slot_set_self _ _ _ (by rw [h.1]; exact hi)]
    exact ⟨h1, h2⟩
  · rw [slot_set_other _ _ _ _ hk]
    exact ⟨rfl, rfl⟩

theorem tab_inv_init : tab_inv session_tab_init := by
  refine ⟨by decide, ?_, ?_⟩
  · intro i j hi hj _ hnz
    simp only [MAX_PROXY_SESSIONS] at hi
    exfalso
    revert hnz
    interval_cases i <;> decide
  · intro i hi
    simp only [MAX_PROXY_SESSIONS] at hi
    interval_cases i <;> decide

theorem tab_inv_sweep (t : List session) (now : Nat) (h : tab_inv t) :
    tab_inv (timeout_sweep t now) := by
  refine tab_inv_of_same_keys t _ ?_ ?_ h
  · unfold timeout_sweep
    rw [sweep_loop_length]
    exact h.1
  · intro i hi
    unfold timeout_sweep
    rw [sweep_loop_slot now MAX_PROXY_SESSIONS 0 t i (by rw [h.1]; omega)]
    unfold sweep_slot
    split_ifs <;> exact ⟨rfl, rfl⟩

theorem refresh_slot_session_num (s : session) (a ident now : Nat) (r : Bool) :
    (refresh_slot s a ident now r).cbus_session_num = s.cbus_session_num := by
  unfold refresh_slot
  cases r <;> rfl

theorem tab_inv_rloc (t : List session) (cf : twai_message_t) (now CANID : Nat)
    (h : tab_inv t) : tab_inv (rloc t cf now CANID).tab := by
  by_cases h1 : find_session t (rloc_addr cf) < MAX_PROXY_SESSIONS
  · cases h2 : (slot t (find_session t (rloc_addr cf))).active
    · rw [rloc_reuse t cf now CANID h1 h2]
      exact tab_inv_set_same_keys t _ _
        (by rw [refresh_slot_loco_addr, find_session_found t _ h1])
        (refresh_slot_session_num _ _ _ _ _) h
    · rw [rloc_taken t cf now CANID h1 h2]
      exact h
  · have h1e : find_session t (rloc_addr cf) = MAX_PROXY_SESSIONS :=
      Nat.le_antisymm (find_session_le t _) (Nat.le_of_not_lt h1)
    by_cases h2 : find_unused t < MAX_PROXY_SESSIONS
    · rw [rloc_unused t cf now CANID h1e h2]
      have hnone : ∀ j, j < MAX_PROXY_SESSIONS → (slot t j).loco_addr ≠ rloc_addr cf := by
        intro j hj
        exact find_session_before t _ j (by rw [h1e]; exact hj)
      have hkl : find_unused t < t.length := by rw [h.1]; exact h2
      obtain ⟨hl, hu, hn⟩ := h
      refine ⟨by rw [List.length_set]; exact hl, ?_, ?_⟩
      · intro i j hi hj hij hnz
        by_cases hki : find_unused t = i
        · rw [← hki] at hij
          rw [← hki, slot_set_self _ _ _ hkl, refresh_slot_loco_addr,
            slot_set_other _ _ _ _ hij]
          exact fun e => hnone j hj e.symm
        · rw [slot_set_other _ _ _ _ hki] at hnz ⊢
          by_cases hkj : find_unused t = j
          · rw [← hkj, slot_set_self _ _ _ hkl, refresh_slot_loco_addr]
            exact hnone i hi
          · rw [slot_set_other _ _ _ _ hkj]
            exact hu i j hi hj hij hnz
      · intro i hi
        by_cases hki : find_unused t = i
        · rw [← hki, slot_set_self _ _ _ hkl, refresh_slot_session_num]
          exact hn _ h2
        · rw [slot_set_other _ _ _ _ hki]
          exact hn i hi
    · have h2e : find_unused t = MAX_PROXY_SESSIONS :=
        Nat.le_antisymm (find_unused_le t) (Nat.le_of_not_lt h2)
      rw [rloc_full t cf now CANID h1e h2e]
      exact h

theorem kloc_tab (t : List session) (cf : twai_message_t) :
    (kloc t cf).tab = t ∨
    (kloc t cf).tab = t.set ((cf.byte 1 + 255) % 256)
      { slot t ((cf.byte 1 + 255) % 256) with active := false } := by
  unfold kloc
  simp only []
  split_ifs
  · exact Or.inr rfl
  · exact Or.inl rfl

theorem tab_inv_kloc (t : List session) (cf : twai_message_t) (h : tab_inv t) :
    tab_inv (kloc t cf).tab := by
  rcases kloc_tab t cf with e | e
  · rw [e]; exact h
  · rw [e]; exact tab_inv_set_same_keys t _ _ rfl rfl h

theorem dkeep_in_range (t : List session) (cf : twai_message_t) (now : Nat)
    (h1 : 1 ≤ cf.byte 1) (h2 : cf.byte 1 ≤ MAX_PROXY_SESSIONS) :
    dkeep t cf now =
      if (slot t (cf.byte 1 - 1)).active = true then
        .done { tab := t.set (cf.byte 1 - 1) { slot t (cf.byte 1 - 1) with last_activity := now },
                frames := [], cmds := [] }
      else .done { tab := t, frames := [], cmds := [] } := by
  simp only [MAX_PROXY_SESSIONS] at h2
  have hidx : ((cf.byte 1 : Int) - 1).toNat = cf.byte 1 - 1 := by omega
  unfold dkeep
  simp only [MAX_PROXY_SESSIONS, hidx]
  rw [if_pos (by constructor <;> omega)]

theorem dspd_in_range (t : List session) (cf : twai_message_t) (now CANID : Nat)
    (h1 : 1 ≤ cf.byte 1) (h2 : cf.byte 1 ≤ MAX_PROXY_SESSIONS) :
    ∃ o s, dspd t cf now CANID = .done o ∧ o.tab = t.set (cf.byte 1 - 1) s ∧
      s.loco_addr = (slot t (cf.byte 1 - 1)).loco_addr ∧
      s.cbus_session_num = (slot t (cf.byte 1 - 1)).cbus_session_num := by
  simp only [MAX_PROXY_SESSIONS] at h2
  have hi : (cf.byte 1 + 255) % 256 = cf.byte 1 - 1 := by omega
  unfold dspd
  simp only [hi, MAX_PROXY_SESSIONS]
  rw [if_neg (by omega), if_pos (by omega)]
  exact ⟨_, _, rfl, rfl, rfl, rfl⟩

theorem dfun_in_range (t : List session) (cf : twai_message_t) (now CANID : Nat)
    (h1 : 1 ≤ cf.byte 1) (h2 : cf.byte 1 ≤ MAX_PROXY_SESSIONS) :
    ∃ o s, dfun t cf now CANID = .done o ∧ o.tab = t.set (cf.byte 1 - 1) s ∧
      s.loco_addr = (slot t (cf.byte 1 - 1)).loco_addr ∧
      s.cbus_session_num = (slot t (cf.byte 1 - 1)).cbus_session_num := by
  simp only [MAX_PROXY_SESSIONS] at h2
  have hi : (cf.byte 1 + 255) % 256 = cf.byte 1 - 1 := by omega
  unfold dfun
  simp only [hi, MAX_PROXY_SESSIONS]
  rw [if_neg (by omega), if_pos (by omega)]
  exact ⟨_, _, rfl, rfl, rfl, rfl⟩

theorem tab_inv_step (CANID : Nat) (t : List session) (st : proxy_step) (h : tab_inv t)
    (hok : session_byte_ok st = true) :
    ∃ t2, step_tab CANID t st = some t2 ∧ tab_inv t2 := by
  cases st with
  | sweep now => exact ⟨_, rfl, tab_inv_sweep t now h⟩
  | rloc cf now => exact ⟨_, rfl, tab_inv_rloc t cf now CANID h⟩
  | kloc cf => exact ⟨_, rfl, tab_inv_kloc t cf h⟩
  | dkeep cf now =>
    simp only [session_byte_ok, decide_eq_true_eq] at hok
    simp only [step_tab]
    rw [dkeep_in_range t cf now hok.1 hok.2]
    split_ifs
    · exact ⟨_, rfl, tab_inv_set_same_keys t _ _ rfl rfl h⟩
    · exact ⟨_, rfl, h⟩
  | dspd cf now =>
    simp only [session_byte_ok, decide_eq_true_eq] at hok
    obtain ⟨o, s, e, et, hs1, hs2⟩ := dspd_in_range t cf now CANID hok.1 hok.2
    simp only [step_tab]
    rw [e]
    refine ⟨_, rfl, ?_⟩
    rw [et]
    exact tab_inv_set_same_keys t _ _ hs1 hs2 h
  | dfun cf now =>
    simp only [session_byte_ok, decide_eq_true_eq] at hok
    obtain ⟨o, s, e, et, hs1, hs2⟩ := dfun_in_range t cf now CANID hok.1 hok.2
    simp only [step_tab]
    rw [e]
    refine ⟨_, rfl, ?_⟩
    rw [et]
    exact tab_inv_set_same_keys t _ _ hs1 hs2 h

theorem tab_inv_run (CANID : Nat) (steps : List proxy_step) (t : List session)
    (h : tab_inv t) (hok : ∀ st ∈ steps, session_byte_ok st = true) :
    ∃ t2, proxy_run CANID t steps = some t2 ∧ tab_inv t2 := by
  induction steps generalizing t with
  | nil => exact ⟨t, rfl, h⟩
  | cons st rest ih =>
    obtain ⟨t1, e1, h1⟩ := tab_inv_step CANID t st h (hok st (List.mem_cons_self _ _))
    obtain ⟨t2, e2, h2⟩ := ih t1 h1 (fun s hs => hok s (List.mem_cons_of_mem _ hs))
    refine ⟨t2, ?_, h2⟩
    unfold proxy_run
    rw [e1]
    exact e2

/-! ## Lemmas: what the reader of a ring buffer receives -/

theorem strncpy_short (cmd : String) (h : cmd.length < PROXY_BUF_LEN) :
    strncpy cmd PROXY_BUF_LEN = cmd := by
  unfold strncpy
  have : cmd.data.take PROXY_BUF_LEN = cmd.data :=
    List.take_of_length_le (Nat.le_of_lt h)
  rw [this]

theorem rb_rows_step (g : rb_trace) (op : rb_op) :
    (rb_step g op).mb.buffer.length = g.mb.buffer.length := by
  cases op with
  | push cmd => simp [rb_step, send_dccpp_command]
  | pop =>
    simp only [rb_step, read_command]
    split_ifs <;> rfl

theorem rb_indices_step (g : rb_trace) (op : rb_op)
    (h : g.mb.head < NUM_PROXY_CMDS ∧ g.mb.tail < NUM_PROXY_CMDS) :
    (rb_step g op).mb.head < NUM_PROXY_CMDS ∧ (rb_step g op).mb.tail < NUM_PROXY_CMDS := by
  cases op with
  | push cmd =>
    simp only [rb_step, send_dccpp_command, NUM_PROXY_CMDS] at h ⊢
    omega
  | pop =>
    simp only [rb_step, read_command, NUM_PROXY_CMDS] at h ⊢
    split_ifs
    · simp only []
      omega
    · exact h

theorem rb_indices_run (ops : List rb_op) (g : rb_trace)
    (h : g.mb.head < NUM_PROXY_CMDS ∧ g.mb.tail < NUM_PROXY_CMDS) :
    (rb_run g ops).mb.head < NUM_PROXY_CMDS ∧ (rb_run g ops).mb.tail < NUM_PROXY_CMDS := by
  induction ops generalizing g with
  | nil => exact h
  | cons op ops ih =>
    simp only [rb_run, List.foldl_cons]
    exact ih _ (rb_indices_step g op h)

theorem rb_contents_push (g : rb_trace) (cmd : String) (h : rb_inv g)
    (hrows : g.mb.buffer.length = NUM_PROXY_CMDS)
    (hcap : g.unread.length < NUM_PROXY_CMDS - 1) (hshort : cmd.length < PROXY_BUF_LEN) :
    rb_contents (rb_step g (.push cmd)) = rb_contents g ++ [cmd] := by
  have hinv2 := rb_inv_push g cmd h hcap
  have hnot : g.mb.head ∉ g.unread := by
    have := hinv2.2.2.2.1
    simp only [rb_step, h.2.2.2.1, Bool.false_or, decide_eq_false_iff_not] at this
    exact this
  have hh : g.mb.head < g.mb.buffer.length := by rw [hrows]; exact h.1
  simp only [rb_contents, rb_step, send_dccpp_command, strncpy_short cmd hshort,
    List.map_append, List.map_cons, List.map_nil]
  congr 1
  · apply List.map_congr_left
    intro r hr
    have hne : g.mb.head ≠ r := fun e => hnot (e ▸ hr)
    simp [List.getD_eq_getElem?_getD, List.getElem?_set, hne]
  · simp [List.getD_eq_getElem?_getD, List.getElem?_set, hh]

theorem rb_unread_head (g : rb_trace) (h : rb_inv g) (hne : g.mb.head ≠ g.mb.tail) :
    g.unread = g.mb.tail :: g.unread.tail := by
  obtain ⟨h1, h2, h3, h4, h5, h6⟩ := h
  simp only [NUM_PROXY_CMDS] at h1 h2 h3 h5
  have hpos : 0 < g.unread.length := by
    by_contra hc
    have : g.unread.length = 0 := by omega
    rw [this] at h5
    omega
  obtain ⟨n, hn⟩ : ∃ n, g.unread.length = n + 1 := ⟨g.unread.length - 1, by omega⟩
  cases hu : g.unread with
  | nil => rw [hu] at hpos; simp at hpos
  | cons a rest =>
    rw [hu] at h6
    simp only [List.length_cons, List.range_succ_eq_map, List.map_cons, Nat.add_zero,
      List.cons.injEq] at h6
    have : a = g.mb.tail := by
      rw [h6.1]
      exact Nat.mod_eq_of_lt h2
    rw [this]
    rfl

theorem rb_pops_refine (ops : List rb_op) (g : rb_trace) (h : rb_inv g)
    (hrows : g.mb.buffer.length = NUM_PROXY_CMDS)
    (hcap : within_capacity g ops = true) (hshort : pushes_short ops = true) :
    rb_pops g.mb ops = fifo_spec_pops (rb_contents g) ops ∧
    rb_pops g.mb ops ++ rb_contents (rb_run g ops) = rb_contents g ++ rb_pushed ops := by
  induction ops generalizing g with
  | nil => simp [rb_pops, fifo_spec_pops, rb_run, rb_pushed]
  | cons op ops ih =>
    cases op with
    | push cmd =>
      simp only [within_capacity, Bool.and_eq_true, decide_eq_true_eq] at hcap
      simp only [pushes_short, Bool.and_eq_true, decide_eq_true_eq] at hshort
      have hc := rb_contents_push g cmd h hrows hcap.1 hshort.1
      have := ih (rb_step g (.push cmd)) (rb_inv_push g cmd h hcap.1)
        (by rw [rb_rows_step]; exact hrows) hcap.2 hshort.2
      rw [hc] at this
      simp only [rb_pops, fifo_spec_pops, rb_run, List.foldl_cons, rb_pushed]
      constructor
      · exact this.1
      · rw [List.append_assoc] at this
        exact this.2
    | pop =>
      simp only [within_capacity] at hcap
      simp only [pushes_short] at hshort
      have hi := ih (rb_step g .pop) (rb_inv_pop g h)
        (by rw [rb_rows_step]; exact hrows) hcap hshort
      by_cases hne : g.mb.head = g.mb.tail
      · have hstep : rb_step g .pop = g := by simp [rb_step, read_command, hne]
        have hemp : g.unread = [] := (rb_inv_empty_iff g h).mp hne
        have hc0 : rb_contents g = [] := by simp [rb_contents, hemp]
        rw [hstep] at hi
        have hr1 : (read_command g.mb).1 = none := by simp [read_command, hne]
        have hr2 : (read_command g.mb).2 = g.mb := by simp [read_command, hne]
        simp only [rb_pops, hr1, hr2, rb_run, List.foldl_cons, hstep, rb_pushed]
        rw [hc0] at hi ⊢
        simp only [fifo_spec_pops]
        exact hi
      · have hu := rb_unread_head g h hne
        have hr1 : (read_command g.mb).1 = some (g.mb.buffer.getD g.mb.tail "") := by
          simp [read_command, hne]
        have hstep : rb_step g .pop =
            { g with mb := (read_command g.mb).2, unread := g.unread.tail } := by
          simp [rb_step, hr1]
        have hbuf : (read_command g.mb).2.buffer = g.mb.buffer := by
          simp [read_command, hne]
        have hc1 : rb_contents g =
            g.mb.buffer.getD g.mb.tail "" :: rb_contents (rb_step g .pop) := by
          rw [hstep]
          simp only [rb_contents, hbuf]
          conv_lhs => rw [hu]
          rfl
        have hmb : (rb_step g .pop).mb = (read_command g.mb).2 := by rw [hstep]
        rw [hmb] at hi
        simp only [rb_pops, hr1, rb_run, List.foldl_cons, rb_pushed]
        rw [hc1]
        simp only [fifo_spec_pops, List.cons_append, List.cons.injEq, true_and]
        exact hi

/-! ## Lemmas: the throttle server and the command station's messages -/

theorem clients_set_keeps_state (l : List withrottle_client_t) (k i : Nat)
    (c : withrottle_client_t) (hc : c.state = (l.getD k zero_client).state) :
    ((l.set k c).getD i zero_client).state = (l.getD i zero_client).state := by
  by_cases hki : k = i
  · subst hki
    by_cases hk : k < l.length
    · simp [List.getD_eq_getElem?_getD, List.getElem?_set, hk] at hc ⊢
      exact hc
    · have hle : l.length ≤ k := Nat.le_of_not_lt hk
      have hle2 : (l.set k c).length ≤ k := by rw [List.length_set]; exact hle
      simp only [List.getD_eq_getElem?_getD]
      rw [List.getElem?_eq_none hle, List.getElem?_eq_none hle2]
  · simp only [List.getD_eq_getElem?_getD]
    rw [List.getElem?_set_ne hki]

theorem wt_T_response_keeps_state (cfg : wt_config) (st st2 : wt_task_state)
    (buffer : String) (prev : List Int) (h : wt_T_response cfg st buffer prev = some st2)
    (i : Nat) : (wt_client st2 i).state = (wt_client st i).state := by
  unfold wt_T_response at h
  simp only [] at h
  split_ifs at h with h1 h2 h3
  · cases h
    exact clients_set_keeps_state _ _ _ _ rfl
  · cases h; rfl
  · cases h; rfl

theorem scanned_all (a b c d : Int) (prev : List Int) :
    scanned [a, b, c, d] prev 0 = a ∧ scanned [a, b, c, d] prev 1 = b ∧
    scanned [a, b, c, d] prev 2 = c ∧ scanned [a, b, c, d] prev 3 = d :=
  ⟨rfl, rfl, rfl, rfl⟩

/-- The four numbers of the responses used below, as `sscanf` stores them. -/
theorem sscanf_d_responses :
    sscanf_d 4 ("<T 1 1234 0 1>".data.drop 2) = [1, 1234, 0, 1] ∧
    sscanf_d 4 ("<T 1 1234 64 0>".data.drop 2) = [1, 1234, 64, 0] ∧
    sscanf_d 4 ("<T 1 100 64 1>".data.drop 2) = [1, 100, 64, 1] ∧
    sscanf_d 4 ("<T 3 1234 64 0>".data.drop 2) = [3, 1234, 64, 0] ∧
    sscanf_d 4 ("<T 257 100 64 1>".data.drop 2) = [257, 100, 64, 1] ∧
    sscanf_d 4 ("<T 0 100 64 1>".data.drop 2) = [0, 100, 64, 1] ∧
    sscanf_d 4 ("<T 9 100 64 1>".data.drop 2) = [9, 100, 64, 1] := by
  decide

/-- The message-independent form of the `case 'T'` of the session manager, once the four
numbers are known. -/
theorem dccpp_T_response_of_parsed (t : List session) (d1 : Nat) (buffer : String)
    (prev : List Int) (now CANID : Nat) (a b c d : Int)
    (h : sscanf_d 4 (buffer.data.drop 2) = [a, b, c, d]) :
    dccpp_T_response t d1 buffer prev now CANID = dccpp_T_response t d1 buffer [a, b, c, d] now CANID := by
  unfold dccpp_T_response
  simp only [h, scanned_all]

theorem wt_T_response_of_parsed (cfg : wt_config) (st : wt_task_state) (buffer : String)
    (prev : List Int) (a b c d : Int)
    (h : sscanf_d 4 (buffer.data.drop 2) = [a, b, c, d]) :
    wt_T_response cfg st buffer prev = wt_T_response cfg st buffer [a, b, c, d] := by
  unfold wt_T_response
  simp only [h, scanned_all]

/-! # Theorems -/

/-! ## Bus identity engine -/

/-- C1: when an enumeration round ends and bit `k` is the lowest clear bit among bits
1..127 of the bitmap, the node's bus address becomes `k`. Nothing is assumed about bit 0,
which is never selected. -/
theorem enum_selects_lowest_clear_bit (st : cbus_state) (now k : Nat)
    (hprog : st.enum_in_progress = true)
    (htime : elapsed now st.enum_start_time ≥ 100)
    (hk1 : 1 ≤ k) (hk2 : k < 128) (hclr : bit_clear st.enum_responses k)
    (hmin : ∀ j, 1 ≤ j → j < k → ¬ bit_clear st.enum_responses j) :
    (end_of_enumeration st now).1.CANID = k := by
  unfold end_of_enumeration
  rw [if_pos ⟨hprog, htime⟩]
  simp only []
  exact scan_selects_lowest st.enum_responses st.proxy_canids k hk1 hk2 hclr hmin

/-- C1, witness: bits 1-5 set and bit 6 clear (bit 0 clear as well) gives address 6. -/
theorem enum_selects_lowest_clear_bit_witness :
    (end_of_enumeration (round_state [0x3e, 0, 0, 0, 0, 0, 0, 0, 0, 0, 0, 0, 0, 0, 0, 0]) 100).1.CANID
      = 6 :=
  enum_selects_lowest_clear_bit _ 100 6 rfl (by decide) (by decide) (by decide) (by decide)
    (by intro j h1 h2; interval_cases j <;> decide)


/-- C7 (the code departs from the claim): after a round that saw no address at all, the node
takes address 1 and every one of the 8 secondary addresses is 1 as well, where the claim
has them be 2..9: the scan stores `selected_id`, not `free_id`, in `proxy_canids`. -/
theorem enum_proxy_canids_repeat_selected :
    (end_of_enumeration (round_state (List.replicate 16 0)) 100).1.CANID = 1 ∧
    (end_of_enumeration (round_state (List.replicate 16 0)) 100).1.proxy_canids
      = [1, 1, 1, 1, 1, 1, 1, 1] := by
  set_option maxRecDepth 100000 in decide

/-- C8 (the code departs from the claim): when every bit of the bitmap is set, and also
when only bit 0 is clear, the round ends and installs 0 as the node's bus address. -/
theorem enum_full_bitmap_installs_zero :
    (end_of_enumeration (round_state (List.replicate 16 0xff)) 100).1.CANID = 0 ∧
    (end_of_enumeration
      (round_state [0xfe, 0xff, 0xff, 0xff, 0xff, 0xff, 0xff, 0xff,
                    0xff, 0xff, 0xff, 0xff, 0xff, 0xff, 0xff, 0xff]) 100).1.CANID = 0 := by
  set_option maxRecDepth 100000 in decide

/-! ## Session manager -/

/-- C2 (the code departs from the claim): with all 8 slots inactive and holding the
addresses 11..18, a request for loco 100 is refused. The table is unchanged, an error
frame is sent, and a stop command has gone out for each of the 8 dispatched locos: the
loop that looks for a dispatched slot has no `break`. -/
theorem rloc_all_dispatched_is_refused :
    rloc dispatched_tab (rloc_request 3 100) 5000 1 =
      { tab := dispatched_tab,
        frames := [send_cbus_session_error 1 (rloc_request 3 100) 1],
        cmds := ["<t 1 11 0 1>", "<t 2 12 0 0>", "<t 3 13 0 1>", "<t 4 14 0 0>",
                 "<t 5 15 0 1>", "<t 6 16 0 0>", "<t 7 17 0 1>", "<t 8 18 0 0>"] } := by
  decide

/-- C3: if an RLOC for address A is granted (it is answered without an error frame), then
A sits in an active slot `g` of the resulting table, and on every table that has the same
addresses in its slots and slot `g` still active (in particular on the resulting table
itself) any further RLOC for A is answered with an OPC_ERR frame, forwards no command and
leaves the table as it is. -/
theorem rloc_repeated_request_rejected (t : List session) (cf : twai_message_t)
    (now CANID : Nat) (hlen : t.length = MAX_PROXY_SESSIONS)
    (hgrant : (rloc t cf now CANID).frames = []) :
    ∃ g, g < MAX_PROXY_SESSIONS ∧
      (slot (rloc t cf now CANID).tab g).active = true ∧
      (slot (rloc t cf now CANID).tab g).loco_addr = rloc_addr cf ∧
      ∀ (t2 : List session) (cf2 : twai_message_t) (now2 CANID2 : Nat),
        rloc_addr cf2 = rloc_addr cf →
        (∀ j, j < MAX_PROXY_SESSIONS →
          (slot t2 j).loco_addr = (slot (rloc t cf now CANID).tab j).loco_addr) →
        (slot t2 g).active = true →
        rloc t2 cf2 now2 CANID2 =
          { tab := t2, frames := [send_cbus_session_error 2 cf2 CANID2], cmds := [] } := by
  obtain ⟨g, s, hg, hbef, hs1, hs2, htab⟩ := rloc_granted t cf now CANID hgrant
  have hgl : g < t.length := by rw [hlen]; exact hg
  refine ⟨g, hg, ?_, ?_, ?_⟩
  · rw [htab, slot_set_self t g s hgl]; exact hs1
  · rw [htab, slot_set_self t g s hgl]; exact hs2
  · intro t2 cf2 now2 CANID2 haddr hsame hact
    apply rloc_rejected_of_active t2 cf2 now2 CANID2 g hg
    · rw [hsame g hg, htab, slot_set_self t g s hgl, haddr]; exact hs2
    · intro j hj
      rw [hsame j (lt_trans hj hg), htab, slot_set_other t g j s (Nat.ne_of_gt hj), haddr]
      exact hbef j hj
    · exact hact

/-- C3, witness: on the initial table a request for loco 100 is granted, and the same
request made again 2 s later is rejected and changes nothing. -/
theorem rloc_repeated_request_rejected_witness :
    session_tab_init.length = MAX_PROXY_SESSIONS ∧
    (rloc session_tab_init (rloc_request 3 100) 5000 1).frames = [] ∧
    rloc (rloc session_tab_init (rloc_request 3 100) 5000 1).tab (rloc_request 3 100) 7000 1 =
      { tab := (rloc session_tab_init (rloc_request 3 100) 5000 1).tab,
        frames := [send_cbus_session_error 2 (rloc_request 3 100) 1], cmds := [] } := by
  refine ⟨by decide, by decide, ?_⟩
  obtain ⟨g, _, hact, _, hall⟩ :=
    rloc_repeated_request_rejected session_tab_init (rloc_request 3 100) 5000 1
      (by decide) (by decide)
  exact hall _ (rloc_request 3 100) 7000 1 rfl (fun _ _ => rfl) hact

/-- C4 (the code departs from the claim): whatever `errnum` is passed, the error-code byte
`data[3]` of the frame is 1, so a "loco taken" rejection (2) is the same frame as a "no
free sessions" rejection (1). Length, opcode and the two echoed bytes are as claimed. -/
theorem session_error_code_is_always_one (errnum : Nat) (cf : twai_message_t) (CANID : Nat) :
    (send_cbus_session_error errnum cf CANID).data_length_code = 4 ∧
    (send_cbus_session_error errnum cf CANID).data = [OPC_ERR, cf.byte 1, cf.byte 2, 1] ∧
    (send_cbus_session_error 2 cf CANID).byte 3 = 1 ∧
    send_cbus_session_error 2 cf CANID = send_cbus_session_error 1 cf CANID :=
  ⟨rfl, rfl, rfl, rfl⟩

/-- C5 (the code departs from the claim): slot 0 holds the dispatched loco 3 at speed 50 in
reverse; a request for loco 3 reactivates slot 0 but with speed 0 and direction forward,
and the forwarded command is `<t 1 3 0 1>` instead of `<t 1 3 50 0>`. -/
theorem rloc_reuse_resets_speed_and_direction :
    (slot released_tab 0).speed = 50 ∧ (slot released_tab 0).direction = DCC_DIR_REV ∧
    (slot (rloc released_tab (rloc_request 3 3) 5000 1).tab 0).active = true ∧
    (slot (rloc released_tab (rloc_request 3 3) 5000 1).tab 0).loco_addr = 3 ∧
    (slot (rloc released_tab (rloc_request 3 3) 5000 1).tab 0).speed = 0 ∧
    (slot (rloc released_tab (rloc_request 3 3) 5000 1).tab 0).direction = DCC_DIR_FWD ∧
    (rloc released_tab (rloc_request 3 3) 5000 1).cmds = ["<t 1 3 0 1>"] := by
  decide

/-- C6 (the code departs from the claim): a DSPD or DFUN frame with session byte 9 passes
the range test `i > MAX_PROXY_SESSIONS` (8 > 8 is false) and the handler goes on to
`session_tab[8]`, one entry past the table, without sending an error frame; session
bytes 0 and 10 are rejected as claimed. -/
theorem dspd_dfun_session_nine_out_of_bounds (t : List session) (now CANID : Nat) :
    dspd t (dspd_request 3 9 64) now CANID = .out_of_bounds 8 ∧
    dfun t (dfun_request 3 9 128 0) now CANID = .out_of_bounds 8 ∧
    dspd t (dspd_request 3 0 64) now CANID =
      .done { tab := t, frames := [send_cbus_session_error 1 (dspd_request 3 0 64) CANID],
              cmds := [] } ∧
    dspd t (dspd_request 3 10 64) now CANID =
      .done { tab := t, frames := [send_cbus_session_error 1 (dspd_request 3 10 64) CANID],
              cmds := [] } :=
  ⟨rfl, rfl, rfl, rfl⟩

/-! ## Message fabric -/

/-- C9, as stated, fails: 8 writes into an empty buffer with no read in between bring
`head` back to `tail` while 8 rows are unread, and the 9th write goes to an unread row. -/
theorem ring_buffer_eight_pushes_look_empty :
    (rb_run (rb_start msgbuf_zero) (List.replicate 8 (.push "<s>"))).mb.head =
      (rb_run (rb_start msgbuf_zero) (List.replicate 8 (.push "<s>"))).mb.tail ∧
    (rb_run (rb_start msgbuf_zero) (List.replicate 8 (.push "<s>"))).unread.length = 8 ∧
    (read_command (rb_run (rb_start msgbuf_zero) (List.replicate 8 (.push "<s>"))).mb).1 = none ∧
    (rb_run (rb_start msgbuf_zero) (List.replicate 8 (.push "<s>"))).overwritten = false ∧
    (rb_run (rb_start msgbuf_zero) (List.replicate 9 (.push "<s>"))).overwritten = true := by
  decide

/-- C9, amended: for every sequence of writes and reads on a buffer that starts empty, in
which no write is made while `NUM_PROXY_CMDS - 1` = 7 rows are unread, `head == tail` holds
afterwards exactly when no unread row remains, and no write has gone to an unread row. -/
theorem ring_buffer_empty_iff_within_capacity (mb : message_buffer_t) (ops : List rb_op)
    (h0 : mb.head = mb.tail) (h1 : mb.head < NUM_PROXY_CMDS)
    (hcap : within_capacity (rb_start mb) ops = true) :
    ((rb_run (rb_start mb) ops).mb.head = (rb_run (rb_start mb) ops).mb.tail ↔
      (rb_run (rb_start mb) ops).unread = []) ∧
    (rb_run (rb_start mb) ops).overwritten = false := by
  have hinv := rb_inv_run ops (rb_start mb) (rb_inv_start mb h0 h1) hcap
  exact ⟨rb_inv_empty_iff _ hinv, hinv.2.2.2.1⟩

/-- C9, witness: 7 writes, 2 reads and 2 more writes on the empty buffer. -/
theorem ring_buffer_empty_iff_within_capacity_witness :
    msgbuf_zero.head = msgbuf_zero.tail ∧ msgbuf_zero.head < NUM_PROXY_CMDS ∧
    within_capacity (rb_start msgbuf_zero)
      (List.replicate 7 (.push "<s>") ++ [.pop, .pop, .push "<1>", .push "<0>"]) = true ∧
    (((rb_run (rb_start msgbuf_zero)
        (List.replicate 7 (.push "<s>") ++ [.pop, .pop, .push "<1>", .push "<0>"])).mb.head =
      (rb_run (rb_start msgbuf_zero)
        (List.replicate 7 (.push "<s>") ++ [.pop, .pop, .push "<1>", .push "<0>"])).mb.tail ↔
      (rb_run (rb_start msgbuf_zero)
        (List.replicate 7 (.push "<s>") ++ [.pop, .pop, .push "<1>", .push "<0>"])).unread = []) ∧
    (rb_run (rb_start msgbuf_zero)
      (List.replicate 7 (.push "<s>") ++ [.pop, .pop, .push "<1>", .push "<0>"])).overwritten
      = false) :=
  ⟨by decide, by decide, by decide,
   ring_buffer_empty_iff_within_capacity msgbuf_zero _ (by decide) (by decide) (by decide)⟩

/-! ## Throttle protocol server -/

/-- C10 (the code departs from the claim): `F109` gives (161, 0) and `F15` gives (177, 0)
as claimed, but for F6, F7 and F8 the code uses the base 128 of the F0-F4 group: `F16`
gives (130, 0), `F17` (132, 0), `F18` (136, 0) and `F06` (128, 0), where the function-group
encoding has 178, 180, 184 and 176. -/
theorem func_bytes_f6_f8_use_wrong_group :
    do_wt_action_func_bytes "F109" = (161, 0) ∧
    do_wt_action_func_bytes "F15" = (177, 0) ∧
    do_wt_action_func_bytes "F16" = (130, 0) ∧ function_group_byte 6 1 = 178 ∧
    do_wt_action_func_bytes "F17" = (132, 0) ∧ function_group_byte 7 1 = 180 ∧
    do_wt_action_func_bytes "F18" = (136, 0) ∧ function_group_byte 8 1 = 184 ∧
    do_wt_action_func_bytes "F06" = (128, 0) ∧ function_group_byte 6 0 = 176 := by
  decide

/-! ## Session manager, continued -/

/-- C13: for a client that holds session `sess` in 1..8 at a speed below 128, the DSPD frame
built by `send_merg_dspd` is decoded by the DSPD handler into that speed and direction in
slot `sess - 1`, which becomes active and keeps its address, and into the one command
`<t sess addr speed dir>`; handling the same frame a second time leaves speed, direction,
address and active flag of that slot as the first time left them. -/
theorem dspd_round_trip (t : List session) (c : withrottle_client_t)
    (wCANID pCANID now now2 : Nat) (hlen : t.length = MAX_PROXY_SESSIONS)
    (hact : c.state = W_ACTIVE) (hs1 : 1 ≤ c.session_id)
    (hs2 : c.session_id ≤ MAX_PROXY_SESSIONS) (hspeed : c.speed < 128)
    (hnum : (slot t (c.session_id - 1)).cbus_session_num = c.session_id) :
    ∃ cf o o2, send_merg_dspd c wCANID = some cf ∧
      dspd t cf now pCANID = .done o ∧
      (slot o.tab (c.session_id - 1)).speed = c.speed ∧
      (slot o.tab (c.session_id - 1)).direction = c.direction ∧
      (slot o.tab (c.session_id - 1)).active = true ∧
      (slot o.tab (c.session_id - 1)).loco_addr = (slot t (c.session_id - 1)).loco_addr ∧
      o.frames = [] ∧
      o.cmds = [fmt_t c.session_id (slot t (c.session_id - 1)).loco_addr c.speed c.direction] ∧
      dspd o.tab cf now2 pCANID = .done o2 ∧
      (slot o2.tab (c.session_id - 1)).speed = (slot o.tab (c.session_id - 1)).speed ∧
      (slot o2.tab (c.session_id - 1)).direction = (slot o.tab (c.session_id - 1)).direction ∧
      (slot o2.tab (c.session_id - 1)).active = (slot o.tab (c.session_id - 1)).active ∧
      (slot o2.tab (c.session_id - 1)).loco_addr = (slot o.tab (c.session_id - 1)).loco_addr ∧
      o2.cmds = o.cmds := by
  simp only [MAX_PROXY_SESSIONS] at hlen hs2
  have hb := bitWrite_low7 c.speed c.direction hspeed
  have hsp : c.speed % 256 = c.speed := Nat.mod_eq_of_lt (by omega)
  have hi : (c.session_id + 255) % 256 = c.session_id - 1 := by omega
  have hdir : decide (bitRead (bitWrite c.speed 7 c.direction) 7 = 1) = c.direction := by
    have h2 := hb.2
    by_cases hp : bitRead (bitWrite c.speed 7 c.direction) 7 = 1
    · rw [decide_eq_true hp, h2.mp hp]
    · rw [decide_eq_false hp]
      cases hd : c.direction
      · rfl
      · exact absurd (h2.mpr hd) hp
  have hil : c.session_id - 1 < t.length := by omega
  have hsend : send_merg_dspd c wCANID =
      some { identifier := make_can_header wCANID, data_length_code := 3, flags := none,
             data := [OPC_DSPD, c.session_id, bitWrite c.speed 7 c.direction] } := by
    unfold send_merg_dspd
    rw [if_neg (by rw [hact]; simp; omega), hsp]
  have hstep : ∀ (u : List session) (tm : Nat), c.session_id - 1 < u.length →
      dspd u { identifier := make_can_header wCANID, data_length_code := 3, flags := none,
               data := [OPC_DSPD, c.session_id, bitWrite c.speed 7 c.direction] } tm pCANID =
        .done { tab := u.set (c.session_id - 1)
                  { slot u (c.session_id - 1) with
                    active := true, speed := c.speed, direction := c.direction,
                    last_activity := tm, CANID := make_can_header wCANID % 128 },
                frames := [],
                cmds := [fmt_t (slot u (c.session_id - 1)).cbus_session_num
                  (slot u (c.session_id - 1)).loco_addr c.speed c.direction] } := by
    intro u tm _
    unfold dspd
    simp only [twai_message_t.byte, List.getD_cons_succ, List.getD_cons_zero, hi, hb.1, hdir,
      MAX_PROXY_SESSIONS]
    rw [if_neg (by omega), if_pos (by omega)]
  have h1 := hstep t now hil
  have hil2 : c.session_id - 1 < (t.set (c.session_id - 1)
      { slot t (c.session_id - 1) with
        active := true, speed := c.speed, direction := c.direction,
        last_activity := now, CANID := make_can_header wCANID % 128 }).length := by
    rw [List.length_set]; exact hil
  have h2 := hstep _ now2 hil2
  refine ⟨_, _, _, hsend, h1, ?_, ?_, ?_, ?_, rfl, ?_, h2, ?_, ?_, ?_, ?_, ?_⟩
  · simp only []; rw [slot_set_self _ _ _ hil]
  · simp only []; rw [slot_set_self _ _ _ hil]
  · simp only []; rw [slot_set_self _ _ _ hil]
  · simp only []; rw [slot_set_self _ _ _ hil]
  · simp only []; rw [hnum]
  · simp only []; rw [slot_set_self _ _ _ hil2, slot_set_self _ _ _ hil]
  · simp only []; rw [slot_set_self _ _ _ hil2, slot_set_self _ _ _ hil]
  · simp only []; rw [slot_set_self _ _ _ hil2, slot_set_self _ _ _ hil]
  · simp only []; rw [slot_set_self _ _ _ hil2, slot_set_self _ _ _ hil]
  · simp only []; rw [slot_set_self _ _ _ hil]

/-- C13, witness: the active client of session 1 at speed 64, forward, on the table in
which slot 0 holds loco 100: the command is `<t 1 100 64 1>` both times. -/
theorem dspd_round_trip_witness :
    granted_tab.length = MAX_PROXY_SESSIONS ∧ driving_client.state = W_ACTIVE ∧
    driving_client.speed < 128 ∧
    ∃ cf o o2, send_merg_dspd driving_client 3 = some cf ∧
      dspd granted_tab cf 6000 1 = .done o ∧ o.cmds = ["<t 1 100 64 1>"] ∧
      (slot o.tab 0).speed = 64 ∧ (slot o.tab 0).direction = true ∧
      dspd o.tab cf 7000 1 = .done o2 ∧ o2.cmds = ["<t 1 100 64 1>"] ∧
      (slot o2.tab 0).speed = 64 ∧ (slot o2.tab 0).direction = true := by
  refine ⟨by decide, by decide, by decide, ?_⟩
  obtain ⟨cf, o, o2, h1, h2, h3, h4, _, _, _, h8, h9, h10, h11, _, _, h14⟩ :=
    dspd_round_trip granted_tab driving_client 3 1 6000 7000 (by decide) (by decide)
      (by decide) (by decide) (by decide) (by decide)
  refine ⟨cf, o, o2, h1, h2, ?_, h3, h4, h9, ?_, ?_, ?_⟩
  · rw [h8]; decide
  · rw [h14, h8]; decide
  · exact h10.trans h3
  · exact h11.trans h4

/-- C14: when no slot holds the requested address A and slot `i` is the lowest-indexed
unused slot (inactive, address 0), an RLOC for A puts into slot `i` an active entry with
address A, speed 0, direction forward, owner the low 7 bits of the frame identifier and
last activity `now`; it forwards the single command `<t i+1 A 0 1>`, sends no frame and
leaves every other slot as it was. -/
theorem rloc_allocates_lowest_unused (t : List session) (cf : twai_message_t)
    (now CANID i : Nat) (hlen : t.length = MAX_PROXY_SESSIONS)
    (hnone : ∀ j, j < MAX_PROXY_SESSIONS → (slot t j).loco_addr ≠ rloc_addr cf)
    (hi : i < MAX_PROXY_SESSIONS)
    (hin : (slot t i).active = false) (hz : (slot t i).loco_addr = 0)
    (hmin : ∀ j, j < i → ¬ ((slot t j).active = false ∧ (slot t j).loco_addr = 0))
    (hnum : (slot t i).cbus_session_num = i + 1) :
    (rloc t cf now CANID).frames = [] ∧
    (rloc t cf now CANID).cmds = [fmt_t (i + 1) (rloc_addr cf) 0 DCC_DIR_FWD] ∧
    slot (rloc t cf now CANID).tab i =
      { slot t i with active := true, loco_addr := rloc_addr cf, speed := 0,
                      direction := DCC_DIR_FWD, session_ack := false,
                      CANID := cf.identifier % 128, last_activity := now } ∧
    (∀ j, j ≠ i → slot (rloc t cf now CANID).tab j = slot t j) ∧
    (rloc t cf now CANID).tab.length = MAX_PROXY_SESSIONS := by
  have h1 := find_session_none t (rloc_addr cf) hnone
  have h2 := find_unused_eq t i hi hin hz hmin
  have h := rloc_unused t cf now CANID h1 (by rw [h2]; exact hi)
  rw [h2] at h
  rw [h]
  have hil : i < t.length := by rw [hlen]; exact hi
  refine ⟨rfl, ?_, ?_, ?_, ?_⟩
  · simp [refresh_slot, hnum]
  · simp only []
    rw [slot_set_self _ _ _ hil]
    simp [refresh_slot]
  · intro j hj
    simp only []
    rw [slot_set_other _ _ _ _ (Ne.symm hj)]
  · simp only []
    rw [List.length_set, hlen]

/-- C14, witness: on the table in which only slot 0 is taken (loco 100), a request for
loco 3 from bus address 5 takes slot 1 and forwards `<t 2 3 0 1>`. -/
theorem rloc_allocates_lowest_unused_witness :
    granted_tab.length = MAX_PROXY_SESSIONS ∧
    (rloc granted_tab (rloc_request 5 3) 6000 1).frames = [] ∧
    (rloc granted_tab (rloc_request 5 3) 6000 1).cmds = ["<t 2 3 0 1>"] ∧
    (slot (rloc granted_tab (rloc_request 5 3) 6000 1).tab 1).active = true ∧
    (slot (rloc granted_tab (rloc_request 5 3) 6000 1).tab 1).CANID = 5 ∧
    slot (rloc granted_tab (rloc_request 5 3) 6000 1).tab 0 = slot granted_tab 0 := by
  obtain ⟨h1, h2, h3, h4, _⟩ :=
    rloc_allocates_lowest_unused granted_tab (rloc_request 5 3) 6000 1 1 (by decide)
      (by intro j hj; simp only [MAX_PROXY_SESSIONS] at hj; interval_cases j <;> decide)
      (by decide) (by decide) (by decide)
      (by intro j hj; interval_cases j; decide) (by decide)
  refine ⟨by decide, h1, ?_, ?_, ?_, h4 0 (by decide)⟩
  · rw [h2]; decide
  · rw [h3]
  · rw [h3]; decide

/-- C20: on a table of 8 slots the sweep at time `now` turns every slot that is active
and whose last activity lies more than 60 000 ms back (32-bit millisecond arithmetic)
into the same slot with `active` false, and leaves every other slot exactly as it was;
a later sweep, at whatever time, does not change a slot that is inactive, and a second
sweep at the same time changes nothing. -/
theorem timeout_sweep_evicts_exactly_expired (t : List session) (now now2 : Nat)
    (hlen : t.length = MAX_PROXY_SESSIONS) :
    (timeout_sweep t now).length = MAX_PROXY_SESSIONS ∧
    (∀ i, i < MAX_PROXY_SESSIONS →
      slot (timeout_sweep t now) i =
        if (slot t i).active = true ∧ elapsed now (slot t i).last_activity > 60000 then
          { slot t i with active := false }
        else slot t i) ∧
    (∀ i, i < MAX_PROXY_SESSIONS → (slot (timeout_sweep t now) i).active = false →
      slot (timeout_sweep (timeout_sweep t now) now2) i = slot (timeout_sweep t now) i) ∧
    (∀ i, i < MAX_PROXY_SESSIONS →
      slot (timeout_sweep (timeout_sweep t now) now) i = slot (timeout_sweep t now) i) := by
  have hl1 : (timeout_sweep t now).length = MAX_PROXY_SESSIONS := by
    unfold timeout_sweep; rw [sweep_loop_length, hlen]
  have key : ∀ (u : List session) (tm i : Nat), u.length = MAX_PROXY_SESSIONS →
      i < MAX_PROXY_SESSIONS → slot (timeout_sweep u tm) i = sweep_slot (slot u i) tm := by
    intro u tm i hu hi
    unfold timeout_sweep
    rw [sweep_loop_slot tm MAX_PROXY_SESSIONS 0 u i (by rw [hu]; omega),
      if_pos ⟨Nat.zero_le i, by omega⟩]
  refine ⟨hl1, ?_, ?_, ?_⟩
  · intro i hi
    rw [key t now i hlen hi]
    rfl
  · intro i hi hina
    rw [key _ now2 i hl1 hi]
    unfold sweep_slot
    rw [if_neg (by rw [hina]; simp)]
  · intro i hi
    rw [key _ now i hl1 hi, key t now i hlen hi]
    unfold sweep_slot
    by_cases h1 : (slot t i).active = true ∧ elapsed now (slot t i).last_activity > 60000
    · rw [if_pos h1, if_neg (by simp)]
    · rw [if_neg h1, if_neg h1]

/-- C20, witness: at time 62 000 the sweep evicts slot 0 (last active at 1000) and keeps
slot 1 (last active at 50 000); a sweep at 200 000 then evicts slot 1 and leaves slot 0. -/
theorem timeout_sweep_evicts_exactly_expired_witness :
    aging_tab.length = MAX_PROXY_SESSIONS ∧
    (slot (timeout_sweep aging_tab 62000) 0).active = false ∧
    (slot (timeout_sweep aging_tab 62000) 1).active = true ∧
    slot (timeout_sweep (timeout_sweep aging_tab 62000) 200000) 0 =
      slot (timeout_sweep aging_tab 62000) 0 := by
  obtain ⟨_, h2, h3, _⟩ :=
    timeout_sweep_evicts_exactly_expired aging_tab 62000 200000 (by decide)
  refine ⟨by decide, ?_, ?_, ?_⟩
  · rw [h2 0 (by decide)]; decide
  · rw [h2 1 (by decide)]; decide
  · exact h3 0 (by decide) (by rw [h2 0 (by decide)]; decide)

/-! ## Bus identity engine, continued -/

/-- C15: a frame with opcode OPC_CANID is handled by `opc_canid`. If its node number is
this node's: with an address byte in 1..99 the bus address becomes that byte and nothing
is sent; otherwise the state is unchanged and the CMDERR frame (code 7) is sent. If the
node number is another one, the state is unchanged and nothing is sent. -/
theorem opc_canid_sets_address_in_range (s : cbus_task_state) (cf : twai_message_t)
    (now : Nat) :
    (cf.byte 0 = OPC_CANID → process_opcode s cf now = opc_canid s cf) ∧
    (frame_nn cf = s.g.node_number → 1 ≤ cf.byte 3 → cf.byte 3 ≤ 99 →
      opc_canid s cf = .done { s with g := { s.g with CANID := cf.byte 3 } } []) ∧
    (frame_nn cf = s.g.node_number → (cf.byte 3 < 1 ∨ 99 < cf.byte 3) →
      opc_canid s cf = .done s [send_CMDERR s.g 7] ∧
      (send_CMDERR s.g 7).data =
        [OPC_CMDERR, highByte s.g.node_number, lowByte s.g.node_number, 7]) ∧
    (frame_nn cf ≠ s.g.node_number → opc_canid s cf = .done s []) := by
  refine ⟨?_, ?_, ?_, ?_⟩
  · intro h
    unfold process_opcode
    rw [if_neg (by rw [h]; decide), if_neg (by rw [h]; decide), if_pos h]
  · intro h1 h2 h3
    unfold opc_canid
    rw [if_pos h1, if_neg (by omega)]
  · intro h1 h2
    unfold opc_canid
    rw [if_pos h1, if_pos (by omega)]
    exact ⟨rfl, rfl⟩
  · intro h1
    unfold opc_canid
    rw [if_neg h1]

/-- C15, witness: on the node with number 300 = 1 * 256 + 44 and bus address 5, the
address byte 42 is taken, the address bytes 0 and 100 are answered with CMDERR, and a
frame for node 301 is ignored. -/
theorem opc_canid_sets_address_in_range_witness :
    opc_canid flim_node (received_frame 0x589 [OPC_CANID, 1, 44, 42]) =
      .done { flim_node with g := { flim_node.g with CANID := 42 } } [] ∧
    opc_canid flim_node (received_frame 0x589 [OPC_CANID, 1, 44, 0]) =
      .done flim_node [send_CMDERR flim_node.g 7] ∧
    opc_canid flim_node (received_frame 0x589 [OPC_CANID, 1, 44, 100]) =
      .done flim_node [send_CMDERR flim_node.g 7] ∧
    opc_canid flim_node (received_frame 0x589 [OPC_CANID, 1, 45, 42]) = .done flim_node [] :=
  ⟨(opc_canid_sets_address_in_range flim_node
      (received_frame 0x589 [OPC_CANID, 1, 44, 42]) 0).2.1 (by decide) (by decide) (by decide),
   ((opc_canid_sets_address_in_range flim_node
      (received_frame 0x589 [OPC_CANID, 1, 44, 0]) 0).2.2.1 (by decide) (by decide)).1,
   ((opc_canid_sets_address_in_range flim_node
      (received_frame 0x589 [OPC_CANID, 1, 44, 100]) 0).2.2.1 (by decide) (by decide)).1,
   (opc_canid_sets_address_in_range flim_node
      (received_frame 0x589 [OPC_CANID, 1, 45, 42]) 0).2.2.2 (by decide)⟩

/-- C16 (the code departs from the claim): the range test of the NVRD and NVSET handlers is
`cf.data[3] <= 16` only, so index 0 is accepted and the handler goes to
`node_variables[-1]`, before the array, instead of sending CMDERR. Index 16 reads
`node_variables[15]` and index 17 is answered with CMDERR, as claimed. -/
theorem nv_index_zero_out_of_bounds :
    opc_nvrd flim_node (received_frame 0x589 [OPC_NVRD, 1, 44, 0]) = .out_of_bounds (-1) ∧
    opc_nvset flim_node (received_frame 0x589 [OPC_NVSET, 1, 44, 0, 7]) = .out_of_bounds (-1) ∧
    process_frame flim_node .external (received_frame 0x589 [OPC_NVRD, 1, 44, 0]) 1000 =
      .out_of_bounds (-1) ∧
    process_frame flim_node .external (received_frame 0x589 [OPC_NVSET, 1, 44, 0, 7]) 1000 =
      .out_of_bounds (-1) ∧
    opc_nvrd flim_node (received_frame 0x589 [OPC_NVRD, 1, 44, 16]) =
      .done flim_node [cbus_frame flim_node.g [OPC_NVANS, 1, 44, 16, 26]] ∧
    opc_nvrd flim_node (received_frame 0x589 [OPC_NVRD, 1, 44, 17]) =
      .done flim_node [send_CMDERR flim_node.g CMDERR_INV_NV_IDX] := by
  decide

/-- C17: a frame with opcode OPC_SNN is handled by `opc_snn`. While the node is in
transition it sets the node number to the 16-bit value of `data[1]`, `data[2]`, ends the
transition, sets the mode to FLiM and the re-arbitrate flag and sends one NNACK frame of
length 3 carrying the new node number; while the node is not in transition it changes
nothing and sends nothing. -/
theorem opc_snn_assigns_node_number (s : cbus_task_state) (cf : twai_message_t) (now : Nat) :
    (cf.byte 0 = OPC_SNN → process_opcode s cf now = opc_snn s cf now) ∧
    (cf.byte 1 < 256 → cf.byte 2 < 256 → frame_nn cf = cf.byte 1 * 256 + cf.byte 2) ∧
    (s.g.in_transition = true →
      ∃ s2 ack, opc_snn s cf now = .done s2 [ack] ∧
        s2.g.node_number = frame_nn cf ∧ s2.g.in_transition = false ∧
        s2.g.cbus_mode = CBUS_MODE_FLIM ∧ s2.g.enum_required = true ∧
        s2.g.CANID = s.g.CANID ∧
        ack.data_length_code = 3 ∧
        ack.data = [OPC_NNACK, highByte (frame_nn cf), lowByte (frame_nn cf)]) ∧
    (s.g.in_transition = false → opc_snn s cf now = .done s []) := by
  refine ⟨?_, ?_, ?_, ?_⟩
  · intro h
    unfold process_opcode
    rw [if_pos h]
  · intro h1 h2
    unfold frame_nn
    omega
  · intro h
    unfold opc_snn
    rw [if_pos h]
    exact ⟨_, _, rfl, rfl, rfl, rfl, rfl, rfl, rfl, rfl⟩
  · intro h
    unfold opc_snn
    rw [if_neg (by rw [h]; simp)]

/-- C17, witness: in transition, the frame SNN 1 45 gives node number 301 and the NNACK
frame with bytes 1, 45; out of transition the same frame changes nothing. -/
theorem opc_snn_assigns_node_number_witness :
    round_node_in_transition.g.in_transition = true ∧
    (∃ s2 ack,
      opc_snn round_node_in_transition (received_frame 0x589 [OPC_SNN, 1, 45]) 5050 =
        .done s2 [ack] ∧
      s2.g.node_number = 301 ∧ s2.g.in_transition = false ∧
      s2.g.cbus_mode = CBUS_MODE_FLIM ∧ s2.g.enum_required = true ∧
      ack.data = [OPC_NNACK, 1, 45]) ∧
    opc_snn flim_node (received_frame 0x589 [OPC_SNN, 1, 45]) 5050 = .done flim_node [] := by
  refine ⟨by decide, ?_, ?_⟩
  · obtain ⟨s2, ack, h1, h2, h3, h4, h5, _, _, h8⟩ :=
      (opc_snn_assigns_node_number round_node_in_transition
        (received_frame 0x589 [OPC_SNN, 1, 45]) 5050).2.2.1 (by decide)
    exact ⟨s2, ack, h1, h2, h3, h4, h5, h8⟩
  · exact (opc_snn_assigns_node_number flim_node
      (received_frame 0x589 [OPC_SNN, 1, 45]) 5050).2.2.2 (by decide)

/-- C18 (the code departs from the claim): 50 ms into a round that started at time 5000
and has recorded address 5, the release of the switch after a press of 150 ms makes the
same pass of the main loop call `enumerate_can_bus()` again: the bitmap is cleared and
the start time becomes 5050. Likewise an SNN frame processed during the round (node in
transition) sets the flag, and the next pass restarts the round. Neither path tests
`enum_in_progress`, as the OPC_ENUM handler and the clash check do. -/
theorem round_restarted_while_in_progress :
    round_node.g.enum_in_progress = true ∧ round_node.g.enum_start_time = 5000 ∧
    round_node.g.enum_responses = 0x20 :: List.replicate 15 0 ∧
    (loop_head round_node 1 5050).1.g.enum_in_progress = true ∧
    (loop_head round_node 1 5050).1.g.enum_responses = List.replicate 16 0 ∧
    (loop_head round_node 1 5050).1.g.enum_start_time = 5050 ∧
    (∃ s2 frames,
      process_frame round_node_in_transition .external
        (received_frame 0x589 [OPC_SNN, 1, 45]) 5050 = .done s2 frames ∧
      s2.g.enum_in_progress = true ∧ s2.g.enum_start_time = 5000 ∧
      (loop_head s2 1 5060).1.g.enum_responses = List.replicate 16 0 ∧
      (loop_head s2 1 5060).1.g.enum_start_time = 5060) := by
  refine ⟨by decide, by decide, by decide, by decide, by decide, by decide, ?_⟩
  exact ⟨_, _, rfl, by decide, by decide, by decide, by decide⟩

/-- C19: let a frame be taken from the external queue while no round is in progress, the
low 7 bits of its identifier being the node's own bus address. If the frame is processed
to the end, the re-arbitrate flag is set afterwards; the only frames not processed to the
end are those on which a handler leaves its array (NVRD or NVSET for this node with
index 0, RQNPN with an index of 21 or more). For a frame from the internal queue, and for
any frame while a round is in progress, the clash check leaves the state as it is. -/
theorem clash_sets_rearbitrate_flag (s : cbus_task_state) (cf : twai_message_t) (now : Nat) :
    (s.g.enum_in_progress = false → cf.identifier % 128 = s.g.CANID →
      (∃ s2 frames, process_frame s .external cf now = .done s2 frames ∧
        s2.g.enum_required = true) ∨
      (∃ idx, process_frame s .external cf now = .out_of_bounds idx ∧
        (((cf.byte 0 = OPC_NVRD ∨ cf.byte 0 = OPC_NVSET) ∧ cf.byte 3 = 0 ∧ idx = -1 ∧
            frame_nn cf = s.g.node_number) ∨
          (cf.byte 0 = OPC_RQNPN ∧ 21 ≤ cf.byte 3)))) ∧
    clash_check s.g .internal cf = s.g ∧
    (∀ q, s.g.enum_in_progress = true → clash_check s.g q cf = s.g) := by
  refine ⟨?_, ?_, ?_⟩
  · intro hnp hid
    have hc : (clash_check s.g .external cf).enum_required = true := by
      unfold clash_check
      rw [if_pos hnp, if_pos ⟨hid, rfl⟩]
    have hn : (clash_check s.g .external cf).node_number = s.g.node_number := by
      unfold clash_check
      rw [if_pos hnp, if_pos ⟨hid, rfl⟩]
    unfold process_frame
    simp only []
    split_ifs with h1 h2 h3 h4
    · exact Or.inl ⟨_, _, rfl, hc⟩
    · exact Or.inl ⟨_, _, rfl, hc⟩
    · exact Or.inl ⟨_, _, rfl, hc⟩
    · cases hp : process_opcode { s with g := clash_check s.g .external cf } cf now with
      | done s2 frames =>
        exact Or.inl ⟨s2, frames, rfl, process_opcode_keeps_flag _ s2 cf now frames hp hc⟩
      | out_of_bounds idx =>
        right
        refine ⟨idx, rfl, ?_⟩
        have := process_opcode_out_of_bounds _ cf now idx hp
        simp only [hn] at this
        exact this
    · exact Or.inl ⟨_, _, rfl, hc⟩
  · unfold clash_check
    split_ifs with h1 h2
    · exact absurd h2.2 (by decide)
    · rfl
    · rfl
  · intro q h
    unfold clash_check
    rw [if_neg (by rw [h]; simp)]

/-- C19, witness: the node with bus address 5, no round in progress, takes a frame with
identifier 0x585 from the external queue: the flag is set afterwards. -/
theorem clash_sets_rearbitrate_flag_witness :
    flim_node.g.enum_in_progress = false ∧ 0x585 % 128 = flim_node.g.CANID ∧
    flim_node.g.enum_required = false ∧
    ∃ s2 frames,
      process_frame flim_node .external (received_frame 0x585 [OPC_QNN]) 1000 =
        .done s2 frames ∧ s2.g.enum_required = true := by
  refine ⟨by decide, by decide, by decide, ?_⟩
  rcases (clash_sets_rearbitrate_flag flim_node (received_frame 0x585 [OPC_QNN]) 1000).1
    (by decide) (by decide) with h | ⟨idx, h, _⟩
  · exact h
  · have hd : ∃ s2 frames,
        process_frame flim_node .external (received_frame 0x585 [OPC_QNN]) 1000 =
          .done s2 frames := ⟨_, _, rfl⟩
    obtain ⟨s2, frames, e⟩ := hd
    rw [e] at h
    cases h

/-! ## Throttle protocol server: heartbeat check and the scenario of a client's lines -/

/-- C11 (the code departs from the claim): in `two_clients` both clients are connected and
have enabled heartbeats; at time 21 001 the heartbeat timer (last reset at 20 000) is due
and the client of slot 1 has been silent for 16 001 ms. The pass of the client loop resets
the timer at slot 0, so the test is not made for slot 1: the client of slot 1 stays ACTIVE
and the client count stays 2. With the two records in the opposite slots the silent client
is moved to CLOSING. A silent client that has not enabled heartbeats stays ACTIVE in
slot 0. -/
theorem heartbeat_check_reaches_first_client_only :
    (wt_client two_clients 1).client = true ∧
    (wt_client two_clients 1).throttle_sends_heartbeat = true ∧
    elapsed 21001 (wt_client two_clients 1).last_heartbeat_received = 16001 ∧
    elapsed 21001 two_clients.hb_timer = 1001 ∧
    (client_pass cfg_merg 21001 "" "" quiet_links two_clients).map
        (fun r => ((wt_client r.1 0).state, (wt_client r.1 1).state, r.1.hb_timer,
                   r.1.num_wi_clients)) =
      some (W_ACTIVE, W_ACTIVE, 21001, 2) ∧
    (client_pass cfg_dccpp 21001 "" "" quiet_links two_clients).map
        (fun r => ((wt_client r.1 0).state, (wt_client r.1 1).state, r.1.hb_timer,
                   r.1.num_wi_clients)) =
      some (W_ACTIVE, W_ACTIVE, 21001, 2) ∧
    (client_pass cfg_merg 21001 "" "" quiet_links two_clients_swapped).map
        (fun r => ((wt_client r.1 0).state, (wt_client r.1 1).state, r.1.hb_timer,
                   r.1.num_wi_clients)) =
      some (W_CLOSING, W_ACTIVE, 21001, 1) ∧
    (client_pass cfg_merg 21001 "" "" quiet_links
        { two_clients with
          clients := [{ driving_client with throttle_sends_heartbeat := false }] }).map
        (fun r => ((wt_client r.1 0).state, r.1.hb_timer, r.1.num_wi_clients)) =
      some (W_ACTIVE, 21001, 2) := by
  decide

/-- C12, counterexample: the lines as the claim writes them, processed at time 1000 on the
record of a client accepted at time 900 (DCC++ back end, the uninitialised `tokens` taken
empty). The lines `M0AV64` and `M0AF109` hold no `<;>`, so each is one token: the address
is read from the digits of the line (64, then 109), the address type is its fourth
character ('V', then 'F'), and the action token is never written. The record ends with
address 109, type 'F', speed 0, and the only back-end command is the one of the acquire
line. -/
theorem scenario_literal_lines_lose_address :
    process_wt_lines cfg_dccpp 0 "" "" 1000 scenario_lines (accepted_client 900) =
      some ({ scenario_acquiring 1000 1 with loco_addr := 109, loco_addr_type := 'F' },
        { to_throttle := [(0, "M0+L1234"), (0, "M0AV64"), (0, "M0AF109")], frames := [],
          cmds := ["<t 1 1234 0 1>"] }) ∧
    (scenario_acquiring 1000 1).speed = 0 ∧
    (scenario_acquiring 1000 1).throttle_sends_heartbeat = true := by
  decide

/-- C12, amended: with the action lines written `M0AL1234<;>V64` and `M0AL1234<;>F109`,
the five lines processed at time 1000 on the record of a client accepted at time 900 give,
whatever the uninitialised `tokens` hold: with the DCC++ back end, a record with heartbeats
enabled, address 1234 of type 'L' and speed 64; the acquire line forwards `<t 1 1234 0 1>`
and confirms `M0+L1234`, the speed line forwards `<t 1 1234 64 1>` and confirms `M0AL1234`,
the function line forwards `<f 1234 161 0>` (161 = 160 + 1, function 9 on in the group
F9..F12) and sends `M0AL1234<;>F19` and `M0AL1234`. With the MERG back end the record is
the same but for the session number; the acquire line sends the RLOC frame for 1234, and
the speed and function lines send no frame while the session is awaited. -/
theorem scenario_tokenized_lines (s0 s1 : String) :
    process_wt_message cfg_dccpp 0 (scenario_named 1000) "M0+L1234" s0 s1 1000 =
      some (scenario_acquiring 1000 1,
        { to_throttle := [(0, "M0+L1234")], frames := [], cmds := ["<t 1 1234 0 1>"] },
        true) ∧
    process_wt_message cfg_dccpp 0 (scenario_acquiring 1000 1) "M0AL1234<;>V64" s0 s1 1000 =
      some ({ scenario_acquiring 1000 1 with speed := 64 },
        { to_throttle := [(0, "M0AL1234")], frames := [], cmds := ["<t 1 1234 64 1>"] },
        true) ∧
    process_wt_message cfg_dccpp 0 { scenario_acquiring 1000 1 with speed := 64 }
        "M0AL1234<;>F109" s0 s1 1000 =
      some ({ scenario_acquiring 1000 1 with speed := 64 },
        { to_throttle := [(0, "M0AL1234<;>F19"), (0, "M0AL1234")], frames := [],
          cmds := ["<f 1234 161 0>"] },
        true) ∧
    do_wt_action_func_bytes "F109" = (161, 0) ∧
    process_wt_lines cfg_dccpp 0 s0 s1 1000 scenario_lines_tokenized (accepted_client 900) =
      some ({ scenario_acquiring 1000 1 with speed := 64 },
        { to_throttle := [(0, "M0+L1234"), (0, "M0AL1234"), (0, "M0AL1234<;>F19"),
                          (0, "M0AL1234")],
          frames := [],
          cmds := ["<t 1 1234 0 1>", "<t 1 1234 64 1>", "<f 1234 161 0>"] }) ∧
    process_wt_lines cfg_merg 0 s0 s1 1000 scenario_lines_tokenized (accepted_client 900) =
      some ({ scenario_acquiring 1000 0 with speed := 64 },
        { to_throttle := [(0, "M0+L1234"), (0, "M0AL1234"), (0, "M0AL1234<;>F19"),
                          (0, "M0AL1234")],
          frames := [{ identifier := make_can_header 3, data_length_code := 3, flags := none,
                       data := [OPC_RLOC, 4, 210] }],
          cmds := [] }) := by
  obtain ⟨_, _, _, e4, e5⟩ := scenario_first_lines_any_stale s0 s1
  obtain ⟨_, _, e3⟩ := scenario_first_lines s0 s1
  obtain ⟨a1, _⟩ := scenario_action_lines_any_stale cfg_dccpp (scenario_acquiring 1000 1) s0 s1
  obtain ⟨_, a2⟩ := scenario_action_lines_any_stale cfg_dccpp
    { scenario_acquiring 1000 1 with speed := 64 } s0 s1
  rw [e3, e4, e5, a1, a2]
  decide

/-! ## Session manager: release, keep-alive, responses of the command station -/

/-- C21: a KLOC frame sends nothing. If its session byte `s` is in 1..8 and slot `s - 1` is
active, the slot becomes the same entry with `active` false (address, speed, direction and
session number as before) and every other slot is as it was; if that slot is inactive, or
the session byte is 0 or in 9..255, the table is unchanged. -/
theorem kloc_clears_active_flag_only (t : List session) (cf : twai_message_t)
    (hlen : t.length = MAX_PROXY_SESSIONS) :
    (kloc t cf).frames = [] ∧ (kloc t cf).cmds = [] ∧
    (kloc t cf).tab.length = MAX_PROXY_SESSIONS ∧
    (1 ≤ cf.byte 1 → cf.byte 1 ≤ MAX_PROXY_SESSIONS →
      (slot t (cf.byte 1 - 1)).active = true →
      slot (kloc t cf).tab (cf.byte 1 - 1) = { slot t (cf.byte 1 - 1) with active := false } ∧
      ∀ j, j ≠ cf.byte 1 - 1 → slot (kloc t cf).tab j = slot t j) ∧
    (1 ≤ cf.byte 1 → cf.byte 1 ≤ MAX_PROXY_SESSIONS →
      (slot t (cf.byte 1 - 1)).active = false → (kloc t cf).tab = t) ∧
    (cf.byte 1 = 0 ∨ (MAX_PROXY_SESSIONS < cf.byte 1 ∧ cf.byte 1 < 256) →
      (kloc t cf).tab = t) := by
  simp only [MAX_PROXY_SESSIONS] at hlen ⊢
  refine ⟨?_, ?_, ?_, ?_, ?_, ?_⟩
  · unfold kloc
    simp only []
    split_ifs <;> rfl
  · unfold kloc
    simp only []
    split_ifs <;> rfl
  · rcases kloc_tab t cf with e | e
    · rw [e]; exact hlen
    · rw [e, List.length_set]; exact hlen
  · intro h1 h2 h3
    have hi : (cf.byte 1 + 255) % 256 = cf.byte 1 - 1 := by omega
    have ht : (kloc t cf).tab =
        t.set (cf.byte 1 - 1) { slot t (cf.byte 1 - 1) with active := false } := by
      unfold kloc
      simp only [hi, MAX_PROXY_SESSIONS]
      rw [if_pos ⟨by omega, h3⟩]
    rw [ht]
    refine ⟨slot_set_self _ _ _ (by omega), ?_⟩
    intro j hj
    exact slot_set_other _ _ _ _ (Ne.symm hj)
  · intro h1 h2 h3
    have hi : (cf.byte 1 + 255) % 256 = cf.byte 1 - 1 := by omega
    unfold kloc
    simp only [hi]
    rw [if_neg (by rw [h3]; simp)]
  · intro h
    unfold kloc
    simp only [MAX_PROXY_SESSIONS]
    rw [if_neg (by omega)]

/-- C21, witness: on the table in which slot 0 is active with loco 100, KLOC for session 1
leaves loco 100 in slot 0, inactive; KLOC for session 2 (inactive), 0 or 9 changes
nothing. -/
theorem kloc_clears_active_flag_only_witness :
    granted_tab.length = MAX_PROXY_SESSIONS ∧ (slot granted_tab 0).active = true ∧
    slot (kloc granted_tab (session_frame OPC_KLOC 1)).tab 0 =
      { slot granted_tab 0 with active := false } ∧
    (slot (kloc granted_tab (session_frame OPC_KLOC 1)).tab 0).loco_addr = 100 ∧
    slot (kloc granted_tab (session_frame OPC_KLOC 1)).tab 1 = slot granted_tab 1 ∧
    (kloc granted_tab (session_frame OPC_KLOC 2)).tab = granted_tab ∧
    (kloc granted_tab (session_frame OPC_KLOC 0)).tab = granted_tab ∧
    (kloc granted_tab (session_frame OPC_KLOC 9)).tab = granted_tab := by
  obtain ⟨_, _, _, h4, h5, h6⟩ :=
    kloc_clears_active_flag_only granted_tab (session_frame OPC_KLOC 1) (by decide)
  obtain ⟨h7, h8⟩ := h4 (by decide) (by decide) (by decide)
  refine ⟨by decide, by decide, h7, ?_, h8 1 (by decide), ?_, ?_, ?_⟩
  · have h7b : slot (kloc granted_tab (session_frame OPC_KLOC 1)).tab 0 =
        { slot granted_tab 0 with active := false } := h7
    rw [h7b]
    decide
  · exact (kloc_clears_active_flag_only granted_tab (session_frame OPC_KLOC 2)
      (by decide)).2.2.2.2.1 (by decide) (by decide) (by decide)
  · exact (kloc_clears_active_flag_only granted_tab (session_frame OPC_KLOC 0)
      (by decide)).2.2.2.2.2 (Or.inl (by decide))
  · exact (kloc_clears_active_flag_only granted_tab (session_frame OPC_KLOC 9)
      (by decide)).2.2.2.2.2 (Or.inr (by decide))

/-- C22 (the code departs from the claim): the DKEEP handler uses `cf.data[1] - 1` as the
index without a range test. For session byte 0 it reads `session_tab[-1]`, for 9 it reads
`session_tab[8]` and for 255 `session_tab[254]`, all outside the table of 8 entries. For
session 1 (active) only the last-activity time of slot 0 changes, and for session 2
(inactive) nothing changes, as claimed. -/
theorem dkeep_index_not_checked :
    dkeep granted_tab (session_frame OPC_DKEEP 0) 9000 = .out_of_bounds (-1) ∧
    dkeep granted_tab (session_frame OPC_DKEEP 9) 9000 = .out_of_bounds 8 ∧
    dkeep granted_tab (session_frame OPC_DKEEP 255) 9000 = .out_of_bounds 254 ∧
    dkeep granted_tab (session_frame OPC_DKEEP 1) 9000 =
      .done { tab := granted_tab.set 0 { slot granted_tab 0 with last_activity := 9000 },
              frames := [], cmds := [] } ∧
    dkeep granted_tab (session_frame OPC_DKEEP 2) 9000 =
      .done { tab := granted_tab, frames := [], cmds := [] } := by
  decide

/-! ## Throttle protocol server: session confirmation -/

/-- C23 (the code departs from the claim): with the DCC++ back end, the client of slot 0
that awaits its session for loco 1234 (register 1) is left in AWAITING_SESSION_ID by the
response `<T 1 1234 0 1>`: the block stores session number, address, speed and direction
and does not assign the state. With the MERG back end the PLOC frame for loco 1234 makes
the client ACTIVE with the session number of the frame. -/
theorem dccpp_response_leaves_client_awaiting (prev : List Int) :
    (wt_client (awaiting_state 1) 0).state = W_AWAITING_SESSION_ID ∧
    wt_T_response cfg_dccpp (awaiting_state 1) "<T 1 1234 0 1>" prev =
      some (awaiting_state 1) ∧
    (wt_T_response cfg_dccpp (awaiting_state 1) "<T 1 1234 64 0>" prev).map
        (fun st => wt_client st 0) =
      some { scenario_acquiring 1000 1 with speed := 64, direction := false } ∧
    wt_client (wt_bus_frame cfg_merg (awaiting_state 0) (ploc_frame 1 1234)) 0 =
      { scenario_acquiring 1000 1 with state := W_ACTIVE } := by
  obtain ⟨e1, e2, _⟩ := sscanf_d_responses
  rw [wt_T_response_of_parsed _ _ _ prev _ _ _ _ e1,
    wt_T_response_of_parsed _ _ _ prev _ _ _ _ e2]
  decide

/-! ## Session manager: the loco acquired frame -/

/-- C24 (the code departs from the claim): the `case 'T'` assigns `data[0]` and `data[2]`
to `data[7]` of the PLOC frame and never `data[1]`: whatever `of.data[1]` held before
(`d1`) is sent as the session byte, for register 1 as for register 3. Length, address,
speed and direction are as claimed. The index is `treg - 1` stored in a `byte`, so register
257 is taken for register 1: a frame is sent and slot 0 is changed. Registers 0 and 9 send
no frame and change no slot. -/
theorem ploc_session_byte_not_assigned (d1 : Nat) (prev : List Int) :
    (dccpp_T_response granted_tab d1 "<T 1 100 64 1>" prev 9000 1).frames =
      [{ identifier := make_can_header 1, data_length_code := 8, flags := some 0,
         data := [OPC_PLOC, d1, 0, 100, 192, 0, 0, 0] }] ∧
    (dccpp_T_response granted_tab d1 "<T 3 1234 64 0>" prev 9000 1).frames =
      [{ identifier := make_can_header 1, data_length_code := 8, flags := some 0,
         data := [OPC_PLOC, d1, 4, 210, 64, 0, 0, 0] }] ∧
    (dccpp_T_response granted_tab d1 "<T 257 100 64 1>" prev 9000 1).frames =
      [{ identifier := make_can_header 1, data_length_code := 8, flags := some 0,
         data := [OPC_PLOC, d1, 0, 100, 192, 0, 0, 0] }] ∧
    slot (dccpp_T_response granted_tab d1 "<T 257 100 64 1>" prev 9000 1).tab 0 =
      { slot granted_tab 0 with session_ack := true, last_activity := 9000 } ∧
    dccpp_T_response granted_tab d1 "<T 0 100 64 1>" prev 9000 1 =
      { tab := granted_tab, frames := [], cmds := [] } ∧
    dccpp_T_response granted_tab d1 "<T 9 100 64 1>" prev 9000 1 =
      { tab := granted_tab, frames := [], cmds := [] } := by
  obtain ⟨_, _, e1, e2, e3, e4, e5⟩ := sscanf_d_responses
  rw [dccpp_T_response_of_parsed _ _ _ prev _ _ _ _ _ _ e1,
    dccpp_T_response_of_parsed _ _ _ prev _ _ _ _ _ _ e2,
    dccpp_T_response_of_parsed _ _ _ prev _ _ _ _ _ _ e3,
    dccpp_T_response_of_parsed _ _ _ prev _ _ _ _ _ _ e4,
    dccpp_T_response_of_parsed _ _ _ prev _ _ _ _ _ _ e5]
  exact ⟨rfl, rfl, rfl, rfl, rfl, rfl⟩

/-! ## Frame header -/

/-- C25: for every bus address `c` in 0..127, `make_can_header` returns `c + 0x580`: the low
7 bits are `c`, bits 7, 8 and 10 are set, bit 9 is clear and no bit above 10 is set. -/
theorem make_can_header_layout (c : Nat) (h : c < 128) :
    make_can_header c = c + 0x580 ∧ make_can_header c % 128 = c ∧
    bitRead (make_can_header c) 7 = 1 ∧ bitRead (make_can_header c) 8 = 1 ∧
    bitRead (make_can_header c) 9 = 0 ∧ bitRead (make_can_header c) 10 = 1 ∧
    make_can_header c < 2048 := by
  have e : make_can_header c = c + 0x580 := by
    unfold make_can_header bitSet bitClear bitRead
    norm_num
    have h7 : c / 128 % 2 = 0 := by omega
    have h8 : (c + 128) / 256 % 2 = 0 := by omega
    have h9 : (c + 128 + 256) / 512 % 2 = 0 := by omega
    have h10 : (c + 128 + 256) / 1024 % 2 = 0 := by omega
    simp [h7, h8, h9, h10]
  rw [e]
  unfold bitRead
  norm_num
  omega

/-- C25, witness: bus address 5 gives the header 0x585. -/
theorem make_can_header_layout_witness :
    (5 : Nat) < 128 ∧ make_can_header 5 = 0x585 ∧ make_can_header 5 % 128 = 5 :=
  ⟨by decide, (make_can_header_layout 5 (by decide)).1, (make_can_header_layout 5 (by decide)).2.1⟩

/-! ## Throttle protocol server: client counter, function frame -/

/-- C26 (the code departs from the claim): the heartbeat time-out decrements
`num_wi_clients` when it moves a client to CLOSING, and the reap decrements it again. With
one client, the pass at 21 001 leaves slot 0 in CLOSING with the counter at 0, so the loop
`i < MAX_WITHROTTLE_CLIENTS && num_wi_clients > 0` is not entered again: the slot is still
CLOSING after the pass at 40 000. With two clients (slot 0 silent) the counter is 1 with
two slots in use, then 0 after slot 0 is reaped, and the ACTIVE client of slot 1 is not
visited any more, even when its connection is lost. A lost connection alone keeps counter
and table in step. -/
theorem heartbeat_expiry_counts_client_twice :
    one_client.num_wi_clients = num_not_free one_client ∧
    (client_pass cfg_merg 21001 "" "" quiet_links one_client).map
        (fun r => (r.1.num_wi_clients, num_not_free r.1, (wt_client r.1 0).state)) =
      some (0, 1, W_CLOSING) ∧
    ((client_pass cfg_merg 21001 "" "" quiet_links one_client).bind
        (fun r => client_pass cfg_merg 40000 "" "" quiet_links r.1)).map
        (fun r => (r.1.num_wi_clients, num_not_free r.1, (wt_client r.1 0).state)) =
      some (0, 1, W_CLOSING) ∧
    two_clients_swapped.num_wi_clients = num_not_free two_clients_swapped ∧
    (client_pass cfg_merg 21001 "" "" quiet_links two_clients_swapped).map
        (fun r => (r.1.num_wi_clients, num_not_free r.1,
                   r.1.clients.map (fun c => c.state))) =
      some (1, 2, [W_CLOSING, W_ACTIVE, W_FREE, W_FREE]) ∧
    ((client_pass cfg_merg 21001 "" "" quiet_links two_clients_swapped).bind
        (fun r => client_pass cfg_merg 21100 "" "" quiet_links r.1)).map
        (fun r => (r.1.num_wi_clients, num_not_free r.1,
                   r.1.clients.map (fun c => c.state))) =
      some (0, 1, [W_FREE, W_ACTIVE, W_FREE, W_FREE]) ∧
    (((client_pass cfg_merg 21001 "" "" quiet_links two_clients_swapped).bind
        (fun r => client_pass cfg_merg 21100 "" "" quiet_links r.1)).bind
        (fun r => client_pass cfg_merg 40000 "" "" lost_links r.1)).map
        (fun r => (r.1.num_wi_clients, num_not_free r.1,
                   r.1.clients.map (fun c => c.state))) =
      some (0, 1, [W_FREE, W_ACTIVE, W_FREE, W_FREE]) ∧
    (client_pass cfg_merg 20500 "" "" lost_links one_client).map
        (fun r => (r.1.num_wi_clients, num_not_free r.1, (wt_client r.1 0).state)) =
      some (1, 1, W_CLOSING) ∧
    ((client_pass cfg_merg 20500 "" "" lost_links one_client).bind
        (fun r => client_pass cfg_merg 20600 "" "" lost_links r.1)).map
        (fun r => (r.1.num_wi_clients, num_not_free r.1, (wt_client r.1 0).state)) =
      some (0, 0, W_FREE) := by
  decide

/-- C27 (the code departs from the claim): `send_merg_func_dfun` builds a frame of length 3
with the function bytes in `data[1]` and `data[2]` and no session byte. For the active
client of session 1 (loco 100) and the function bytes (161, 0) of `F109` the frame is
`<0x60><161><0>`; the DFUN handler of the session manager takes 161 for the session number
and answers with the session error frame; no `<f ...>` command is forwarded. A frame
`<0x60><1><161><0>` is decoded into `<f 100 161 0>`. -/
theorem dfun_frame_lacks_session_byte :
    driving_client.session_id = 1 ∧ (slot granted_tab 0).loco_addr = 100 ∧
    send_merg_func_dfun driving_client 3 161 0 =
      some { identifier := make_can_header 3, data_length_code := 3, flags := none,
             data := [OPC_DFUN, 161, 0] } ∧
    dfun granted_tab
        { identifier := make_can_header 3, data_length_code := 3, flags := none,
          data := [OPC_DFUN, 161, 0] } 6000 1 =
      .done { tab := granted_tab,
              frames := [{ identifier := make_can_header 1, data_length_code := 4,
                           flags := some 0, data := [OPC_ERR, 161, 0, 1] }],
              cmds := [] } ∧
    (∃ o, dfun granted_tab (received_frame (make_can_header 3) [OPC_DFUN, 1, 161, 0]) 6000 1 =
        .done o ∧ o.frames = [] ∧ o.cmds = ["<f 100 161 0>"]) := by
  refine ⟨by decide, by decide, by decide, by decide, ?_⟩
  exact ⟨_, rfl, by decide, by decide⟩

/-! ## Session manager: invariant of the table -/

/-- C28: from the initial table, after any sequence of time-out sweeps and of RLOC, KLOC,
DKEEP, DSPD and DFUN frames whose session byte is in 1..8, every handler has stayed inside
the table, the table has 8 slots, no two slots hold the same non-zero loco address, and
slot `i` has session number `i + 1`. -/
theorem session_table_addresses_stay_unique (CANID : Nat) (steps : List proxy_step)
    (hok : steps.all session_byte_ok = true) :
    ∃ t, proxy_run CANID session_tab_init steps = some t ∧
      t.length = MAX_PROXY_SESSIONS ∧
      (∀ i j, i < MAX_PROXY_SESSIONS → j < MAX_PROXY_SESSIONS → i ≠ j →
        (slot t i).loco_addr ≠ 0 → (slot t i).loco_addr ≠ (slot t j).loco_addr) ∧
      (∀ i, i < MAX_PROXY_SESSIONS → (slot t i).cbus_session_num = i + 1) := by
  rw [List.all_eq_true] at hok
  obtain ⟨t, e, h⟩ := tab_inv_run CANID steps session_tab_init tab_inv_init hok
  exact ⟨t, e, h⟩

/-- C28, witness: after the steps of `proxy_session` slot 0 holds loco 100 and slot 1
loco 3, with session numbers 1 and 2. -/
theorem session_table_addresses_stay_unique_witness :
    proxy_session.all session_byte_ok = true ∧
    ∃ t, proxy_run 1 session_tab_init proxy_session = some t ∧
      (slot t 0).loco_addr = 100 ∧ (slot t 1).loco_addr = 3 ∧
      (slot t 0).loco_addr ≠ (slot t 1).loco_addr ∧
      (slot t 0).cbus_session_num = 1 ∧ (slot t 1).cbus_session_num = 2 := by
  refine ⟨by decide, ?_⟩
  obtain ⟨t, e, _, h2, h3⟩ :=
    session_table_addresses_stay_unique 1 proxy_session (by decide)
  have hd : (proxy_run 1 session_tab_init proxy_session).map
      (fun t => ((slot t 0).loco_addr, (slot t 1).loco_addr)) = some (100, 3) := by decide
  rw [e] at hd
  simp only [Option.map_some', Option.some.injEq, Prod.mk.injEq] at hd
  refine ⟨t, e, hd.1, hd.2, ?_, h3 0 (by decide), h3 1 (by decide)⟩
  exact h2 0 1 (by decide) (by decide) (by decide) (by rw [hd.1]; decide)

/-! ## Message fabric: order of delivery -/

/-- C29: on a buffer of 8 rows that starts empty, for every sequence of writes and reads in
which every message written is shorter than 32 characters and no write is made while 7
messages are unread, the reader receives exactly what a first-in first-out queue delivers:
the messages received, followed by those still unread, are the messages written, in order
and unchanged. After every access `head` and `tail` are in 0..7. -/
theorem ring_buffer_delivers_in_order (mb : message_buffer_t) (ops : List rb_op)
    (hrows : mb.buffer.length = NUM_PROXY_CMDS)
    (h0 : mb.head = mb.tail) (h1 : mb.head < NUM_PROXY_CMDS)
    (hcap : within_capacity (rb_start mb) ops = true) (hshort : pushes_short ops = true) :
    rb_pops mb ops = fifo_spec_pops [] ops ∧
    rb_pops mb ops ++ rb_contents (rb_run (rb_start mb) ops) = rb_pushed ops ∧
    (∀ n, (rb_run (rb_start mb) (ops.take n)).mb.head < NUM_PROXY_CMDS ∧
          (rb_run (rb_start mb) (ops.take n)).mb.tail < NUM_PROXY_CMDS) := by
  have h := rb_pops_refine ops (rb_start mb) (rb_inv_start mb h0 h1) hrows hcap hshort
  refine ⟨h.1, ?_, ?_⟩
  · have := h.2
    simpa [rb_start, rb_contents] using this
  · intro n
    have ht : mb.tail < NUM_PROXY_CMDS := by rw [← h0]; exact h1
    exact rb_indices_run _ (rb_start mb) ⟨h1, ht⟩

/-- C29, witness: seven writes, two reads, two writes and eight reads on the empty buffer:
the nine messages arrive in the order written, and nothing is left unread. -/
theorem ring_buffer_delivers_in_order_witness :
    msgbuf_zero.buffer.length = NUM_PROXY_CMDS ∧
    within_capacity (rb_start msgbuf_zero) rb_session = true ∧
    pushes_short rb_session = true ∧
    rb_pops msgbuf_zero rb_session =
      ["<s>", "<t 1 3 0 1>", "<t 1 3 10 1>", "<f 3 144 0>", "<t 2 4 0 1>", "<t 1 3 20 1>",
       "<t 2 4 5 0>", "<1>", "<0>"] ∧
    rb_pops msgbuf_zero rb_session = rb_pushed rb_session := by
  obtain ⟨h1, h2, _⟩ :=
    ring_buffer_delivers_in_order msgbuf_zero rb_session (by decide) (by decide) (by decide)
      (by decide) (by decide)
  have hc : rb_contents (rb_run (rb_start msgbuf_zero) rb_session) = [] := by decide
  rw [hc, List.append_nil] at h2
  refine ⟨by decide, by decide, by decide, ?_, h2⟩
  rw [h1]
  decide

/-! ## Throttle protocol server: error response -/

/-- C30 (the code departs from the claim): the OPC_ERR case of the throttle server is the
same code as the OPC_PLOC case. The client of slot 0 awaits its session for loco 1234
(bytes 4, 210); the error frame `<0x63><4><210><1>`, which the session manager sends for a
refused request for loco 1234, makes it ACTIVE with session number 4, the high byte of the
address. -/
theorem err_frame_activates_client :
    (wt_client (awaiting_state 0) 0).state = W_AWAITING_SESSION_ID ∧
    (wt_client (awaiting_state 0) 0).loco_addr = 1234 ∧
    (send_cbus_session_error 2 (rloc_request 3 1234) 1).data = [OPC_ERR, 4, 210, 1] ∧
    wt_client (wt_bus_frame cfg_merg (awaiting_state 0)
        (send_cbus_session_error 2 (rloc_request 3 1234) 1)) 0 =
      { scenario_acquiring 1000 4 with state := W_ACTIVE } := by
  decide

end Bridge
